import Mathlib

/-!
# HerbalTrace chaincode: validation pipeline and provenance assembly

A shallow embedding of `chaincode/herbaltrace/main.go`.

* A Go `float64` value is read as the rational number it denotes, a zero as `+0`
  (`json.Unmarshal` yields no NaN and no infinity). The validators compare these
  rationals with the decimal constants as written, and the score sums small integers,
  which float64 does exactly. Where the code computes with float64 values (the geo-fence
  distance, the percentage of a warning alert) every operation is rounded to the nearest
  float64 by `round64`.
* A Go `map[string]T` is the list of its entries; the functions that range
  over a map only test every entry, so the iteration order is immaterial.
* A Go struct is a Lean structure whose field defaults are the Go zero values
  (the Go field `Type` is written `Type_`).
* Functions that fail return `Except String _`, the string being the Go error text.
-/

set_option autoImplicit false

namespace HerbalTrace

/-! ## Data model (`main.go` lines 16-156) -/

/-- CollectionEvent, a harvest/collection event with GPS data. -/
structure CollectionEvent where
  ID : String := ""
  Type_ : String := ""
  FarmerID : String := ""
  FarmerName : String := ""
  Species : String := ""
  CommonName : String := ""
  ScientificName : String := ""
  Quantity : ℚ := 0
  Unit : String := ""
  Latitude : ℚ := 0
  Longitude : ℚ := 0
  Altitude : ℚ := 0
  Accuracy : ℚ := 0
  HarvestDate : String := ""
  Timestamp : String := ""
  HarvestMethod : String := ""
  PartCollected : String := ""
  WeatherConditions : String := ""
  SoilType : String := ""
  Images : List String := []
  ApprovedZone : Bool := false
  ZoneName : String := ""
  ConservationStatus : String := ""
  CertificationIDs : List String := []
  Status : String := ""
  NextStepID : String := ""
  deriving DecidableEq, Repr

/-- QualityTest, a laboratory testing result. -/
structure QualityTest where
  ID : String := ""
  Type_ : String := ""
  CollectionEventID : String := ""
  BatchID : String := ""
  LabID : String := ""
  LabName : String := ""
  TestDate : String := ""
  Timestamp : String := ""
  TestTypes : List String := []
  MoistureContent : ℚ := 0
  PesticideResults : List (String × String) := []
  HeavyMetals : List (String × ℚ) := []
  DNABarcodeMatch : Bool := false
  DNASequence : String := ""
  MicrobialLoad : ℚ := 0
  Aflatoxins : ℚ := 0
  OverallResult : String := ""
  CertificateID : String := ""
  CertificateURL : String := ""
  TesterName : String := ""
  TesterSignature : String := ""
  Status : String := ""
  NextStepID : String := ""
  deriving DecidableEq, Repr

/-- ProcessingStep, a processing/manufacturing step. -/
structure ProcessingStep where
  ID : String := ""
  Type_ : String := ""
  PreviousStepID : String := ""
  BatchID : String := ""
  ProcessorID : String := ""
  ProcessorName : String := ""
  ProcessType : String := ""
  ProcessDate : String := ""
  Timestamp : String := ""
  InputQuantity : ℚ := 0
  OutputQuantity : ℚ := 0
  Unit : String := ""
  Temperature : ℚ := 0
  Duration : ℚ := 0
  Equipment : String := ""
  Parameters : List (String × String) := []
  QualityChecks : List String := []
  OperatorID : String := ""
  OperatorName : String := ""
  Location : String := ""
  Latitude : ℚ := 0
  Longitude : ℚ := 0
  Status : String := ""
  NextStepID : String := ""
  deriving DecidableEq, Repr

/-- Product, the final product with its QR code and weak upstream references. -/
structure Product where
  ID : String := ""
  Type_ : String := ""
  ProductName : String := ""
  ProductType : String := ""
  ManufacturerID : String := ""
  ManufacturerName : String := ""
  BatchID : String := ""
  ManufactureDate : String := ""
  ExpiryDate : String := ""
  Quantity : ℚ := 0
  Unit : String := ""
  QRCode : String := ""
  Ingredients : List String := []
  CollectionEventIDs : List String := []
  QualityTestIDs : List String := []
  ProcessingStepIDs : List String := []
  Certifications : List String := []
  PackagingDate : String := ""
  Status : String := ""
  Timestamp : String := ""
  deriving DecidableEq, Repr

/-- Provenance, the derived bundle of a product and its resolvable upstream records. -/
structure Provenance where
  ID : String := ""
  ProductID : String := ""
  QRCode : String := ""
  GeneratedDate : String := ""
  CollectionEvents : List CollectionEvent := []
  QualityTests : List QualityTest := []
  ProcessingSteps : List ProcessingStep := []
  Product : Product := {}
  SustainabilityScore : ℚ := 0
  TotalDistance : ℚ := 0
  deriving DecidableEq, Repr

/-! ## float64 arithmetic

IEEE 754 binary64 with the default rounding (to nearest, a tie to the even significand),
which is what Go's `float64` operations and constant conversions perform. Each operation
is rounded on its own: the fused multiply-add that the Go specification permits a
compiler to use is not modelled (the amd64 compiler does not fuse by default). -/

/-- Rounding of a rational to the nearest integer, a tie going to the even one. -/
def roundHalfEven (y : ℚ) : ℤ :=
  let n : ℤ := ⌊y⌋
  let r : ℚ := y - n
  if r < 1 / 2 then n
  else if r > 1 / 2 then n + 1
  else if n % 2 = 0 then n else n + 1

/-- The float64 nearest to a rational: 53 significant bits in the binade of `x`, the
spacing of the subnormals (`2 ^ -1074`) below `2 ^ -1022`. The exponent is not bounded
above: a result of magnitude `2 ^ 1024` or more stands for an overflow. -/
def round64 (x : ℚ) : ℚ :=
  if x = 0 then 0
  else
    let e : ℤ := max (Int.log 2 |x| - 52) (-1074)
    (roundHalfEven (x / (2 : ℚ) ^ e) : ℚ) * (2 : ℚ) ^ e

/-! ## Pure validators (`main.go` lines 862-987) -/

/-- validateGeoFencing (lines 863-898): coordinate range check, then the Neem circle in
plain degrees, computed in float64; every other species is allowed. The constants
`30.268804`, `77.993259` and `0.5` are the float64 values nearest to the decimals. -/
def validateGeoFencing (lat lon : ℚ) (species : String) : Bool :=
  if lat < -90 ∨ lat > 90 ∨ lon < -180 ∨ lon > 180 then false
  else if species = "Neem" then
    let neemLat : ℚ := round64 (30268804 / 1000000)
    let neemLon : ℚ := round64 (77993259 / 1000000)
    let radius : ℚ := round64 (5 / 10)
    let latDiff := round64 (lat - neemLat)
    let lonDiff := round64 (lon - neemLon)
    let distance := round64 (round64 (latDiff * latDiff) + round64 (lonDiff * lonDiff))
    if distance ≤ round64 (radius * radius) then true else false
  else if species = "Ashwagandha" then true
  else if species = "Tulsi" ∨ species = "Brahmi" then true
  else true

/-- The `heavyMetalLimits` map literal of validateQualityGates (lines 934-939), in ppm. -/
def heavyMetalLimits : List (String × ℚ) :=
  [("lead", 10), ("arsenic", 3), ("mercury", 1), ("cadmium", 3 / 10)]

/-- One iteration of the heavy-metal loop (lines 941-947): `true` when the
entry makes validateQualityGates return false. -/
def heavyMetalExceeds (entry : String × ℚ) : Bool :=
  match heavyMetalLimits.lookup entry.1 with
  | some limit => decide (entry.2 > limit)
  | none => false

/-- validateQualityGates (lines 920-955): moisture, pesticides, heavy metals,
aflatoxins, each an early `return false`. -/
def validateQualityGates (test : QualityTest) : Bool :=
  if test.MoistureContent > 12 then false
  else if test.PesticideResults.any (fun entry => entry.2 != "pass") then false
  else if test.HeavyMetals.any heavyMetalExceeds then false
  else if test.Aflatoxins > 20 then false
  else true

/-- The first loop of calculateSustainabilityScore (lines 962-966). -/
def deductZones (score : ℚ) (events : List CollectionEvent) : ℚ :=
  events.foldl (fun s event => if !event.ApprovedZone then s - 10 else s) score

/-- The second loop of calculateSustainabilityScore (lines 969-973). -/
def deductFailedTests (score : ℚ) (tests : List QualityTest) : ℚ :=
  tests.foldl (fun s test => if test.OverallResult = "fail" then s - 15 else s) score

/-- calculateSustainabilityScore (lines 958-987). -/
def calculateSustainabilityScore (prov : Provenance) : ℚ :=
  let score : ℚ := 100
  let score := deductZones score prov.CollectionEvents
  let score := deductFailedTests score prov.QualityTests
  let certificationBonus : ℚ := (prov.Product.Certifications.length : ℚ) * 5
  let score := score + certificationBonus
  let score := if score < 0 then 0 else score
  let score := if score > 100 then 100 else score
  score

/-! ## Reference formulas used to state the score claims -/

/-- The clamp of a rational to the closed interval `[lo, hi]`. -/
def clamp (x lo hi : ℚ) : ℚ := min (max x lo) hi

/-- Number of included collection events with `approvedZone = false`. -/
def nonApprovedCount (prov : Provenance) : ℕ :=
  prov.CollectionEvents.countP (fun event => !event.ApprovedZone)

/-- Number of included quality tests with `overallResult = "fail"`. -/
def failedTestCount (prov : Provenance) : ℕ :=
  prov.QualityTests.countP (fun test => decide (test.OverallResult = "fail"))

/-- The score formula with the certifications counted without repetition. -/
def scoreDistinctCerts (prov : Provenance) : ℚ :=
  clamp (100 - 10 * (nonApprovedCount prov : ℚ) - 15 * (failedTestCount prov : ℚ)
    + 5 * (prov.Product.Certifications.dedup.length : ℚ)) 0 100

/-- The score formula with every entry of the certification list counted. -/
def scoreListedCerts (prov : Provenance) : ℚ :=
  clamp (100 - 10 * (nonApprovedCount prov : ℚ) - 15 * (failedTestCount prov : ℚ)
    + 5 * (prov.Product.Certifications.length : ℚ)) 0 100

/-! ## External platform and collaborators

`encoding/json` and the Fabric stub are external libraries, and
`ValidateSeasonWindow`, `getCurrentSeason`, `ValidateHarvestLimit`,
`TrackHarvestQuantity`, `GetHarvestStatistics` and `CreateAlert` are methods of the
contract defined outside `main.go`. They are parameters of the embedding: every
statement about `CreateCollectionEvent` and `GenerateProvenance` is quantified over them.
CreateAlert returns nothing that `main.go` reads; a call of it is recorded with the text
it is handed. -/

/-- `encoding/json` on the record types: `json.Unmarshal` into a struct and `json.Marshal`. -/
structure Json where
  unmarshalCollectionEvent : String → Except String CollectionEvent
  unmarshalQualityTest : String → Except String QualityTest
  unmarshalProcessingStep : String → Except String ProcessingStep
  unmarshalProduct : String → Except String Product
  marshalCollectionEvent : CollectionEvent → Except String String

/-- The ledger stub `ctx.GetStub()`: `GetState` answers the stored bytes (`none` for the
Go `nil`, the key being absent) or a read error; `PutState` answers a write error or succeeds. -/
structure Stub where
  GetState : String → Except String (Option String)
  PutState : String → String → Except String Unit

/-- The `*HarvestStatistics` returned by GetHarvestStatistics, as read at lines 256-271. -/
structure HarvestStats where
  CurrentQuantity : ℚ := 0
  MaxQuantity : ℚ := 0
  Unit : String := ""
  Status : String := ""
  deriving DecidableEq, Repr

/-- The contract methods called by CreateCollectionEvent that live outside `main.go`.
`Q` is the state owned by the harvest-quota ledger: the two queries read it and
TrackHarvestQuantity answers the state after the increment (or an error, the state kept). -/
structure Collaborators (Q : Type) where
  ValidateSeasonWindow : String → String → String → Except String Bool
  getCurrentSeason : String
  ValidateHarvestLimit : Q → String → String → String → ℚ → Except String Bool
  TrackHarvestQuantity : Q → String → String → String → ℚ → Except String Q
  GetHarvestStatistics : Q → String → String → String → Except String HarvestStats

/-! ## Text: the `%.Nf` verb of `fmt.Sprintf` and JSON objects

An alert is handed to CreateAlert as the text `fmt.Sprintf` builds from a template: every
`%s` operand is inserted as it is, without JSON escaping. -/

/-- A float64 result that need not be finite: the sign bit with the magnitude, an
infinity, or NaN. -/
inductive Float64 where
  | finite (negative : Bool) (magnitude : ℚ)
  | inf (negative : Bool)
  | nan
  deriving DecidableEq, Repr

/-- A float64 field as an operand of `Sprintf`; a zero is read as `+0`. -/
def Float64.ofRat (x : ℚ) : Float64 := .finite (decide (x < 0)) |x|

/-- The digits of `%.<prec>f` for a magnitude already multiplied by `10 ^ prec` and
rounded: the integer part and, after a point, the fraction padded with zeros to `prec`
digits. -/
def fixedDigits (prec scaled : ℕ) : String :=
  let whole := toString (scaled / 10 ^ prec)
  let frac := toString (scaled % 10 ^ prec)
  if prec = 0 then whole
  else whole ++ "." ++ String.mk (List.replicate (prec - frac.length) '0') ++ frac

/-- The verb `%.<prec>f` of `fmt`: the exact binary value rounded to `prec` decimals, a
tie going to the even digit, after a `-` when the sign bit is set; `NaN`, `+Inf` and
`-Inf` for the values that are not finite. -/
def formatFloat (prec : ℕ) : Float64 → String
  | .nan => "NaN"
  | .inf negative => if negative then "-Inf" else "+Inf"
  | .finite negative magnitude =>
    (if negative then "-" else "") ++
      fixedDigits prec (roundHalfEven (magnitude * 10 ^ prec)).toNat

/-- The double quote, which opens and closes a JSON string. -/
def quoteChar : Char := Char.ofNat 34

/-- The backslash, which starts an escape sequence inside a JSON string. -/
def backslashChar : Char := Char.ofNat 92

/-- A character that stands for itself inside a JSON string: not the quote, not the
backslash, not a control character. -/
def isPlainChar (c : Char) : Bool :=
  c != quoteChar && c != backslashChar && decide (32 ≤ c.toNat)

/-- A string that JSON writes between quotes unchanged. -/
def plainText (s : String) : Bool := s.data.all isPlainChar

/-- JSON whitespace: space, tab, line feed, carriage return. -/
def isJsonSpace (c : Char) : Bool := c = ' ' || c = '\t' || c = '\n' || c = '\r'

/-- Drops leading JSON whitespace. -/
def skipSpace : List Char → List Char
  | [] => []
  | c :: rest => if isJsonSpace c then skipSpace rest else c :: rest

/-- The character a two-character escape sequence stands for (`\u` escapes are not read). -/
def unescape (c : Char) : Option Char :=
  if c = quoteChar then some quoteChar
  else if c = backslashChar then some backslashChar
  else if c = '/' then some '/'
  else if c = 'b' then some (Char.ofNat 8)
  else if c = 'f' then some (Char.ofNat 12)
  else if c = 'n' then some '\n'
  else if c = 'r' then some '\r'
  else if c = 't' then some '\t'
  else none

/-- Reads a JSON string from behind its opening quote: the characters up to the closing
quote and the text after it. The flag says that the previous character was a backslash. -/
def readStringBody : Bool → List Char → Option (List Char × List Char)
  | _, [] => none
  | true, c :: rest =>
    match unescape c with
    | some e => (readStringBody false rest).map fun p => (e :: p.1, p.2)
    | none => none
  | false, c :: rest =>
    if c = quoteChar then some ([], rest)
    else if c = backslashChar then readStringBody true rest
    else if c.toNat < 32 then none
    else (readStringBody false rest).map fun p => (c :: p.1, p.2)

/-- Reads a JSON string, opening quote included. -/
def readString : List Char → Option (String × List Char)
  | [] => none
  | c :: rest =>
    if c = quoteChar then (readStringBody false rest).map fun p => (String.mk p.1, p.2)
    else none

/-- Reads the members `"key": "value"` of a JSON object up to the closing brace, which
must end the text; `fuel` bounds the number of members. -/
def readMembers : ℕ → List Char → Option (List (String × String))
  | 0, _ => none
  | fuel + 1, cs =>
    match readString (skipSpace cs) with
    | none => none
    | some (key, r1) =>
      match skipSpace r1 with
      | ':' :: r2 =>
        match readString (skipSpace r2) with
        | none => none
        | some (value, r3) =>
          match skipSpace r3 with
          | ',' :: r4 =>
            match readMembers fuel r4 with
            | some members => some ((key, value) :: members)
            | none => none
          | '}' :: r4 => if skipSpace r4 = [] then some [(key, value)] else none
          | _ => none
      | _ => none

/-- The members, in order and with repetitions, of a text that is a JSON object whose
values are all strings; `none` for any other text. -/
def readObject (text : String) : Option (List (String × String)) :=
  match skipSpace text.data with
  | '{' :: rest =>
    match skipSpace rest with
    | '}' :: rest' => if skipSpace rest' = [] then some [] else none
    | _ => readMembers rest.length rest
  | _ => none

/-- The value a reader that keeps the last of repeated keys (as `encoding/json` does)
finds under a key. -/
def lastMember (key : String) (members : List (String × String)) : Option String :=
  members.reverse.lookup key

/-- The value an alert text carries under a key, the text read as a JSON object. -/
def alertMember (key : String) (alertJSON : String) : Option String :=
  (readObject alertJSON).bind (lastMember key)

/-- One line of an alert template: line feed, three tabs, `"key": "value"`. -/
def memberLine (member : String × String) : List Char :=
  ['\n', '\t', '\t', '\t', quoteChar] ++ member.1.data ++ [quoteChar, ':', ' ', quoteChar] ++
    member.2.data ++ [quoteChar]

/-- What follows a member line in an alert template: a comma and the next member line,
or the closing line (line feed, two tabs, closing brace). -/
def objectTail : List (String × String) → List Char
  | [] => ['\n', '\t', '\t', '}']
  | member :: rest => ',' :: (memberLine member ++ objectTail rest)

/-- The layout shared by the alert templates of `main.go`: an opening brace, one line
per member, the closing line; keys and values are written as they are. -/
def objectLines : List (String × String) → List Char
  | [] => []
  | member :: rest => '{' :: (memberLine member ++ objectTail rest)

/-- A value of an event payload map (`map[string]interface{}`). -/
inductive PayloadValue where
  | str (s : String)
  | num (x : ℚ)
  deriving DecidableEq, Repr

/-- The calls CreateCollectionEvent makes on the contract's own validators, on its
collaborators and on the stub, with their arguments. -/
inductive Call where
  | ValidateSeasonWindow (species harvestDate zoneName : String)
  | validateGeoFencing (lat lon : ℚ) (species : String)
  | getCurrentSeason
  | ValidateHarvestLimit (species zoneName season : String) (quantity : ℚ)
  | TrackHarvestQuantity (species zoneName season : String) (quantity : ℚ)
  | GetHarvestStatistics (species zoneName season : String)
  | validateConservationLimits (species : String) (quantity : ℚ)
  | CreateAlert (alertJSON : String)
  | PutState (key value : String)
  | SetEvent (name : String) (payload : List (String × PayloadValue))
  deriving DecidableEq, Repr

/-- What one invocation of CreateCollectionEvent leaves behind: the returned error (or
`nil`), the quota-ledger state, the calls made in order, and the final value of the
local `event` (`none` when the input did not unmarshal). -/
structure Outcome (Q : Type) where
  result : Except String Unit
  quota : Q
  calls : List Call
  event : Option CollectionEvent

/-! ## CreateCollectionEvent (`main.go` lines 165-320) -/

/-- The `endangeredSpecies` map literal of validateConservationLimits (lines 906-910). -/
def endangeredSpecies : List (String × Bool) :=
  [("Aconitum heterophyllum", true), ("Nardostachys jatamansi", true), ("Picrorhiza kurroa", true)]

/-- validateConservationLimits (lines 901-917); a missing map key reads as `false`. -/
def validateConservationLimits (species : String) (_quantity : ℚ) : Except String Unit :=
  if (endangeredSpecies.lookup species).getD false = true then
    .error ("species " ++ species ++ " is endangered and requires special permit")
  else .ok ()

/-- The season-violation alert (lines 179-189): the template with ID, ID, species,
zone, species, harvest date and zone inserted. -/
def seasonAlert (event : CollectionEvent) : String :=
  "\x7b\n" ++
  "\t\t\t\"id\": \"alert_season_" ++ event.ID ++ "\",\n" ++
  "\t\t\t\"alertType\": \"season_violation\",\n" ++
  "\t\t\t\"severity\": \"high\",\n" ++
  "\t\t\t\"entityId\": \"" ++ event.ID ++ "\",\n" ++
  "\t\t\t\"entityType\": \"CollectionEvent\",\n" ++
  "\t\t\t\"species\": \"" ++ event.Species ++ "\",\n" ++
  "\t\t\t\"zone\": \"" ++ event.ZoneName ++ "\",\n" ++
  "\t\t\t\"message\": \"Harvest outside allowed season window\",\n" ++
  "\t\t\t\"details\": \"Species " ++ event.Species ++ " harvested on " ++ event.HarvestDate ++
    " in " ++ event.ZoneName ++ " is outside the permitted season window\"\n" ++
  "\t\t\x7d"

/-- The zone-violation alert (lines 200-210): the template with ID, ID, species, zone,
latitude and longitude (`%.6f`) and species inserted. -/
def zoneAlert (event : CollectionEvent) : String :=
  "\x7b\n" ++
  "\t\t\t\"id\": \"alert_zone_" ++ event.ID ++ "\",\n" ++
  "\t\t\t\"alertType\": \"zone_violation\",\n" ++
  "\t\t\t\"severity\": \"high\",\n" ++
  "\t\t\t\"entityId\": \"" ++ event.ID ++ "\",\n" ++
  "\t\t\t\"entityType\": \"CollectionEvent\",\n" ++
  "\t\t\t\"species\": \"" ++ event.Species ++ "\",\n" ++
  "\t\t\t\"zone\": \"" ++ event.ZoneName ++ "\",\n" ++
  "\t\t\t\"message\": \"Collection location outside approved zone\",\n" ++
  "\t\t\t\"details\": \"Harvest at coordinates (" ++
    formatFloat 6 (Float64.ofRat event.Latitude) ++ ", " ++
    formatFloat 6 (Float64.ofRat event.Longitude) ++
    ") is outside approved zone for species " ++ event.Species ++ "\"\n" ++
  "\t\t\x7d"

/-- The over-harvest alert (lines 231-241): the template with ID, ID, species, zone,
quantity (`%.2f`), unit, species, zone and season inserted. -/
def harvestAlert (event : CollectionEvent) (currentSeason : String) : String :=
  "\x7b\n" ++
  "\t\t\t\"id\": \"alert_harvest_" ++ event.ID ++ "\",\n" ++
  "\t\t\t\"alertType\": \"over_harvest\",\n" ++
  "\t\t\t\"severity\": \"critical\",\n" ++
  "\t\t\t\"entityId\": \"" ++ event.ID ++ "\",\n" ++
  "\t\t\t\"entityType\": \"CollectionEvent\",\n" ++
  "\t\t\t\"species\": \"" ++ event.Species ++ "\",\n" ++
  "\t\t\t\"zone\": \"" ++ event.ZoneName ++ "\",\n" ++
  "\t\t\t\"message\": \"Harvest limit exceeded\",\n" ++
  "\t\t\t\"details\": \"Attempting to harvest " ++
    formatFloat 2 (Float64.ofRat event.Quantity) ++ " " ++ event.Unit ++ " of " ++
    event.Species ++ " in " ++ event.ZoneName ++ " for season " ++ currentSeason ++
    " would exceed the limit\"\n" ++
  "\t\t\x7d"

/-- The local `percentageUsed` (line 258): `(CurrentQuantity / MaxQuantity) * 100` in
float64. A division by zero gives an infinity (NaN for `0 / 0`), and so does a quotient
or product of magnitude `2 ^ 1024` or more. -/
def percentageUsed (harvestStats : HarvestStats) : Float64 :=
  let current := harvestStats.CurrentQuantity
  let maximum := harvestStats.MaxQuantity
  if maximum = 0 then
    if current = 0 then .nan else .inf (decide (current < 0))
  else
    let negative := decide (current < 0) != decide (maximum < 0)
    let ratio := round64 (|current| / |maximum|)
    if 2 ^ 1024 ≤ ratio then .inf negative
    else
      let percent := round64 (ratio * 100)
      if 2 ^ 1024 ≤ percent then .inf negative else .finite negative percent

/-- The harvest-limit warning alert (lines 259-271): the template with species, zone,
season, ID, species, zone, the percentage (`%.1f`), species, zone, season, the current
and maximum quantities (`%.2f`) and the unit inserted. -/
def warningAlert (event : CollectionEvent) (currentSeason : String)
    (harvestStats : HarvestStats) : String :=
  "\x7b\n" ++
  "\t\t\t\"id\": \"alert_warning_" ++ event.Species ++ "_" ++ event.ZoneName ++ "_" ++
    currentSeason ++ "\",\n" ++
  "\t\t\t\"alertType\": \"over_harvest\",\n" ++
  "\t\t\t\"severity\": \"medium\",\n" ++
  "\t\t\t\"entityId\": \"" ++ event.ID ++ "\",\n" ++
  "\t\t\t\"entityType\": \"CollectionEvent\",\n" ++
  "\t\t\t\"species\": \"" ++ event.Species ++ "\",\n" ++
  "\t\t\t\"zone\": \"" ++ event.ZoneName ++ "\",\n" ++
  "\t\t\t\"message\": \"Harvest limit warning\",\n" ++
  "\t\t\t\"details\": \"" ++ formatFloat 1 (percentageUsed harvestStats) ++
    "% of harvest limit reached for " ++ event.Species ++ " in " ++ event.ZoneName ++
    " for season " ++ currentSeason ++ " (" ++
    formatFloat 2 (Float64.ofRat harvestStats.CurrentQuantity) ++ " / " ++
    formatFloat 2 (Float64.ofRat harvestStats.MaxQuantity) ++ " " ++ harvestStats.Unit ++
    ")\"\n" ++
  "\t\t\x7d"

/-- The compliance alert (lines 278-288): the template with ID, ID, species, zone and
species inserted. -/
def conservationAlert (event : CollectionEvent) : String :=
  "\x7b\n" ++
  "\t\t\t\"id\": \"alert_conservation_" ++ event.ID ++ "\",\n" ++
  "\t\t\t\"alertType\": \"compliance\",\n" ++
  "\t\t\t\"severity\": \"high\",\n" ++
  "\t\t\t\"entityId\": \"" ++ event.ID ++ "\",\n" ++
  "\t\t\t\"entityType\": \"CollectionEvent\",\n" ++
  "\t\t\t\"species\": \"" ++ event.Species ++ "\",\n" ++
  "\t\t\t\"zone\": \"" ++ event.ZoneName ++ "\",\n" ++
  "\t\t\t\"message\": \"Conservation limit violation\",\n" ++
  "\t\t\t\"details\": \"Conservation limits exceeded for species: " ++ event.Species ++
    "\"\n" ++
  "\t\t\x7d"

/-- The payload of the `CollectionEventCreated` event (lines 305-315). -/
def collectionEventPayload (event : CollectionEvent) : List (String × PayloadValue) :=
  [("eventType", .str "CollectionEventCreated"), ("eventId", .str event.ID),
   ("farmerId", .str event.FarmerID), ("species", .str event.Species),
   ("quantity", .num event.Quantity), ("unit", .str event.Unit),
   ("zone", .str event.ZoneName), ("status", .str event.Status),
   ("timestamp", .str event.Timestamp)]

/-- Step 5 of CreateCollectionEvent (lines 255-273): the alerts created after the
increment, one warning when GetHarvestStatistics returns no error and reports `warning`. -/
def warningAlerts {Q : Type} (c : Collaborators Q) (q : Q) (event : CollectionEvent)
    (currentSeason : String) : List String :=
  match c.GetHarvestStatistics q event.Species event.ZoneName currentSeason with
  | .ok harvestStats =>
    if harvestStats.Status = "warning" then [warningAlert event currentSeason harvestStats]
    else []
  | .error _ => []

/-- Steps 5-8 of CreateCollectionEvent (lines 254-319), entered once TrackHarvestQuantity
has returned the ledger state `q`: warning alert, conservation check, save, emit. -/
def finishCollectionEvent {Q : Type} (json : Json) (stub : Stub) (c : Collaborators Q) (q : Q)
    (event : CollectionEvent) (currentSeason : String) (calls : List Call) : Outcome Q :=
  let calls := calls ++ [Call.GetHarvestStatistics event.Species event.ZoneName currentSeason]
  let calls := calls ++ (warningAlerts c q event currentSeason).map Call.CreateAlert
  let calls := calls ++ [Call.validateConservationLimits event.Species event.Quantity]
  match validateConservationLimits event.Species event.Quantity with
  | .error err =>
    { result := .error err, quota := q,
      calls := calls ++ [Call.CreateAlert (conservationAlert event)], event := some event }
  | .ok _ =>
    match json.marshalCollectionEvent event with
    | .error err =>
      { result := .error ("failed to marshal event: " ++ err), quota := q, calls := calls,
        event := some event }
    | .ok eventBytes =>
      let calls := calls ++ [Call.PutState event.ID eventBytes]
      match stub.PutState event.ID eventBytes with
      | .error err =>
        { result := .error ("failed to save collection event: " ++ err), quota := q,
          calls := calls, event := some event }
      | .ok _ =>
        { result := .ok (), quota := q,
          calls := calls ++ [Call.SetEvent "CollectionEventCreated" (collectionEventPayload event)],
          event := some event }

/-- The `else` branch of the geo-fence stage (lines 216-221): the event is marked as in
an approved zone and an empty status becomes "pending". -/
def approved (event : CollectionEvent) : CollectionEvent :=
  { event with
    ApprovedZone := true,
    Status := if event.Status = "" then "pending" else event.Status }

/-- Steps 3-4 of CreateCollectionEvent (lines 223-252), entered with the event the
geo-fence stage approved: quota check, then the increment. -/
def checkAndTrackHarvest {Q : Type} (json : Json) (stub : Stub) (c : Collaborators Q) (q : Q)
    (event : CollectionEvent) (calls : List Call) : Outcome Q :=
  let currentSeason := c.getCurrentSeason
  let calls := calls ++ [Call.getCurrentSeason,
    Call.ValidateHarvestLimit event.Species event.ZoneName currentSeason event.Quantity]
  match c.ValidateHarvestLimit q event.Species event.ZoneName currentSeason event.Quantity with
  | .error err =>
    { result := .error ("harvest limit validation error: " ++ err), quota := q, calls := calls,
      event := some event }
  | .ok withinLimit =>
    if !withinLimit then
      { result := .error ("harvest limit exceeded for species: " ++ event.Species ++
          " in zone: " ++ event.ZoneName),
        quota := q, calls := calls ++ [Call.CreateAlert (harvestAlert event currentSeason)],
        event := some { event with Status := "rejected" } }
    else
      let calls := calls ++
        [Call.TrackHarvestQuantity event.Species event.ZoneName currentSeason event.Quantity]
      match c.TrackHarvestQuantity q event.Species event.ZoneName currentSeason event.Quantity with
      | .error err =>
        { result := .error ("failed to track harvest quantity: " ++ err), quota := q,
          calls := calls, event := some event }
      | .ok q' => finishCollectionEvent json stub c q' event currentSeason calls

/-- CreateCollectionEvent (lines 165-320): unmarshal, season window, geo-fence, then the
quota and conservation steps. -/
def CreateCollectionEvent {Q : Type} (json : Json) (stub : Stub) (c : Collaborators Q) (q : Q)
    (eventJSON : String) : Outcome Q :=
  match json.unmarshalCollectionEvent eventJSON with
  | .error err =>
    { result := .error ("failed to unmarshal event: " ++ err), quota := q, calls := [],
      event := none }
  | .ok event =>
    let calls := [Call.ValidateSeasonWindow event.Species event.HarvestDate event.ZoneName]
    match c.ValidateSeasonWindow event.Species event.HarvestDate event.ZoneName with
    | .error err =>
      { result := .error ("season validation error: " ++ err), quota := q, calls := calls,
        event := some event }
    | .ok isInSeason =>
      if !isInSeason then
        { result := .error ("harvest outside allowed season window for species: " ++ event.Species),
          quota := q, calls := calls ++ [Call.CreateAlert (seasonAlert event)],
          event := some { event with ApprovedZone := false, Status := "rejected" } }
      else
        let calls := calls ++
          [Call.validateGeoFencing event.Latitude event.Longitude event.Species]
        if !validateGeoFencing event.Latitude event.Longitude event.Species then
          { result := .error ("collection location outside approved zone for species: " ++
              event.Species),
            quota := q, calls := calls ++ [Call.CreateAlert (zoneAlert event)],
            event := some { event with ApprovedZone := false, Status := "rejected" } }
        else
          checkAndTrackHarvest json stub c q (approved event) calls

/-! ## Provenance assembly (`main.go` lines 322-339, 407-424, 473-490, 723-740, 769-812) -/

/-- GetCollectionEvent (lines 323-339). -/
def GetCollectionEvent (json : Json) (stub : Stub) (id : String) : Except String CollectionEvent :=
  match stub.GetState id with
  | .error err => .error ("failed to read event: " ++ err)
  | .ok none => .error ("event not found: " ++ id)
  | .ok (some eventBytes) =>
    match json.unmarshalCollectionEvent eventBytes with
    | .error err => .error ("failed to unmarshal event: " ++ err)
    | .ok event => .ok event

/-- GetQualityTest (lines 408-424). -/
def GetQualityTest (json : Json) (stub : Stub) (id : String) : Except String QualityTest :=
  match stub.GetState id with
  | .error err => .error ("failed to read test: " ++ err)
  | .ok none => .error ("test not found: " ++ id)
  | .ok (some testBytes) =>
    match json.unmarshalQualityTest testBytes with
    | .error err => .error ("failed to unmarshal test: " ++ err)
    | .ok test => .ok test

/-- GetProcessingStep (lines 474-490). -/
def GetProcessingStep (json : Json) (stub : Stub) (id : String) : Except String ProcessingStep :=
  match stub.GetState id with
  | .error err => .error ("failed to read step: " ++ err)
  | .ok none => .error ("step not found: " ++ id)
  | .ok (some stepBytes) =>
    match json.unmarshalProcessingStep stepBytes with
    | .error err => .error ("failed to unmarshal step: " ++ err)
    | .ok step => .ok step

/-- GetProduct (lines 724-740). -/
def GetProduct (json : Json) (stub : Stub) (id : String) : Except String Product :=
  match stub.GetState id with
  | .error err => .error ("failed to read product: " ++ err)
  | .ok none => .error ("product not found: " ++ id)
  | .ok (some productBytes) =>
    match json.unmarshalProduct productBytes with
    | .error err => .error ("failed to unmarshal product: " ++ err)
    | .ok product => .ok product

/-- One of the three gathering loops of GenerateProvenance (lines 785-806): fetch every
ID in order and append the record when the fetch returned no error. -/
def gather {α : Type} (fetch : String → Except String α) (ids : List String) : List α :=
  ids.foldl (fun gathered id =>
    match fetch id with
    | .ok record => gathered ++ [record]
    | .error _ => gathered) []

/-- GenerateProvenance (lines 770-812). -/
def GenerateProvenance (json : Json) (stub : Stub) (productID : String) :
    Except String Provenance :=
  match GetProduct json stub productID with
  | .error err => .error err
  | .ok product =>
    let provenance : Provenance :=
      { ID := "PROV-" ++ productID, ProductID := productID, QRCode := product.QRCode,
        Product := product }
    let provenance := { provenance with
      CollectionEvents := gather (GetCollectionEvent json stub) product.CollectionEventIDs }
    let provenance := { provenance with
      QualityTests := gather (GetQualityTest json stub) product.QualityTestIDs }
    let provenance := { provenance with
      ProcessingSteps := gather (GetProcessingStep json stub) product.ProcessingStepIDs }
    let provenance := { provenance with
      SustainabilityScore := calculateSustainabilityScore provenance }
    .ok provenance

/-- The record stored under an ID, as a reader decoding with `decode` sees it: `none`
when the ID cannot be fetched (the key is absent, its bytes are malformed, or the read
itself fails). -/
def storedRecord {α : Type} (decode : String → Except String α) (stub : Stub) (id : String) :
    Option α :=
  match stub.GetState id with
  | .ok (some bytes) =>
    match decode bytes with
    | .ok record => some record
    | .error _ => none
  | _ => none

/-! ## Harvest-quota ledger -/

/-- Modelled from the spec: the HarvestQuotaRecord kept by the harvest-quota ledger for one
(species, zone, season) key; its Go declaration is not in `main.go`. -/
structure HarvestQuotaRecord where
  current : ℚ := 0
  max : ℚ := 0
  unit : String := ""
  deriving DecidableEq, Repr

/-- Modelled from the spec: the state of the harvest-quota ledger, one record per
(species, zone, season) key; a key never written holds its configured maximum and a
current quantity of zero. -/
abbrev QuotaStore : Type := String → String → String → HarvestQuotaRecord

/-- Modelled from the spec: `CheckLimit`, the contract of ValidateHarvestLimit, which is
not in `main.go`: true iff `stored.current + quantity <= stored.max`. -/
def checkLimit (store : QuotaStore) (species zone season : String) (quantity : ℚ) : Bool :=
  decide ((store species zone season).current + quantity ≤ (store species zone season).max)

/-- Modelled from the spec: `Increment`, the contract of TrackHarvestQuantity, which is
not in `main.go`: adds `quantity` to the stored current of the one key. -/
def increment (store : QuotaStore) (species zone season : String) (quantity : ℚ) : QuotaStore :=
  fun sp z se =>
    if sp = species ∧ z = zone ∧ se = season then
      { store sp z se with current := (store sp z se).current + quantity }
    else store sp z se

/-- The stated contract of the quota ledger, as a property of the collaborators. -/
def MeetsQuotaContract (c : Collaborators QuotaStore) : Prop :=
  (∀ store species zone season quantity,
    c.ValidateHarvestLimit store species zone season quantity =
      .ok (checkLimit store species zone season quantity)) ∧
  (∀ store species zone season quantity,
    c.TrackHarvestQuantity store species zone season quantity =
      .ok (increment store species zone season quantity))

/-- The quota invariant: no key holds more than its maximum. -/
def WithinCaps (store : QuotaStore) : Prop :=
  ∀ species zone season, (store species zone season).current ≤ (store species zone season).max

/-- A sequence of CreateCollectionEvent invocations executed one after another, each
starting from the quota state the previous one left. -/
def runSubmissions {Q : Type} (json : Json) (stub : Stub) (c : Collaborators Q) :
    Q → List String → Q
  | q, [] => q
  | q, eventJSON :: rest =>
    runSubmissions json stub c (CreateCollectionEvent json stub c q eventJSON).quota rest

/-! ## Observations on an outcome -/

/-- The alerts handed to CreateAlert during a call, in order. -/
def alertsOf (calls : List Call) : List String :=
  calls.filterMap fun call =>
    match call with
    | .CreateAlert alertJSON => some alertJSON
    | _ => none

/-- The four validation stages, in their fixed order. -/
inductive Stage where
  | season
  | geoFence
  | quota
  | conservation
  deriving DecidableEq, Repr

/-- The validation stages consulted during a call, in order. -/
def stagesConsulted (calls : List Call) : List Stage :=
  calls.filterMap fun call =>
    match call with
    | .ValidateSeasonWindow _ _ _ => some Stage.season
    | .validateGeoFencing _ _ _ => some Stage.geoFence
    | .ValidateHarvestLimit _ _ _ _ => some Stage.quota
    | .validateConservationLimits _ _ => some Stage.conservation
    | _ => none

/-- Whether a call is a TrackHarvestQuantity call. -/
def Call.isTrack : Call → Bool
  | .TrackHarvestQuantity _ _ _ _ => true
  | _ => false

/-- Whether a call is a PutState call. -/
def Call.isPutState : Call → Bool
  | .PutState _ _ => true
  | _ => false

/-- Whether a call is a SetEvent call. -/
def Call.isSetEvent : Call → Bool
  | .SetEvent _ _ => true
  | _ => false

/-- The stages up to and including a given one. -/
def Stage.upTo : Stage → List Stage
  | .season => [.season]
  | .geoFence => [.season, .geoFence]
  | .quota => [.season, .geoFence, .quota]
  | .conservation => [.season, .geoFence, .quota, .conservation]

/-- The alert text a failing stage hands to CreateAlert. -/
def Stage.alert (event : CollectionEvent) (currentSeason : String) : Stage → String
  | .season => seasonAlert event
  | .geoFence => zoneAlert event
  | .quota => harvestAlert event currentSeason
  | .conservation => conservationAlert event

/-- The first stage, in the fixed order, whose check fails for a submission, the
collaborators answering from the quota state `q`; `none` when all four pass. -/
def firstFailingStage {Q : Type} (c : Collaborators Q) (q : Q) (event : CollectionEvent) :
    Option Stage :=
  match c.ValidateSeasonWindow event.Species event.HarvestDate event.ZoneName with
  | .ok false => some .season
  | _ =>
    if validateGeoFencing event.Latitude event.Longitude event.Species = false then
      some .geoFence
    else
      match c.ValidateHarvestLimit q event.Species event.ZoneName c.getCurrentSeason
          event.Quantity with
      | .ok false => some .quota
      | _ =>
        match validateConservationLimits event.Species event.Quantity with
        | .error _ => some .conservation
        | .ok _ => none

/-- The alert type and severity the pipeline assigns to each stage. -/
def Stage.label : Stage → String × String
  | .season => ("season_violation", "high")
  | .geoFence => ("zone_violation", "high")
  | .quota => ("over_harvest", "critical")
  | .conservation => ("compliance", "high")

/-! ## Record creation with batch-status update (`main.go` lines 341-405, 426-471, 492-561, 676-721)

`UpdateBatchStatus` is a method of the contract defined outside `main.go`; it is a
parameter of the embedding, answering `nil` or an error for a batch ID and a label. -/

/-- QCCertificate, a quality control certificate (lines 102-118). A value of type
`interface{}` in a result row is kept as its JSON text. -/
structure QCCertificate where
  ID : String := ""
  Type_ : String := ""
  CertificateID : String := ""
  TestID : String := ""
  BatchID : String := ""
  BatchNumber : String := ""
  SpeciesName : String := ""
  TestType : String := ""
  LabID : String := ""
  LabName : String := ""
  OverallResult : String := ""
  IssuedDate : String := ""
  TestedBy : String := ""
  Results : List (List (String × String)) := []
  Timestamp : String := ""
  deriving DecidableEq, Repr

/-- `encoding/json` on the records written by the four creation functions, and on the
`resultsJSON` argument of RecordQCCertificate. -/
structure JsonRecords where
  marshalQualityTest : QualityTest → Except String String
  marshalProcessingStep : ProcessingStep → Except String String
  marshalQCCertificate : QCCertificate → Except String String
  marshalProduct : Product → Except String String
  unmarshalResults : String → Except String (List (List (String × String)))

/-- What a record-creating function does besides returning: alerts, store writes,
batch-status updates, published events and log lines, with their arguments. -/
inductive Effect where
  | CreateAlert (alertJSON : String)
  | PutState (key value : String)
  | UpdateBatchStatus (batchID status : String)
  | SetEvent (name : String) (payload : List (String × PayloadValue))
  | log (message : String)
  deriving DecidableEq, Repr

/-- What one invocation of a record-creating function leaves behind: the returned error
(or `nil`), the effects in order, and the final value of the local record (`none` when
the input did not unmarshal). -/
structure Saved (α : Type) where
  result : Except String Unit
  effects : List Effect
  record : Option α

/-- The block "auto-update batch status if batch ID is provided" shared by the four
functions (lines 383-389, 449-455, 538-544, 699-705): the update is attempted when the
batch ID is non-empty, and its error is only logged. -/
def updateBatch (UpdateBatchStatus : String → String → Except String Unit)
    (batchID label : String) : List Effect :=
  if batchID ≠ "" then
    match UpdateBatchStatus batchID label with
    | .error err =>
      [Effect.UpdateBatchStatus batchID label,
       Effect.log ("Warning: Failed to update batch status: " ++ err)]
    | .ok _ => [Effect.UpdateBatchStatus batchID label]
  else []

/-- The quality-failure alert (lines 355-363): the template with the test ID twice, the
batch ID and the lab name inserted. -/
def qualityAlert (test : QualityTest) : String :=
  "\x7b\n" ++
  "\t\t\t\"id\": \"alert_quality_" ++ test.ID ++ "\",\n" ++
  "\t\t\t\"alertType\": \"quality_failure\",\n" ++
  "\t\t\t\"severity\": \"high\",\n" ++
  "\t\t\t\"entityId\": \"" ++ test.ID ++ "\",\n" ++
  "\t\t\t\"entityType\": \"QualityTest\",\n" ++
  "\t\t\t\"message\": \"Quality test failed\",\n" ++
  "\t\t\t\"details\": \"Batch " ++ test.BatchID ++ " failed quality testing at lab " ++
    test.LabName ++ ". Overall result: fail\"\n" ++
  "\t\t\x7d"

/-- The quality-gate step of CreateQualityTest (lines 349-370): the test as updated by
the verdict, and the alert created when the gate fails. -/
def applyQualityGate (test : QualityTest) : QualityTest × List Effect :=
  if !validateQualityGates test then
    ({ test with OverallResult := "fail", Status := "rejected" },
      [Effect.CreateAlert (qualityAlert test)])
  else
    ({ test with
        OverallResult := "pass",
        Status := if test.Status = "" then "approved" else test.Status }, [])

/-- The payload of the `QualityTestCreated` event (lines 392-400). -/
def qualityTestPayload (test : QualityTest) : List (String × PayloadValue) :=
  [("eventType", .str "QualityTestCreated"), ("testId", .str test.ID),
   ("batchId", .str test.BatchID), ("labId", .str test.LabID),
   ("overallResult", .str test.OverallResult), ("status", .str test.Status),
   ("timestamp", .str test.Timestamp)]

/-- CreateQualityTest (lines 342-405). -/
def CreateQualityTest (json : Json) (enc : JsonRecords) (stub : Stub)
    (UpdateBatchStatus : String → String → Except String Unit) (testJSON : String) :
    Saved QualityTest :=
  match json.unmarshalQualityTest testJSON with
  | .error err =>
    { result := .error ("failed to unmarshal test: " ++ err), effects := [], record := none }
  | .ok test =>
    let effects := (applyQualityGate test).2
    let test := (applyQualityGate test).1
    match enc.marshalQualityTest test with
    | .error err =>
      { result := .error ("failed to marshal test: " ++ err), effects := effects,
        record := some test }
    | .ok testBytes =>
      let effects := effects ++ [Effect.PutState test.ID testBytes]
      match stub.PutState test.ID testBytes with
      | .error err =>
        { result := .error ("failed to save quality test: " ++ err), effects := effects,
          record := some test }
      | .ok _ =>
        let effects := effects ++ updateBatch UpdateBatchStatus test.BatchID "testing"
        { result := .ok (),
          effects := effects ++ [Effect.SetEvent "QualityTestCreated" (qualityTestPayload test)],
          record := some test }

/-- The payload of the `ProcessingStepCreated` event (lines 458-466). -/
def processingStepPayload (step : ProcessingStep) : List (String × PayloadValue) :=
  [("eventType", .str "ProcessingStepCreated"), ("stepId", .str step.ID),
   ("batchId", .str step.BatchID), ("processType", .str step.ProcessType),
   ("processorId", .str step.ProcessorID), ("status", .str step.Status),
   ("timestamp", .str step.Timestamp)]

/-- CreateProcessingStep (lines 427-471). -/
def CreateProcessingStep (json : Json) (enc : JsonRecords) (stub : Stub)
    (UpdateBatchStatus : String → String → Except String Unit) (stepJSON : String) :
    Saved ProcessingStep :=
  match json.unmarshalProcessingStep stepJSON with
  | .error err =>
    { result := .error ("failed to unmarshal step: " ++ err), effects := [], record := none }
  | .ok step =>
    let step := if step.Status = "" then { step with Status := "completed" } else step
    match enc.marshalProcessingStep step with
    | .error err =>
      { result := .error ("failed to marshal step: " ++ err), effects := [],
        record := some step }
    | .ok stepBytes =>
      let effects := [Effect.PutState step.ID stepBytes]
      match stub.PutState step.ID stepBytes with
      | .error err =>
        { result := .error ("failed to save processing step: " ++ err), effects := effects,
          record := some step }
      | .ok _ =>
        let effects := effects ++ updateBatch UpdateBatchStatus step.BatchID "processing"
        { result := .ok (),
          effects := effects ++
            [Effect.SetEvent "ProcessingStepCreated" (processingStepPayload step)],
          record := some step }

/-- The parsing of `resultsJSON` in RecordQCCertificate (lines 499-506): an empty
argument leaves the results empty, a malformed one is logged and replaced by no rows. -/
def parseResults (enc : JsonRecords) (resultsJSON : String) :
    List (List (String × String)) × List Effect :=
  if resultsJSON ≠ "" then
    match enc.unmarshalResults resultsJSON with
    | .error err => ([], [Effect.log ("Warning: Failed to unmarshal results: " ++ err)])
    | .ok results => (results, [])
  else ([], [])

/-- The payload of the `QCCertificateRecorded` event (lines 547-555). -/
def certificatePayload (certificateId testId batchId labId overallResult issuedDate : String) :
    List (String × PayloadValue) :=
  [("eventType", .str "QCCertificateRecorded"), ("certificateId", .str certificateId),
   ("testId", .str testId), ("batchId", .str batchId), ("labId", .str labId),
   ("overallResult", .str overallResult), ("timestamp", .str issuedDate)]

/-- RecordQCCertificate (lines 493-561). -/
def RecordQCCertificate (enc : JsonRecords) (stub : Stub)
    (UpdateBatchStatus : String → String → Except String Unit)
    (certificateId testId batchId batchNumber speciesName testType labId labName
      overallResult issuedDate testedBy resultsJSON : String) : Saved QCCertificate :=
  let effects := (parseResults enc resultsJSON).2
  let results := (parseResults enc resultsJSON).1
  let certificate : QCCertificate :=
    { ID := certificateId, Type_ := "QCCertificate", CertificateID := certificateId,
      TestID := testId, BatchID := batchId, BatchNumber := batchNumber,
      SpeciesName := speciesName, TestType := testType, LabID := labId, LabName := labName,
      OverallResult := overallResult, IssuedDate := issuedDate, TestedBy := testedBy,
      Results := results, Timestamp := issuedDate }
  match enc.marshalQCCertificate certificate with
  | .error err =>
    { result := .error ("failed to marshal certificate: " ++ err), effects := effects,
      record := some certificate }
  | .ok certBytes =>
    let effects := effects ++ [Effect.PutState certificateId certBytes]
    match stub.PutState certificateId certBytes with
    | .error err =>
      { result := .error ("failed to save certificate: " ++ err), effects := effects,
        record := some certificate }
    | .ok _ =>
      let effects := effects ++ updateBatch UpdateBatchStatus batchId "quality_tested"
      { result := .ok (),
        effects := effects ++
          [Effect.SetEvent "QCCertificateRecorded"
            (certificatePayload certificateId testId batchId labId overallResult issuedDate),
           Effect.log ("QC Certificate recorded: " ++ certificateId ++ " for batch " ++
             batchId ++ " (result: " ++ overallResult ++ ")")],
        record := some certificate }

/-- The payload of the `ProductCreated` event (lines 708-716). -/
def productPayload (product : Product) : List (String × PayloadValue) :=
  [("eventType", .str "ProductCreated"), ("productId", .str product.ID),
   ("batchId", .str product.BatchID), ("qrCode", .str product.QRCode),
   ("manufacturerId", .str product.ManufacturerID), ("status", .str product.Status),
   ("timestamp", .str product.ManufactureDate)]

/-- CreateProduct (lines 677-721). -/
def CreateProduct (json : Json) (enc : JsonRecords) (stub : Stub)
    (UpdateBatchStatus : String → String → Except String Unit) (productJSON : String) :
    Saved Product :=
  match json.unmarshalProduct productJSON with
  | .error err =>
    { result := .error ("failed to unmarshal product: " ++ err), effects := [],
      record := none }
  | .ok product =>
    let product :=
      if product.Status = "" then { product with Status := "manufactured" } else product
    match enc.marshalProduct product with
    | .error err =>
      { result := .error ("failed to marshal product: " ++ err), effects := [],
        record := some product }
    | .ok productBytes =>
      let effects := [Effect.PutState product.ID productBytes]
      match stub.PutState product.ID productBytes with
      | .error err =>
        { result := .error ("failed to save product: " ++ err), effects := effects,
          record := some product }
      | .ok _ =>
        let effects := effects ++ updateBatch UpdateBatchStatus product.BatchID "manufactured"
        { result := .ok (),
          effects := effects ++ [Effect.SetEvent "ProductCreated" (productPayload product)],
          record := some product }

/-! ## Observations on the effects of a record-creating function -/

/-- The store writes among the effects, as (key, bytes) pairs in order. -/
def writesOf (effects : List Effect) : List (String × String) :=
  effects.filterMap fun effect =>
    match effect with
    | .PutState key value => some (key, value)
    | _ => none

/-- The batch-status updates among the effects, as (batch ID, label) pairs in order. -/
def batchUpdatesOf (effects : List Effect) : List (String × String) :=
  effects.filterMap fun effect =>
    match effect with
    | .UpdateBatchStatus batchID status => some (batchID, status)
    | _ => none

/-- The alerts among the effects, in order. -/
def effectAlerts (effects : List Effect) : List String :=
  effects.filterMap fun effect =>
    match effect with
    | .CreateAlert alertJSON => some alertJSON
    | _ => none

/-- The published events among the effects, in order. -/
def eventsOf (effects : List Effect) : List (String × List (String × PayloadValue)) :=
  effects.filterMap fun effect =>
    match effect with
    | .SetEvent name payload => some (name, payload)
    | _ => none

/-- The store writes among the calls of CreateCollectionEvent, as (key, bytes) pairs. -/
def putsOf (calls : List Call) : List (String × String) :=
  calls.filterMap fun call =>
    match call with
    | .PutState key value => some (key, value)
    | _ => none

/-- The outcome of a record-creating function does not depend on what UpdateBatchStatus
answers: `create` is the function as it depends on that collaborator, and for any two
collaborators the returned value, the record, the store writes, the batch updates
attempted and the published events are the same. -/
def IgnoresBatchStatus {α : Type}
    (create : (String → String → Except String Unit) → Saved α) : Prop :=
  ∀ u1 u2,
    (create u1).result = (create u2).result ∧
    (create u1).record = (create u2).record ∧
    writesOf (create u1).effects = writesOf (create u2).effects ∧
    batchUpdatesOf (create u1).effects = batchUpdatesOf (create u2).effects ∧
    eventsOf (create u1).effects = eventsOf (create u2).effects

/-! ## The alert templates, member by member -/

/-- The members of the season-violation template (lines 179-189) with their operands. -/
def seasonMembers (event : CollectionEvent) : List (String × String) :=
  [("id", "alert_season_" ++ event.ID), ("alertType", "season_violation"),
   ("severity", "high"), ("entityId", event.ID), ("entityType", "CollectionEvent"),
   ("species", event.Species), ("zone", event.ZoneName),
   ("message", "Harvest outside allowed season window"),
   ("details", "Species " ++ event.Species ++ " harvested on " ++ event.HarvestDate ++
      " in " ++ event.ZoneName ++ " is outside the permitted season window")]

/-- The members of the zone-violation template (lines 200-210) with their operands. -/
def zoneMembers (event : CollectionEvent) : List (String × String) :=
  [("id", "alert_zone_" ++ event.ID), ("alertType", "zone_violation"),
   ("severity", "high"), ("entityId", event.ID), ("entityType", "CollectionEvent"),
   ("species", event.Species), ("zone", event.ZoneName),
   ("message", "Collection location outside approved zone"),
   ("details", "Harvest at coordinates (" ++ formatFloat 6 (Float64.ofRat event.Latitude) ++
      ", " ++ formatFloat 6 (Float64.ofRat event.Longitude) ++
      ") is outside approved zone for species " ++ event.Species)]

/-- The members of the over-harvest template (lines 231-241) with their operands. -/
def harvestMembers (event : CollectionEvent) (currentSeason : String) :
    List (String × String) :=
  [("id", "alert_harvest_" ++ event.ID), ("alertType", "over_harvest"),
   ("severity", "critical"), ("entityId", event.ID), ("entityType", "CollectionEvent"),
   ("species", event.Species), ("zone", event.ZoneName),
   ("message", "Harvest limit exceeded"),
   ("details", "Attempting to harvest " ++ formatFloat 2 (Float64.ofRat event.Quantity) ++
      " " ++ event.Unit ++ " of " ++ event.Species ++ " in " ++ event.ZoneName ++
      " for season " ++ currentSeason ++ " would exceed the limit")]

/-- The members of the harvest-limit warning template (lines 259-271) with their
operands. -/
def warningMembers (event : CollectionEvent) (currentSeason : String)
    (harvestStats : HarvestStats) : List (String × String) :=
  [("id", "alert_warning_" ++ event.Species ++ "_" ++ event.ZoneName ++ "_" ++ currentSeason),
   ("alertType", "over_harvest"), ("severity", "medium"), ("entityId", event.ID),
   ("entityType", "CollectionEvent"), ("species", event.Species), ("zone", event.ZoneName),
   ("message", "Harvest limit warning"),
   ("details", formatFloat 1 (percentageUsed harvestStats) ++
      "% of harvest limit reached for " ++ event.Species ++ " in " ++ event.ZoneName ++
      " for season " ++ currentSeason ++ " (" ++
      formatFloat 2 (Float64.ofRat harvestStats.CurrentQuantity) ++ " / " ++
      formatFloat 2 (Float64.ofRat harvestStats.MaxQuantity) ++ " " ++ harvestStats.Unit ++
      ")")]

/-- The members of the compliance template (lines 278-288) with their operands. -/
def conservationMembers (event : CollectionEvent) : List (String × String) :=
  [("id", "alert_conservation_" ++ event.ID), ("alertType", "compliance"),
   ("severity", "high"), ("entityId", event.ID), ("entityType", "CollectionEvent"),
   ("species", event.Species), ("zone", event.ZoneName),
   ("message", "Conservation limit violation"),
   ("details", "Conservation limits exceeded for species: " ++ event.Species)]

/-- The members of the quality-failure template (lines 355-363) with their operands. -/
def qualityMembers (test : QualityTest) : List (String × String) :=
  [("id", "alert_quality_" ++ test.ID), ("alertType", "quality_failure"),
   ("severity", "high"), ("entityId", test.ID), ("entityType", "QualityTest"),
   ("message", "Quality test failed"),
   ("details", "Batch " ++ test.BatchID ++ " failed quality testing at lab " ++
      test.LabName ++ ". Overall result: fail")]

/-- The members of the alert template of a stage. -/
def Stage.members (event : CollectionEvent) (currentSeason : String) :
    Stage → List (String × String)
  | .season => seasonMembers event
  | .geoFence => zoneMembers event
  | .quota => harvestMembers event currentSeason
  | .conservation => conservationMembers event

/-- The text fields of a submission that the alert templates insert, and the season
name, hold no double quote, no backslash and no control character. -/
def PlainSubmission (event : CollectionEvent) (currentSeason : String) : Prop :=
  plainText event.ID = true ∧ plainText event.Species = true ∧
  plainText event.ZoneName = true ∧ plainText event.HarvestDate = true ∧
  plainText event.Unit = true ∧ plainText currentSeason = true

/-- The text fields of a quality test that the alert template inserts hold no double
quote, no backslash and no control character. -/
def PlainTest (test : QualityTest) : Prop :=
  plainText test.ID = true ∧ plainText test.BatchID = true ∧ plainText test.LabName = true

/-! ## Concrete inputs for boundary cases, witnesses and counterexamples -/

/-- A test with every measurement exactly at its limit, and one unlisted metal far above any limit. -/
def testAtLimits : QualityTest :=
  { ID := "QT-1", MoistureContent := 12,
    PesticideResults := [("chlorpyrifos", "pass"), ("ddt", "pass")],
    HeavyMetals := [("lead", 10), ("arsenic", 3), ("mercury", 1), ("cadmium", 3 / 10), ("zinc", 500)],
    Aflatoxins := 20 }

/-- A bundle whose product lists the same certification twice. -/
def provRepeatedCert : Provenance :=
  { ID := "PROV-P1", ProductID := "P1",
    CollectionEvents := [{ ID := "CE-1", ApprovedZone := false }],
    Product := { ID := "P1", Certifications := ["Organic", "Organic"] } }

/-- An in-zone (30.25, 78.0), in-season Neem harvest of 40 kg. -/
def eventNeem40 : CollectionEvent :=
  { ID := "CE-1", Species := "Neem", Quantity := 40, Unit := "kg",
    Latitude := 121 / 4, Longitude := 78,
    HarvestDate := "2025-01-15", ZoneName := "Zone-A", ApprovedZone := true,
    Status := "pending" }

/-- A stored Tulsi harvest. -/
def eventTulsi : CollectionEvent :=
  { ID := "CE-3", Species := "Tulsi", Quantity := 5, Unit := "kg", ZoneName := "Zone-B",
    ApprovedZone := true, Status := "pending" }

/-- An in-season harvest of 30 kg of an endangered species. -/
def eventEndangered : CollectionEvent :=
  { ID := "CE-E", Species := "Picrorhiza kurroa", Quantity := 30, Unit := "kg",
    Latitude := 31, Longitude := 78, HarvestDate := "2025-01-15", ZoneName := "Zone-A" }

/-- An in-zone, in-season Neem harvest of 70 kg. -/
def eventNeem70 : CollectionEvent :=
  { ID := "CE-O", Species := "Neem", Quantity := 70, Unit := "kg",
    Latitude := 121 / 4, Longitude := 78,
    HarvestDate := "2025-01-16", ZoneName := "Zone-A" }

/-- An in-season Neem harvest far outside the Neem zone. -/
def eventOutOfZone : CollectionEvent :=
  { ID := "CE-F", Species := "Neem", Quantity := 1, Unit := "kg", Latitude := 35,
    Longitude := 78, HarvestDate := "2025-01-16", ZoneName := "Zone-A" }

/-- An in-zone Neem harvest dated outside the season window. -/
def eventOutOfSeason : CollectionEvent :=
  { ID := "CE-S", Species := "Neem", Quantity := 1, Unit := "kg",
    Latitude := 121 / 4, Longitude := 78,
    HarvestDate := "2025-07-01", ZoneName := "Zone-A" }

/-- An in-zone, in-season Neem harvest of 70 kg whose ID holds double quotes: the value
of the JSON string `"a\",\"severity\":\"low"`. -/
def eventInjected : CollectionEvent :=
  { ID := "a\",\"severity\":\"low", Species := "Neem", Quantity := 70, Unit := "kg",
    Latitude := 121 / 4, Longitude := 78, HarvestDate := "2025-01-16", ZoneName := "Zone-A" }

/-- A product referencing three collection events, one quality test and one processing step. -/
def productNeemPowder : Product :=
  { ID := "P-1", ProductName := "Neem powder", QRCode := "QR-1",
    CollectionEventIDs := ["CE-1", "CE-2", "CE-3"], QualityTestIDs := ["QT-9"],
    ProcessingStepIDs := ["PS-9"], Certifications := ["Organic"] }

/-- A toy `encoding/json`: the table of the inputs it decodes and of their records. -/
def fixtureEvents : List (String × CollectionEvent) :=
  [("json:CE-1", eventNeem40), ("json:CE-3", eventTulsi), ("json:CE-E", eventEndangered),
   ("json:CE-O", eventNeem70), ("json:CE-F", eventOutOfZone), ("json:CE-S", eventOutOfSeason),
   ("json:CE-Q", eventInjected)]

/-- The toy decoder's table of products. -/
def fixtureProducts : List (String × Product) :=
  [("json:P-1", productNeemPowder)]

/-- The toy `encoding/json`. -/
def fixtureJson : Json where
  unmarshalCollectionEvent := fun bytes =>
    match fixtureEvents.lookup bytes with
    | some event => .ok event
    | none => .error "invalid character"
  unmarshalQualityTest := fun _ => .error "invalid character"
  unmarshalProcessingStep := fun _ => .error "invalid character"
  unmarshalProduct := fun bytes =>
    match fixtureProducts.lookup bytes with
    | some product => .ok product
    | none => .error "invalid character"
  marshalCollectionEvent := fun event => .ok ("json:" ++ event.ID)

/-- A store holding product P-1 and the collection events CE-1 and CE-3; CE-2, QT-9 and
PS-9 are absent. -/
def fixtureStub : Stub where
  GetState := fun key =>
    if key = "P-1" ∨ key = "CE-1" ∨ key = "CE-3" then .ok (some ("json:" ++ key)) else .ok none
  PutState := fun _ _ => .ok ()

/-- A store in which the key P-7 is present but holds bytes that are not JSON, and the
read of the key P-8 fails. -/
def damagedStub : Stub where
  GetState := fun key =>
    if key = "P-7" then .ok (some "<html>")
    else if key = "P-8" then .error "ledger unavailable"
    else .ok none
  PutState := fun _ _ => .ok ()

/-- A quota store with a cap of 100 on every key and nothing harvested yet. -/
def fixtureQuota : QuotaStore := fun _ _ _ => { current := 0, max := 100, unit := "kg" }

/-- Collaborators that never return an error: harvests dated in July are out of season,
the quota ledger follows its contract, and the statistics report `warning` from 30% of
the cap on. -/
def fixtureCollaborators : Collaborators QuotaStore where
  ValidateSeasonWindow := fun _ harvestDate _ => .ok (decide (harvestDate ≠ "2025-07-01"))
  getCurrentSeason := "2025-winter"
  ValidateHarvestLimit := fun store species zone season quantity =>
    .ok (checkLimit store species zone season quantity)
  TrackHarvestQuantity := fun store species zone season quantity =>
    .ok (increment store species zone season quantity)
  GetHarvestStatistics := fun store species zone season =>
    .ok { CurrentQuantity := (store species zone season).current,
          MaxQuantity := (store species zone season).max,
          Unit := (store species zone season).unit,
          Status :=
            if (store species zone season).current ≥ (store species zone season).max then
              "exceeded"
            else if (store species zone season).current * 10 ≥
                (store species zone season).max * 3 then "warning"
            else "ok" }

/-- The statistics the fixture ledger reports after 30 kg of the endangered species. -/
def statsEndangered : HarvestStats :=
  { CurrentQuantity := 30, MaxQuantity := 100, Unit := "kg", Status := "warning" }

/-- The statistics the fixture ledger reports after 40 kg of Neem in Zone-A. -/
def statsNeem40 : HarvestStats :=
  { CurrentQuantity := 40, MaxQuantity := 100, Unit := "kg", Status := "warning" }

/-- The quota state after one accepted 40 kg Neem harvest in Zone-A. -/
def quotaAfterNeem40 : QuotaStore :=
  increment fixtureQuota "Neem" "Zone-A" "2025-winter" 40

/-- An all-passing bundle whose product carries four certifications. -/
def provFourCerts : Provenance :=
  { ID := "PROV-P4", ProductID := "P4",
    CollectionEvents := [{ ID := "CE-1", ApprovedZone := true }],
    QualityTests := [{ ID := "QT-1", OverallResult := "pass" }],
    Product := { ID := "P4",
                 Certifications := ["Organic", "Fair Trade", "AYUSH Certified", "GMP"] } }

/-- A bundle with three non-approved-zone events, two failed tests and one certification. -/
def provPenalised : Provenance :=
  { ID := "PROV-P5", ProductID := "P5",
    CollectionEvents := [{ ID := "CE-1" }, { ID := "CE-2" }, { ID := "CE-3" }],
    QualityTests := [{ ID := "QT-1", OverallResult := "fail" },
                     { ID := "QT-2", OverallResult := "fail" }],
    Product := { ID := "P5", Certifications := ["Organic"] } }

/-- A test that fails the moisture gate, submitted as already passed and approved. -/
def testFailing : QualityTest :=
  { ID := "QT-F", BatchID := "B-1", LabID := "L-1", LabName := "Lab One",
    MoistureContent := 15, OverallResult := "pass", Status := "approved" }

/-- A test that passes the gate, submitted with an empty status. -/
def testPassingBlank : QualityTest :=
  { ID := "QT-P", BatchID := "B-1", LabID := "L-1", LabName := "Lab One",
    MoistureContent := 8 }

/-- A test that passes the gate, submitted with status "pending" and no batch ID. -/
def testPassingPending : QualityTest :=
  { ID := "QT-Q", LabID := "L-1", LabName := "Lab One", MoistureContent := 8,
    Status := "pending" }

/-- A processing step of batch B-1. -/
def stepDrying : ProcessingStep :=
  { ID := "PS-1", BatchID := "B-1", ProcessType := "drying", ProcessorID := "PR-1" }

/-- A product of batch B-1. -/
def productOfBatch : Product :=
  { ID := "P-2", BatchID := "B-1", ProductName := "Tulsi extract", QRCode := "QR-2" }

/-- An acceptable Tulsi harvest submitted with status "verified" and approvedZone false. -/
def eventVerified : CollectionEvent :=
  { ID := "CE-V", Species := "Tulsi", Quantity := 5, Unit := "kg", Latitude := 28,
    Longitude := 77, HarvestDate := "2025-01-15", ZoneName := "Zone-B",
    ApprovedZone := false, Status := "verified" }

/-- The decoding table of quality tests. -/
def labTests : List (String × QualityTest) :=
  [("json:QT-F", testFailing), ("json:QT-P", testPassingBlank),
   ("json:QT-Q", testPassingPending)]

/-- A second toy `encoding/json`: `json:<id>` decodes through the tables, and a collection
event is encoded with its approvedZone flag and status. -/
def labJson : Json where
  unmarshalCollectionEvent := fun bytes =>
    if bytes = "json:CE-V" then .ok eventVerified else .error "invalid character"
  unmarshalQualityTest := fun bytes =>
    match labTests.lookup bytes with
    | some test => .ok test
    | none => .error "invalid character"
  unmarshalProcessingStep := fun bytes =>
    if bytes = "json:PS-1" then .ok stepDrying else .error "invalid character"
  unmarshalProduct := fun bytes =>
    if bytes = "json:P-2" then .ok productOfBatch else .error "invalid character"
  marshalCollectionEvent := fun event =>
    .ok ("json:" ++ event.ID ++ ":" ++ toString event.ApprovedZone ++ ":" ++ event.Status)

/-- The toy encoders of the written records: ID, then overall result and status. -/
def labRecords : JsonRecords where
  marshalQualityTest := fun test =>
    .ok ("json:" ++ test.ID ++ ":" ++ test.OverallResult ++ ":" ++ test.Status)
  marshalProcessingStep := fun step => .ok ("json:" ++ step.ID ++ ":" ++ step.Status)
  marshalQCCertificate := fun certificate =>
    .ok ("json:" ++ certificate.ID ++ ":" ++ certificate.OverallResult)
  marshalProduct := fun product => .ok ("json:" ++ product.ID ++ ":" ++ product.Status)
  unmarshalResults := fun _ => .error "invalid character"

/-- A batch-status tracker whose every update fails. -/
def batchStatusFails : String → String → Except String Unit :=
  fun batchID _ => .error ("batch not found: " ++ batchID)

/-- A batch-status tracker whose every update succeeds. -/
def batchStatusOk : String → String → Except String Unit :=
  fun _ _ => .ok ()

/-! # Theorems -/

/-! ## Quality gate -/

theorem heavyMetalExceeds_eq_false_iff (entry : String × ℚ) :
    heavyMetalExceeds entry = false ↔
      (entry.1 = "lead" → entry.2 ≤ 10) ∧ (entry.1 = "arsenic" → entry.2 ≤ 3) ∧
      (entry.1 = "mercury" → entry.2 ≤ 1) ∧ (entry.1 = "cadmium" → entry.2 ≤ 3 / 10) := by
  obtain ⟨metal, value⟩ := entry
  by_cases h1 : metal = "lead"
  · subst h1
    simp [heavyMetalExceeds, heavyMetalLimits, List.lookup]
  by_cases h2 : metal = "arsenic"
  · subst h2
    simp [heavyMetalExceeds, heavyMetalLimits, List.lookup]
  by_cases h3 : metal = "mercury"
  · subst h3
    simp [heavyMetalExceeds, heavyMetalLimits, List.lookup]
  by_cases h4 : metal = "cadmium"
  · subst h4
    simp [heavyMetalExceeds, heavyMetalLimits, List.lookup]
  · have e1 : (metal == "lead") = false := by simpa using h1
    have e2 : (metal == "arsenic") = false := by simpa using h2
    have e3 : (metal == "mercury") = false := by simpa using h3
    have e4 : (metal == "cadmium") = false := by simpa using h4
    simp [heavyMetalExceeds, heavyMetalLimits, List.lookup, e1, e2, e3, e4, h1, h2, h3, h4]

theorem heavyMetalExceeds_other (metal : String) (value : ℚ)
    (h : metal ∉ ["lead", "arsenic", "mercury", "cadmium"]) :
    heavyMetalExceeds (metal, value) = false := by
  rw [heavyMetalExceeds_eq_false_iff]
  simp only [List.mem_cons, List.mem_singleton, List.not_mem_nil, or_false, not_or] at h
  obtain ⟨h1, h2, h3, h4⟩ := h
  exact ⟨fun e => absurd e h1, fun e => absurd e h2, fun e => absurd e h3, fun e => absurd e h4⟩

theorem validateQualityGates_eq_true_iff (test : QualityTest) :
    validateQualityGates test = true ↔
      test.MoistureContent ≤ 12 ∧
      (∀ entry ∈ test.PesticideResults, entry.2 = "pass") ∧
      (∀ entry ∈ test.HeavyMetals,
        (entry.1 = "lead" → entry.2 ≤ 10) ∧ (entry.1 = "arsenic" → entry.2 ≤ 3) ∧
        (entry.1 = "mercury" → entry.2 ≤ 1) ∧ (entry.1 = "cadmium" → entry.2 ≤ 3 / 10)) ∧
      test.Aflatoxins ≤ 20 := by
  have hm : ∀ entry : String × ℚ, ((entry.1 = "lead" → entry.2 ≤ 10) ∧
      (entry.1 = "arsenic" → entry.2 ≤ 3) ∧ (entry.1 = "mercury" → entry.2 ≤ 1) ∧
      (entry.1 = "cadmium" → entry.2 ≤ 3 / 10)) ↔ heavyMetalExceeds entry = false :=
    fun entry => (heavyMetalExceeds_eq_false_iff entry).symm
  simp only [hm]
  have hp : (∀ entry ∈ test.PesticideResults, entry.2 = "pass") ↔
      test.PesticideResults.any (fun entry => entry.2 != "pass") = false := by
    simp [List.any_eq_false]
  have hh : (∀ entry ∈ test.HeavyMetals, heavyMetalExceeds entry = false) ↔
      test.HeavyMetals.any heavyMetalExceeds = false := by
    simp [List.any_eq_false]
  rw [hp, hh, ← not_lt, ← not_lt]
  clear hp hh hm
  unfold validateQualityGates
  generalize test.PesticideResults.any (fun entry => entry.2 != "pass") = b1
  generalize test.HeavyMetals.any heavyMetalExceeds = b2
  cases b1 <;> cases b2 <;> split_ifs <;> simp_all

/-- C1: validateQualityGates returns true exactly when moisture is at most 12, every
pesticide result is the string "pass", every heavy-metal entry keyed lead, arsenic,
mercury or cadmium is at most 10, 3, 1, 0.3 respectively, and aflatoxins are at most 20.
A heavy-metal entry under any other key, wherever it sits in the map, does not change the
result; a test exactly at every limit passes and a moisture of 12.01 always fails. -/
theorem C1_validateQualityGates_spec (test : QualityTest) :
    (validateQualityGates test = true ↔
      test.MoistureContent ≤ 12 ∧
      (∀ entry ∈ test.PesticideResults, entry.2 = "pass") ∧
      (∀ entry ∈ test.HeavyMetals,
        (entry.1 = "lead" → entry.2 ≤ 10) ∧ (entry.1 = "arsenic" → entry.2 ≤ 3) ∧
        (entry.1 = "mercury" → entry.2 ≤ 1) ∧ (entry.1 = "cadmium" → entry.2 ≤ 3 / 10)) ∧
      test.Aflatoxins ≤ 20) ∧
    (∀ (metal : String) (value : ℚ) (before after : List (String × ℚ)),
      metal ∉ ["lead", "arsenic", "mercury", "cadmium"] →
      validateQualityGates { test with HeavyMetals := before ++ (metal, value) :: after } =
        validateQualityGates { test with HeavyMetals := before ++ after }) ∧
    validateQualityGates testAtLimits = true ∧
    validateQualityGates { test with MoistureContent := 12 } =
      validateQualityGates { test with MoistureContent := 0 } ∧
    validateQualityGates { test with MoistureContent := 1201 / 100 } = false := by
  refine ⟨validateQualityGates_eq_true_iff test, ?_, ?_, ?_, ?_⟩
  · intro metal value before after h
    simp [validateQualityGates, List.any_append, heavyMetalExceeds_other metal value h]
  · simp [validateQualityGates, testAtLimits, heavyMetalExceeds, heavyMetalLimits, List.lookup]
  · simp [validateQualityGates]
  · simp [validateQualityGates]
    norm_num

/-! ## Sustainability score -/

theorem deductZones_eq (events : List CollectionEvent) (score : ℚ) :
    deductZones score events =
      score - 10 * (events.countP (fun event => !event.ApprovedZone) : ℚ) := by
  induction events generalizing score with
  | nil => simp [deductZones]
  | cons e es ih =>
    have hstep : deductZones score (e :: es) =
        deductZones (if !e.ApprovedZone then score - 10 else score) es := rfl
    rw [hstep, ih, List.countP_cons]
    cases h : e.ApprovedZone
    · simp; ring
    · simp

theorem deductFailedTests_eq (tests : List QualityTest) (score : ℚ) :
    deductFailedTests score tests =
      score - 15 * (tests.countP (fun test => decide (test.OverallResult = "fail")) : ℚ) := by
  induction tests generalizing score with
  | nil => simp [deductFailedTests]
  | cons t ts ih =>
    have hstep : deductFailedTests score (t :: ts) =
        deductFailedTests (if t.OverallResult = "fail" then score - 15 else score) ts := rfl
    rw [hstep, ih, List.countP_cons]
    by_cases h : t.OverallResult = "fail"
    · simp [h]; ring
    · simp [h]

theorem clamp_eq_ite (x : ℚ) :
    clamp x 0 100 = if (if x < 0 then 0 else x) > 100 then 100 else (if x < 0 then 0 else x) := by
  unfold clamp
  rcases lt_or_le x 0 with h | h
  · rw [if_pos h, max_eq_right h.le, if_neg (by norm_num), min_eq_left (by norm_num)]
  · rw [if_neg (not_lt.mpr h), max_eq_left h]
    rcases lt_or_le 100 x with h2 | h2
    · rw [if_pos h2, min_eq_right h2.le]
    · rw [if_neg (not_lt.mpr h2), min_eq_left h2]

theorem calculateSustainabilityScore_eq (prov : Provenance) :
    calculateSustainabilityScore prov = scoreListedCerts prov := by
  unfold calculateSustainabilityScore scoreListedCerts nonApprovedCount failedTestCount
  simp only [deductZones_eq, deductFailedTests_eq]
  rw [clamp_eq_ite]
  have e : (100 : ℚ) - 10 * ((prov.CollectionEvents.countP (fun event => !event.ApprovedZone) : ℕ) : ℚ)
      - 15 * ((prov.QualityTests.countP (fun test => decide (test.OverallResult = "fail")) : ℕ) : ℚ)
      + (prov.Product.Certifications.length : ℚ) * 5 =
      100 - 10 * ((prov.CollectionEvents.countP (fun event => !event.ApprovedZone) : ℕ) : ℚ)
      - 15 * ((prov.QualityTests.countP (fun test => decide (test.OverallResult = "fail")) : ℕ) : ℚ)
      + 5 * (prov.Product.Certifications.length : ℚ) := by ring
  rw [e]

/-- C2 (counterexample): with one non-approved collection event and the certification
"Organic" listed twice, the code returns 100 while the distinct-certification formula gives 95. -/
theorem C2_distinct_certifications_counterexample :
    calculateSustainabilityScore provRepeatedCert = 100 ∧
    scoreDistinctCerts provRepeatedCert = 95 ∧
    calculateSustainabilityScore provRepeatedCert ≠ scoreDistinctCerts provRepeatedCert := by
  have h1 : calculateSustainabilityScore provRepeatedCert = 100 := by
    simp [calculateSustainabilityScore, provRepeatedCert, deductZones, deductFailedTests]
    norm_num
  have hd : provRepeatedCert.Product.Certifications.dedup.length = 1 := by decide
  have h2 : scoreDistinctCerts provRepeatedCert = 95 := by
    unfold scoreDistinctCerts
    rw [hd]
    simp [provRepeatedCert, nonApprovedCount, failedTestCount, clamp]
    norm_num
  exact ⟨h1, h2, by rw [h1, h2]; norm_num⟩

/-- C2 (amended): calculateSustainabilityScore equals clamp(100 - 10*a - 15*f + 5*d, 0, 100)
where a counts the included collection events with approvedZone = false, f the included
quality tests with overallResult = "fail", and d is the length of the product's
certification list, every listed entry counted. -/
theorem C2_calculateSustainabilityScore_listed (prov : Provenance) :
    calculateSustainabilityScore prov =
      clamp (100 - 10 * (nonApprovedCount prov : ℚ) - 15 * (failedTestCount prov : ℚ)
        + 5 * (prov.Product.Certifications.length : ℚ)) 0 100 :=
  calculateSustainabilityScore_eq prov

/-! ## float64 rounding -/

theorem roundHalfEven_sub_le (y : ℚ) : |(roundHalfEven y : ℚ) - y| ≤ 1 / 2 := by
  have h0 : (⌊y⌋ : ℚ) ≤ y := Int.floor_le y
  have h1 : y < (⌊y⌋ : ℚ) + 1 := Int.lt_floor_add_one y
  unfold roundHalfEven
  simp only
  rw [abs_le]
  split_ifs with ha hb hc
  · constructor <;> linarith
  · push_cast; constructor <;> linarith
  · push_neg at ha hb; constructor <;> linarith
  · push_neg at ha hb; push_cast; constructor <;> linarith

theorem roundHalfEven_of_close (y : ℚ) (m : ℤ) (h : |y - m| < 1 / 2) : roundHalfEven y = m := by
  rw [abs_lt] at h
  obtain ⟨h1, h2⟩ := h
  unfold roundHalfEven
  by_cases hy : (m : ℚ) ≤ y
  · have hf : ⌊y⌋ = m := by
      rw [Int.floor_eq_iff]
      constructor
      · exact hy
      · linarith
    simp only [hf]
    rw [if_pos (by linarith)]
  · push_neg at hy
    have hf : ⌊y⌋ = m - 1 := by
      rw [Int.floor_eq_iff]
      push_cast
      constructor <;> linarith
    simp only [hf]
    push_cast
    rw [if_neg (by linarith), if_pos (by linarith)]
    ring

theorem round64_zero : round64 0 = 0 := by simp [round64]

/-- The value of round64 at a rational whose binade `k` and rounded significand `m` are
given: `2 ^ k ≤ |x| < 2 ^ (k + 1)` and `m` is within one half of `x / 2 ^ e`. -/
theorem round64_eval (x : ℚ) (k e m : ℤ) (r : ℚ) (he : e = max (k - 52) (-1074))
    (hlo : (2 : ℚ) ^ k ≤ |x|) (hhi : |x| < (2 : ℚ) ^ (k + 1))
    (hm : |x / (2 : ℚ) ^ e - m| < 1 / 2) (hr : (m : ℚ) * (2 : ℚ) ^ e = r) : round64 x = r := by
  have hpos : 0 < |x| := lt_of_lt_of_le (by positivity) hlo
  have hx : x ≠ 0 := abs_pos.mp hpos
  have hlog : Int.log 2 |x| = k := by
    have h1 : k ≤ Int.log 2 |x| :=
      (Int.zpow_le_iff_le_log (by norm_num) hpos).mp (by exact_mod_cast hlo)
    have h2 : Int.log 2 |x| < k + 1 :=
      (Int.lt_zpow_iff_log_lt (by norm_num) hpos).mp (by exact_mod_cast hhi)
    omega
  unfold round64
  rw [if_neg hx]
  simp only [hlog, ← he]
  rw [roundHalfEven_of_close _ m hm, hr]

/-- The rounding error of round64: half a unit in the last place, at most
`|x| / 2 ^ 53` in the normal range and `2 ^ -1075` below it. -/
theorem round64_sub_le (x : ℚ) : |round64 x - x| ≤ |x| / 2 ^ 53 + 1 / 2 ^ 1075 := by
  by_cases hx : x = 0
  · subst hx; rw [round64_zero]; norm_num
  have hpos : 0 < |x| := abs_pos.mpr hx
  unfold round64
  rw [if_neg hx]
  simp only
  obtain ⟨e, he⟩ : ∃ e : ℤ, e = max (Int.log 2 |x| - 52) (-1074) := ⟨_, rfl⟩
  rw [← he]
  have h2 : (0 : ℚ) < 2 ^ e := by positivity
  have hr := roundHalfEven_sub_le (x / (2 : ℚ) ^ e)
  have hkey : |(roundHalfEven (x / (2 : ℚ) ^ e) : ℚ) * 2 ^ e - x| ≤ 2 ^ e / 2 := by
    have : (roundHalfEven (x / (2 : ℚ) ^ e) : ℚ) * 2 ^ e - x =
        ((roundHalfEven (x / (2 : ℚ) ^ e) : ℚ) - x / 2 ^ e) * 2 ^ e := by
      field_simp
    rw [this, abs_mul, abs_of_pos h2]
    calc |(roundHalfEven (x / (2 : ℚ) ^ e) : ℚ) - x / 2 ^ e| * 2 ^ e ≤ 1 / 2 * 2 ^ e :=
          mul_le_mul_of_nonneg_right hr h2.le
      _ = 2 ^ e / 2 := by ring
  refine hkey.trans ?_
  rcases le_total (Int.log 2 |x| - 52) (-1074) with hle | hle
  · have : e = -1074 := by rw [he]; exact max_eq_right hle
    rw [this]
    have h3 : (2 : ℚ) ^ (-1074 : ℤ) / 2 = 1 / 2 ^ 1075 := by
      rw [zpow_neg]; norm_num
    rw [h3]
    have : (0 : ℚ) ≤ |x| / 2 ^ 53 := by positivity
    linarith
  · have : e = Int.log 2 |x| - 52 := by rw [he]; exact max_eq_left hle
    rw [this]
    have hlog : (2 : ℚ) ^ (Int.log 2 |x|) ≤ |x| := by
      have := @Int.zpow_log_le_self ℚ _ _ 2 |x| (by norm_num) hpos
      exact_mod_cast this
    have h3 : (2 : ℚ) ^ (Int.log 2 |x| - 52) / 2 = (2 : ℚ) ^ (Int.log 2 |x|) / 2 ^ 53 := by
      rw [zpow_sub₀ (by norm_num : (2 : ℚ) ≠ 0)]
      norm_num
      ring
    rw [h3]
    have h4 : (2 : ℚ) ^ (Int.log 2 |x|) / 2 ^ 53 ≤ |x| / 2 ^ 53 :=
      div_le_div_of_nonneg_right hlog (by positivity)
    have : (0 : ℚ) ≤ 1 / 2 ^ 1075 := by positivity
    linarith

theorem round64_near (x B : ℚ) (hB : |x| ≤ B) : |round64 x - x| ≤ (B + 1) / 2 ^ 53 := by
  have h := round64_sub_le x
  have h1 : |x| / 2 ^ 53 ≤ B / 2 ^ 53 := div_le_div_of_nonneg_right hB (by positivity)
  have h2 : (1 : ℚ) / 2 ^ 1075 ≤ 1 / 2 ^ 53 := by
    apply one_div_le_one_div_of_le (by positivity)
    exact pow_le_pow_right₀ (by norm_num) (by norm_num)
  have : (B + 1) / 2 ^ 53 = B / 2 ^ 53 + 1 / 2 ^ 53 := by ring
  linarith

/-- The float64 nearest 30.268804, the latitude of the Neem centre. -/
theorem neemLat_eq : round64 (30268804 / 1000000) = 8519910900959411 / 281474976710656 := by
  have h := (round64_eval (7567201 / 250000 : ℚ) 4 (-48) 8519910900959411 (8519910900959411 / 281474976710656 : ℚ) (by decide)
      (by rw [abs_of_pos (by norm_num)]; norm_num) (by rw [abs_of_pos (by norm_num)]; norm_num)
      (by rw [abs_lt]; constructor <;> norm_num) (by norm_num))
  norm_num at h ⊢
  exact h

/-- The float64 nearest 77.993259, the longitude of the Neem centre. -/
theorem neemLon_eq : round64 (77993259 / 1000000) = 2744143845076645 / 35184372088832 := by
  have h := (round64_eval (77993259 / 1000000 : ℚ) 6 (-46) 5488287690153290 (2744143845076645 / 35184372088832 : ℚ) (by decide)
      (by rw [abs_of_pos (by norm_num)]; norm_num) (by rw [abs_of_pos (by norm_num)]; norm_num)
      (by rw [abs_lt]; constructor <;> norm_num) (by norm_num))
  norm_num at h ⊢
  exact h

theorem round64_half : round64 (1 / 2) = 1 / 2 :=
  (round64_eval (1 / 2) (-1) (-53) 4503599627370496 (1 / 2) (by decide)
      (by rw [abs_of_pos (by norm_num)]; norm_num) (by rw [abs_of_pos (by norm_num)]; norm_num)
      (by rw [abs_lt]; constructor <;> norm_num) (by norm_num))

theorem round64_quarter : round64 (1 / 4) = 1 / 4 :=
  (round64_eval (1 / 4 : ℚ) (-2) (-54) 4503599627370496 (1 / 4 : ℚ) (by decide)
      (by rw [abs_of_pos (by norm_num)]; norm_num) (by rw [abs_of_pos (by norm_num)]; norm_num)
      (by rw [abs_lt]; constructor <;> norm_num) (by norm_num))

/-! ## Geo-fence -/

/-- The squared radius `radius * radius` of validateGeoFencing is exactly 0.25. -/
theorem neemRadius_sq : round64 (round64 (5 / 10) * round64 (5 / 10)) = 1 / 4 := by
  have h : (5 / 10 : ℚ) = 1 / 2 := by norm_num
  rw [h, round64_half]
  have h2 : (1 / 2 : ℚ) * (1 / 2) = 1 / 4 := by norm_num
  rw [h2, round64_quarter]

theorem validateGeoFencing_eq_true_iff (lat lon : ℚ) (species : String) :
    validateGeoFencing lat lon species = true ↔
      (-90 ≤ lat ∧ lat ≤ 90) ∧ (-180 ≤ lon ∧ lon ≤ 180) ∧
      (species ≠ "Neem" ∨
        round64 (round64 (round64 (lat - round64 (30268804 / 1000000)) *
              round64 (lat - round64 (30268804 / 1000000))) +
            round64 (round64 (lon - round64 (77993259 / 1000000)) *
              round64 (lon - round64 (77993259 / 1000000)))) ≤ 1 / 4) := by
  unfold validateGeoFencing
  by_cases hr : lat < -90 ∨ lat > 90 ∨ lon < -180 ∨ lon > 180
  · rw [if_pos hr]
    simp only [Bool.false_eq_true, false_iff, not_and]
    intro h1 h2
    rcases hr with h | h | h | h
    · exact absurd h1.1 (not_le.mpr h)
    · exact absurd h1.2 (not_le.mpr h)
    · exact absurd h2.1 (not_le.mpr h)
    · exact absurd h2.2 (not_le.mpr h)
  · rw [if_neg hr]
    simp only [not_or, not_lt] at hr
    obtain ⟨h1, h2, h3, h4⟩ := hr
    by_cases hs : species = "Neem"
    · rw [if_pos hs]
      simp only [neemRadius_sq]
      by_cases hd : round64 (round64 (round64 (lat - round64 (30268804 / 1000000)) *
              round64 (lat - round64 (30268804 / 1000000))) +
            round64 (round64 (lon - round64 (77993259 / 1000000)) *
              round64 (lon - round64 (77993259 / 1000000)))) ≤ 1 / 4
      · rw [if_pos hd]
        simp only [true_iff]
        exact ⟨⟨h1, h2⟩, ⟨h3, h4⟩, Or.inr hd⟩
      · rw [if_neg hd]
        simp only [Bool.false_eq_true, false_iff]
        rintro ⟨_, _, h | h⟩
        · exact h hs
        · exact hd h
    · rw [if_neg hs]
      have : (if species = "Ashwagandha" then true
          else if species = "Tulsi" ∨ species = "Brahmi" then true else true) = true := by
        split_ifs <;> rfl
      rw [this]
      simp only [true_iff]
      exact ⟨⟨h1, h2⟩, ⟨h3, h4⟩, Or.inl hs⟩

/-- Every species other than Neem is accepted anywhere inside the coordinate range. -/
theorem validateGeoFencing_of_ne_neem (lat lon : ℚ) (species : String)
    (hlat : -90 ≤ lat ∧ lat ≤ 90) (hlon : -180 ≤ lon ∧ lon ≤ 180) (hs : species ≠ "Neem") :
    validateGeoFencing lat lon species = true :=
  (validateGeoFencing_eq_true_iff lat lon species).mpr ⟨hlat, hlon, Or.inl hs⟩

/-- The verdict on a Neem coordinate from the float64 value of every step. -/
theorem validateGeoFencing_neem_steps (lat lon x1 d1 s1 x2 d2 s2 dist : ℚ)
    (hlat : -90 ≤ lat ∧ lat ≤ 90) (hlon : -180 ≤ lon ∧ lon ≤ 180)
    (hx1 : lat - 8519910900959411 / 281474976710656 = x1) (hd1 : round64 x1 = d1)
    (hs1 : round64 (d1 * d1) = s1)
    (hx2 : lon - 2744143845076645 / 35184372088832 = x2) (hd2 : round64 x2 = d2)
    (hs2 : round64 (d2 * d2) = s2) (hdist : round64 (s1 + s2) = dist) :
    validateGeoFencing lat lon "Neem" = decide (dist ≤ 1 / 4) := by
  have h := validateGeoFencing_eq_true_iff lat lon "Neem"
  rw [neemLat_eq, neemLon_eq, hx1, hx2, hd1, hd2, hs1, hs2, hdist] at h
  by_cases hd : dist ≤ 1 / 4
  · rw [decide_eq_true hd]
    exact h.mpr ⟨hlat, hlon, Or.inr hd⟩
  · rw [decide_eq_false hd]
    cases hv : validateGeoFencing lat lon "Neem" with
    | false => rfl
    | true =>
      rcases (h.mp hv).2.2 with h3 | h3
      · exact absurd rfl h3
      · exact absurd h3 hd

theorem sq_near (d a ε A : ℚ) (h1 : |d - a| ≤ ε) (h2 : |a| ≤ A) :
    |d * d - a ^ 2| ≤ ε * (2 * A + ε) := by
  have hε : 0 ≤ ε := (abs_nonneg _).trans h1
  have e : d * d - a ^ 2 = (d - a) * ((d - a) + 2 * a) := by ring
  rw [e, abs_mul]
  have h3 : |(d - a) + 2 * a| ≤ ε + 2 * A := by
    calc |(d - a) + 2 * a| ≤ |d - a| + |2 * a| := abs_add _ _
      _ = |d - a| + 2 * |a| := by rw [abs_mul]; norm_num
      _ ≤ ε + 2 * A := by linarith
  calc |d - a| * |(d - a) + 2 * a| ≤ ε * (ε + 2 * A) :=
        mul_le_mul h1 h3 (abs_nonneg _) hε
    _ = ε * (2 * A + ε) := by ring

theorem abs_sub_trans (x y z ε δ : ℚ) (h1 : |x - y| ≤ ε) (h2 : |y - z| ≤ δ) :
    |x - z| ≤ ε + δ := by
  have := abs_add (x - y) (y - z)
  have e : x - y + (y - z) = x - z := by ring
  rw [e] at this
  linarith

theorem abs_le_of_near (x y ε B : ℚ) (h1 : |x - y| ≤ ε) (h2 : |y| ≤ B) : |x| ≤ B + ε := by
  have := abs_add (x - y) y
  have e : x - y + y = x := by ring
  rw [e] at this
  linarith

/-- Error analysis of the squared distance: two differences known to `10 ^ -14`, each
rounded, squared and rounded, then summed and rounded. -/
theorem squared_distance_near (a b x1 x2 : ℚ) (haA : |a| ≤ 121) (hbB : |b| ≤ 259)
    (hx1a : |x1 - a| ≤ 1 / 10 ^ 14) (hx2b : |x2 - b| ≤ 1 / 10 ^ 14) :
    |round64 (round64 (round64 x1 * round64 x1) + round64 (round64 x2 * round64 x2)) -
      (a ^ 2 + b ^ 2)| ≤ 7 / 10 ^ 11 := by
  have hx1B : |x1| ≤ 122 := (abs_le_of_near x1 a _ _ hx1a haA).trans (by norm_num)
  have hx2B : |x2| ≤ 260 := (abs_le_of_near x2 b _ _ hx2b hbB).trans (by norm_num)
  obtain ⟨d1, hd1⟩ : ∃ d, d = round64 x1 := ⟨_, rfl⟩
  obtain ⟨d2, hd2⟩ : ∃ d, d = round64 x2 := ⟨_, rfl⟩
  rw [← hd1, ← hd2]
  have hd1x : |d1 - x1| ≤ 2 / 10 ^ 14 := by
    rw [hd1]; exact (round64_near x1 122 hx1B).trans (by norm_num)
  have hd2x : |d2 - x2| ≤ 3 / 10 ^ 14 := by
    rw [hd2]; exact (round64_near x2 260 hx2B).trans (by norm_num)
  have hd1a : |d1 - a| ≤ 3 / 10 ^ 14 :=
    (abs_sub_trans d1 x1 a _ _ hd1x hx1a).trans (by norm_num)
  have hd2b : |d2 - b| ≤ 4 / 10 ^ 14 :=
    (abs_sub_trans d2 x2 b _ _ hd2x hx2b).trans (by norm_num)
  have hp1 : |d1 * d1 - a ^ 2| ≤ 1 / 10 ^ 11 :=
    (sq_near d1 a _ 121 hd1a haA).trans (by norm_num)
  have hp2 : |d2 * d2 - b ^ 2| ≤ 3 / 10 ^ 11 :=
    (sq_near d2 b _ 259 hd2b hbB).trans (by norm_num)
  have ha2 : |a ^ 2| ≤ 14641 := by
    rw [abs_pow]
    calc |a| ^ 2 ≤ 121 ^ 2 := pow_le_pow_left₀ (abs_nonneg a) haA 2
      _ = 14641 := by norm_num
  have hb2 : |b ^ 2| ≤ 67081 := by
    rw [abs_pow]
    calc |b| ^ 2 ≤ 259 ^ 2 := pow_le_pow_left₀ (abs_nonneg b) hbB 2
      _ = 67081 := by norm_num
  have hp1B : |d1 * d1| ≤ 14642 :=
    (abs_le_of_near (d1 * d1) (a ^ 2) _ _ hp1 ha2).trans (by norm_num)
  have hp2B : |d2 * d2| ≤ 67082 :=
    (abs_le_of_near (d2 * d2) (b ^ 2) _ _ hp2 hb2).trans (by norm_num)
  obtain ⟨s1, hs1⟩ : ∃ s, s = round64 (d1 * d1) := ⟨_, rfl⟩
  obtain ⟨s2, hs2⟩ : ∃ s, s = round64 (d2 * d2) := ⟨_, rfl⟩
  rw [← hs1, ← hs2]
  have hs1p : |s1 - d1 * d1| ≤ 2 / 10 ^ 12 := by
    rw [hs1]; exact (round64_near (d1 * d1) 14642 hp1B).trans (by norm_num)
  have hs2p : |s2 - d2 * d2| ≤ 8 / 10 ^ 12 := by
    rw [hs2]; exact (round64_near (d2 * d2) 67082 hp2B).trans (by norm_num)
  have hs1a : |s1 - a ^ 2| ≤ 2 / 10 ^ 11 :=
    (abs_sub_trans s1 (d1 * d1) (a ^ 2) _ _ hs1p hp1).trans (by norm_num)
  have hs2b : |s2 - b ^ 2| ≤ 4 / 10 ^ 11 :=
    (abs_sub_trans s2 (d2 * d2) (b ^ 2) _ _ hs2p hp2).trans (by norm_num)
  have hsum : |s1 + s2 - (a ^ 2 + b ^ 2)| ≤ 6 / 10 ^ 11 := by
    have := abs_add (s1 - a ^ 2) (s2 - b ^ 2)
    have e : s1 - a ^ 2 + (s2 - b ^ 2) = s1 + s2 - (a ^ 2 + b ^ 2) := by ring
    rw [e] at this
    exact this.trans (by linarith)
  have hab : |a ^ 2 + b ^ 2| ≤ 81722 := (abs_add _ _).trans (by linarith)
  have hsumB : |s1 + s2| ≤ 81723 :=
    (abs_le_of_near (s1 + s2) (a ^ 2 + b ^ 2) _ _ hsum hab).trans (by norm_num)
  have hfl : |round64 (s1 + s2) - (s1 + s2)| ≤ 1 / 10 ^ 11 :=
    (round64_near (s1 + s2) 81723 hsumB).trans (by norm_num)
  exact (abs_sub_trans _ (s1 + s2) _ _ _ hfl hsum).trans (by norm_num)

/-- Inside the coordinate range the squared distance computed in float64 is within
`7 / 10 ^ 11` of the exact squared distance from (30.268804, 77.993259). -/
theorem neem_distance_near (lat lon : ℚ) (hlat : -90 ≤ lat ∧ lat ≤ 90)
    (hlon : -180 ≤ lon ∧ lon ≤ 180) :
    |round64 (round64 (round64 (lat - round64 (30268804 / 1000000)) *
          round64 (lat - round64 (30268804 / 1000000))) +
        round64 (round64 (lon - round64 (77993259 / 1000000)) *
          round64 (lon - round64 (77993259 / 1000000)))) -
      ((lat - 30268804 / 1000000) ^ 2 + (lon - 77993259 / 1000000) ^ 2)| ≤ 7 / 10 ^ 11 := by
  rw [neemLat_eq, neemLon_eq]
  obtain ⟨hl1, hl2⟩ := hlat
  obtain ⟨hn1, hn2⟩ := hlon
  apply squared_distance_near
  · rw [abs_le]; constructor <;> linarith
  · rw [abs_le]; constructor <;> linarith
  · have : lat - 8519910900959411 / 281474976710656 - (lat - 30268804 / 1000000) =
        30268804 / 1000000 - 8519910900959411 / 281474976710656 := by ring
    rw [this, abs_le]; constructor <;> norm_num
  · have : lon - 2744143845076645 / 35184372088832 - (lon - 77993259 / 1000000) =
        77993259 / 1000000 - 2744143845076645 / 35184372088832 := by ring
    rw [this, abs_le]; constructor <;> norm_num

/-- A coordinate in range whose exact squared distance from the centre is below 0.25 by
at least `10 ^ -10` is accepted. -/
theorem validateGeoFencing_of_inside (lat lon : ℚ) (species : String)
    (hlat : -90 ≤ lat ∧ lat ≤ 90) (hlon : -180 ≤ lon ∧ lon ≤ 180)
    (h : (lat - 30268804 / 1000000) ^ 2 + (lon - 77993259 / 1000000) ^ 2 ≤
      (1 / 2) ^ 2 - 1 / 10 ^ 10) :
    validateGeoFencing lat lon species = true := by
  rw [validateGeoFencing_eq_true_iff]
  refine ⟨hlat, hlon, Or.inr ?_⟩
  have hn := neem_distance_near lat lon hlat hlon
  rw [abs_le] at hn
  have : ((1 : ℚ) / 2) ^ 2 = 1 / 4 := by norm_num
  linarith [hn.2]

/-- A Neem coordinate whose exact squared distance from the centre is above 0.25 by at
least `10 ^ -10` is rejected. -/
theorem validateGeoFencing_of_outside (lat lon : ℚ)
    (h : (lat - 30268804 / 1000000) ^ 2 + (lon - 77993259 / 1000000) ^ 2 ≥
      (1 / 2) ^ 2 + 1 / 10 ^ 10) :
    validateGeoFencing lat lon "Neem" = false := by
  cases hv : validateGeoFencing lat lon "Neem" with
  | false => rfl
  | true =>
    rw [validateGeoFencing_eq_true_iff] at hv
    obtain ⟨hlat, hlon, h3 | h3⟩ := hv
    · exact absurd rfl h3
    · exfalso
      have hn := neem_distance_near lat lon hlat hlon
      rw [abs_le] at hn
      have : ((1 : ℚ) / 2) ^ 2 = 1 / 4 := by norm_num
      have h10 : (0 : ℚ) < 1 / 10 ^ 10 := by positivity
      linarith [hn.1]

/-- The float64 point half a degree north of the Neem centre is accepted. -/
theorem neem_north_edge :
    validateGeoFencing (8660648389314739 / 281474976710656 : ℚ) (2744143845076645 / 35184372088832 : ℚ) "Neem" = true := by
  have hd1 : round64 (1 / 2 : ℚ) = (1 / 2 : ℚ) :=
    round64_eval (1 / 2 : ℚ) (-1) (-53) 4503599627370496 (1 / 2 : ℚ) (by decide)
      (by rw [abs_of_pos (by norm_num)]; norm_num) (by rw [abs_of_pos (by norm_num)]; norm_num)
      (by rw [abs_lt]; constructor <;> norm_num) (by norm_num)
  have hs1 : round64 ((1 / 2 : ℚ) * (1 / 2 : ℚ)) = (1 / 4 : ℚ) := by
    rw [show ((1 / 2 : ℚ) * (1 / 2 : ℚ) : ℚ) = (1 / 4 : ℚ) by norm_num]
    exact round64_eval (1 / 4 : ℚ) (-2) (-54) 4503599627370496 (1 / 4 : ℚ) (by decide)
        (by rw [abs_of_pos (by norm_num)]; norm_num) (by rw [abs_of_pos (by norm_num)]; norm_num)
        (by rw [abs_lt]; constructor <;> norm_num) (by norm_num)
  have hd2 : round64 (0 : ℚ) = (0 : ℚ) :=
    round64_zero
  have hs2 : round64 ((0 : ℚ) * (0 : ℚ)) = (0 : ℚ) := by
    rw [show ((0 : ℚ) * (0 : ℚ) : ℚ) = (0 : ℚ) by norm_num]
    exact round64_zero
  have hdist : round64 ((1 / 4 : ℚ) + (0 : ℚ)) = (1 / 4 : ℚ) := by
    rw [show ((1 / 4 : ℚ) + (0 : ℚ) : ℚ) = (1 / 4 : ℚ) by norm_num]
    exact round64_eval (1 / 4 : ℚ) (-2) (-54) 4503599627370496 (1 / 4 : ℚ) (by decide)
        (by rw [abs_of_pos (by norm_num)]; norm_num) (by rw [abs_of_pos (by norm_num)]; norm_num)
        (by rw [abs_lt]; constructor <;> norm_num) (by norm_num)
  have h := validateGeoFencing_neem_steps (8660648389314739 / 281474976710656 : ℚ) (2744143845076645 / 35184372088832 : ℚ)
    (1 / 2 : ℚ) (1 / 2 : ℚ) (1 / 4 : ℚ) (0 : ℚ) (0 : ℚ) (0 : ℚ) (1 / 4 : ℚ)
    (by norm_num) (by norm_num) (by norm_num) hd1 hs1 (by norm_num) hd2 hs2 hdist
  rw [h]
  norm_num

/-- The float64 point half a degree west of the Neem centre is accepted. -/
theorem neem_west_edge :
    validateGeoFencing (8519910900959411 / 281474976710656 : ℚ) (2726551659032229 / 35184372088832 : ℚ) "Neem" = true := by
  have hd1 : round64 (0 : ℚ) = (0 : ℚ) :=
    round64_zero
  have hs1 : round64 ((0 : ℚ) * (0 : ℚ)) = (0 : ℚ) := by
    rw [show ((0 : ℚ) * (0 : ℚ) : ℚ) = (0 : ℚ) by norm_num]
    exact round64_zero
  have hd2 : round64 (-1 / 2 : ℚ) = (-1 / 2 : ℚ) :=
    round64_eval (-1 / 2 : ℚ) (-1) (-53) (-4503599627370496) (-1 / 2 : ℚ) (by decide)
      (by rw [abs_of_neg (by norm_num)]; norm_num) (by rw [abs_of_neg (by norm_num)]; norm_num)
      (by rw [abs_lt]; constructor <;> norm_num) (by norm_num)
  have hs2 : round64 ((-1 / 2 : ℚ) * (-1 / 2 : ℚ)) = (1 / 4 : ℚ) := by
    rw [show ((-1 / 2 : ℚ) * (-1 / 2 : ℚ) : ℚ) = (1 / 4 : ℚ) by norm_num]
    exact round64_eval (1 / 4 : ℚ) (-2) (-54) 4503599627370496 (1 / 4 : ℚ) (by decide)
        (by rw [abs_of_pos (by norm_num)]; norm_num) (by rw [abs_of_pos (by norm_num)]; norm_num)
        (by rw [abs_lt]; constructor <;> norm_num) (by norm_num)
  have hdist : round64 ((0 : ℚ) + (1 / 4 : ℚ)) = (1 / 4 : ℚ) := by
    rw [show ((0 : ℚ) + (1 / 4 : ℚ) : ℚ) = (1 / 4 : ℚ) by norm_num]
    exact round64_eval (1 / 4 : ℚ) (-2) (-54) 4503599627370496 (1 / 4 : ℚ) (by decide)
        (by rw [abs_of_pos (by norm_num)]; norm_num) (by rw [abs_of_pos (by norm_num)]; norm_num)
        (by rw [abs_lt]; constructor <;> norm_num) (by norm_num)
  have h := validateGeoFencing_neem_steps (8519910900959411 / 281474976710656 : ℚ) (2726551659032229 / 35184372088832 : ℚ)
    (0 : ℚ) (0 : ℚ) (0 : ℚ) (-1 / 2 : ℚ) (-1 / 2 : ℚ) (1 / 4 : ℚ) (1 / 4 : ℚ)
    (by norm_num) (by norm_num) (by norm_num) hd1 hs1 (by norm_num) hd2 hs2 hdist
  rw [h]
  norm_num

/-- The code accepts the float64 nearest 29.768804 at the centre longitude. -/
theorem neem_accepts_outside_exact_circle :
    validateGeoFencing (8379173412604083 / 281474976710656 : ℚ) (2744143845076645 / 35184372088832 : ℚ) "Neem" = true := by
  have hd1 : round64 (-1 / 2 : ℚ) = (-1 / 2 : ℚ) :=
    round64_eval (-1 / 2 : ℚ) (-1) (-53) (-4503599627370496) (-1 / 2 : ℚ) (by decide)
      (by rw [abs_of_neg (by norm_num)]; norm_num) (by rw [abs_of_neg (by norm_num)]; norm_num)
      (by rw [abs_lt]; constructor <;> norm_num) (by norm_num)
  have hs1 : round64 ((-1 / 2 : ℚ) * (-1 / 2 : ℚ)) = (1 / 4 : ℚ) := by
    rw [show ((-1 / 2 : ℚ) * (-1 / 2 : ℚ) : ℚ) = (1 / 4 : ℚ) by norm_num]
    exact round64_eval (1 / 4 : ℚ) (-2) (-54) 4503599627370496 (1 / 4 : ℚ) (by decide)
        (by rw [abs_of_pos (by norm_num)]; norm_num) (by rw [abs_of_pos (by norm_num)]; norm_num)
        (by rw [abs_lt]; constructor <;> norm_num) (by norm_num)
  have hd2 : round64 (0 : ℚ) = (0 : ℚ) :=
    round64_zero
  have hs2 : round64 ((0 : ℚ) * (0 : ℚ)) = (0 : ℚ) := by
    rw [show ((0 : ℚ) * (0 : ℚ) : ℚ) = (0 : ℚ) by norm_num]
    exact round64_zero
  have hdist : round64 ((1 / 4 : ℚ) + (0 : ℚ)) = (1 / 4 : ℚ) := by
    rw [show ((1 / 4 : ℚ) + (0 : ℚ) : ℚ) = (1 / 4 : ℚ) by norm_num]
    exact round64_eval (1 / 4 : ℚ) (-2) (-54) 4503599627370496 (1 / 4 : ℚ) (by decide)
        (by rw [abs_of_pos (by norm_num)]; norm_num) (by rw [abs_of_pos (by norm_num)]; norm_num)
        (by rw [abs_lt]; constructor <;> norm_num) (by norm_num)
  have h := validateGeoFencing_neem_steps (8379173412604083 / 281474976710656 : ℚ) (2744143845076645 / 35184372088832 : ℚ)
    (-1 / 2 : ℚ) (-1 / 2 : ℚ) (1 / 4 : ℚ) (0 : ℚ) (0 : ℚ) (0 : ℚ) (1 / 4 : ℚ)
    (by norm_num) (by norm_num) (by norm_num) hd1 hs1 (by norm_num) hd2 hs2 hdist
  rw [h]
  norm_num

/-- The code rejects the float64 pair (30.568803999999997, 78.393259). -/
theorem neem_rejects_inside_exact_circle :
    validateGeoFencing (8604353393972607 / 281474976710656 : ℚ) (1379108796956089 / 17592186044416 : ℚ) "Neem" = false := by
  have hd1 : round64 (21110623253299 / 70368744177664 : ℚ) = (21110623253299 / 70368744177664 : ℚ) :=
    round64_eval (21110623253299 / 70368744177664 : ℚ) (-2) (-54) 5404319552844544 (21110623253299 / 70368744177664 : ℚ) (by decide)
      (by rw [abs_of_pos (by norm_num)]; norm_num) (by rw [abs_of_pos (by norm_num)]; norm_num)
      (by rw [abs_lt]; constructor <;> norm_num) (by norm_num)
  have hs1 : round64 ((21110623253299 / 70368744177664 : ℚ) * (21110623253299 / 70368744177664 : ℚ)) = (6485183463413391 / 72057594037927936 : ℚ) := by
    rw [show ((21110623253299 / 70368744177664 : ℚ) * (21110623253299 / 70368744177664 : ℚ) : ℚ) = (445658414142728454714383401 / 4951760157141521099596496896 : ℚ) by norm_num]
    exact round64_eval (445658414142728454714383401 / 4951760157141521099596496896 : ℚ) (-4) (-56) 6485183463413391 (6485183463413391 / 72057594037927936 : ℚ) (by decide)
        (by rw [abs_of_pos (by norm_num)]; norm_num) (by rw [abs_of_pos (by norm_num)]; norm_num)
        (by rw [abs_lt]; constructor <;> norm_num) (by norm_num)
  have hd2 : round64 (14073748835533 / 35184372088832 : ℚ) = (14073748835533 / 35184372088832 : ℚ) :=
    round64_eval (14073748835533 / 35184372088832 : ℚ) (-2) (-54) 7205759403792896 (14073748835533 / 35184372088832 : ℚ) (by decide)
      (by rw [abs_of_pos (by norm_num)]; norm_num) (by rw [abs_of_pos (by norm_num)]; norm_num)
      (by rw [abs_lt]; constructor <;> norm_num) (by norm_num)
  have hs2 : round64 ((14073748835533 / 35184372088832 : ℚ) * (14073748835533 / 35184372088832 : ℚ)) = (5764607523034399 / 36028797018963968 : ℚ) := by
    rw [show ((14073748835533 / 35184372088832 : ℚ) * (14073748835533 / 35184372088832 : ℚ) : ℚ) = (198070406285666473483394089 / 1237940039285380274899124224 : ℚ) by norm_num]
    exact round64_eval (198070406285666473483394089 / 1237940039285380274899124224 : ℚ) (-3) (-55) 5764607523034399 (5764607523034399 / 36028797018963968 : ℚ) (by decide)
        (by rw [abs_of_pos (by norm_num)]; norm_num) (by rw [abs_of_pos (by norm_num)]; norm_num)
        (by rw [abs_lt]; constructor <;> norm_num) (by norm_num)
  have hdist : round64 ((6485183463413391 / 72057594037927936 : ℚ) + (5764607523034399 / 36028797018963968 : ℚ)) = (4503599627370547 / 18014398509481984 : ℚ) := by
    rw [show ((6485183463413391 / 72057594037927936 : ℚ) + (5764607523034399 / 36028797018963968 : ℚ) : ℚ) = (18014398509482189 / 72057594037927936 : ℚ) by norm_num]
    exact round64_eval (18014398509482189 / 72057594037927936 : ℚ) (-2) (-54) 4503599627370547 (4503599627370547 / 18014398509481984 : ℚ) (by decide)
        (by rw [abs_of_pos (by norm_num)]; norm_num) (by rw [abs_of_pos (by norm_num)]; norm_num)
        (by rw [abs_lt]; constructor <;> norm_num) (by norm_num)
  have h := validateGeoFencing_neem_steps (8604353393972607 / 281474976710656 : ℚ) (1379108796956089 / 17592186044416 : ℚ)
    (21110623253299 / 70368744177664 : ℚ) (21110623253299 / 70368744177664 : ℚ) (6485183463413391 / 72057594037927936 : ℚ) (14073748835533 / 35184372088832 : ℚ) (14073748835533 / 35184372088832 : ℚ) (5764607523034399 / 36028797018963968 : ℚ) (4503599627370547 / 18014398509481984 : ℚ)
    (by norm_num) (by norm_num) (by norm_num) hd1 hs1 (by norm_num) hd2 hs2 hdist
  rw [h]
  norm_num

/-- C3, counterexample: on float64 coordinates the verdict is not the exact-rational
circle test of the claim. The float64 nearest 29.768804, at the centre longitude (the
float64 nearest 77.993259), is accepted although its exact squared distance from
(30.268804, 77.993259) exceeds 0.25; the float64 pair (30.568803999999997, 78.393259)
is rejected although it is in range and its exact squared distance is below 0.25. -/
theorem C3_exact_circle_counterexample :
    (round64 (29768804 / 1000000) = 8379173412604083 / 281474976710656 ∧
      round64 (77993259 / 1000000) = 2744143845076645 / 35184372088832 ∧
      validateGeoFencing (8379173412604083 / 281474976710656)
        (2744143845076645 / 35184372088832) "Neem" = true ∧
      ¬ ((8379173412604083 / 281474976710656 - 30268804 / 1000000 : ℚ) ^ 2 +
          (2744143845076645 / 35184372088832 - 77993259 / 1000000) ^ 2 ≤ (1 / 2) ^ 2)) ∧
    (round64 (30568803999999997 / 1000000000000000) = 8604353393972607 / 281474976710656 ∧
      round64 (78393259 / 1000000) = 1379108796956089 / 17592186044416 ∧
      validateGeoFencing (8604353393972607 / 281474976710656)
        (1379108796956089 / 17592186044416) "Neem" = false ∧
      ((-90 : ℚ) ≤ 8604353393972607 / 281474976710656 ∧
        (8604353393972607 / 281474976710656 : ℚ) ≤ 90) ∧
      ((-180 : ℚ) ≤ 1379108796956089 / 17592186044416 ∧
        (1379108796956089 / 17592186044416 : ℚ) ≤ 180) ∧
      (8604353393972607 / 281474976710656 - 30268804 / 1000000 : ℚ) ^ 2 +
          (1379108796956089 / 17592186044416 - 77993259 / 1000000) ^ 2 ≤ (1 / 2) ^ 2) := by
  refine ⟨⟨?_, neemLon_eq, neem_accepts_outside_exact_circle, by norm_num⟩,
    ⟨?_, ?_, neem_rejects_inside_exact_circle, by norm_num, by norm_num, by norm_num⟩⟩
  · have h := (round64_eval (7442201 / 250000 : ℚ) 4 (-48) 8379173412604083 (8379173412604083 / 281474976710656 : ℚ) (by decide)
      (by rw [abs_of_pos (by norm_num)]; norm_num) (by rw [abs_of_pos (by norm_num)]; norm_num)
      (by rw [abs_lt]; constructor <;> norm_num) (by norm_num))
    norm_num at h ⊢
    exact h
  · exact (round64_eval (30568803999999997 / 1000000000000000 : ℚ) 4 (-48) 8604353393972607 (8604353393972607 / 281474976710656 : ℚ) (by decide)
      (by rw [abs_of_pos (by norm_num)]; norm_num) (by rw [abs_of_pos (by norm_num)]; norm_num)
      (by rw [abs_lt]; constructor <;> norm_num) (by norm_num))
  · have h := (round64_eval (78393259 / 1000000 : ℚ) 6 (-46) 5516435187824356 (1379108796956089 / 17592186044416 : ℚ) (by decide)
      (by rw [abs_of_pos (by norm_num)]; norm_num) (by rw [abs_of_pos (by norm_num)]; norm_num)
      (by rw [abs_lt]; constructor <;> norm_num) (by norm_num))
    norm_num at h ⊢
    exact h

/-- C3, as amended: validateGeoFencing accepts exactly the coordinates with latitude in
[-90, 90] and longitude in [-180, 180] that, for the species "Neem", also have a squared
plain-degree distance from the float64 centre of at most 0.25, the distance being
computed in float64 (each difference, each square and the sum rounded to nearest). Inside
the coordinate range this agrees with the exact-rational circle of radius 0.5 around
(30.268804, 77.993259) whenever the exact squared distance differs from 0.25 by at least
`10 ^ -10`. Latitude 91 and longitude 181 are rejected for every species; the float64
points exactly 0.5 degrees north and west of the float64 centre are accepted and the
points a further whole degree out are rejected. -/
theorem C3_validateGeoFencing_float64 (lat lon : ℚ) (species : String) :
    (validateGeoFencing lat lon species = true ↔
      (-90 ≤ lat ∧ lat ≤ 90) ∧ (-180 ≤ lon ∧ lon ≤ 180) ∧
      (species ≠ "Neem" ∨
        round64 (round64 (round64 (lat - round64 (30268804 / 1000000)) *
              round64 (lat - round64 (30268804 / 1000000))) +
            round64 (round64 (lon - round64 (77993259 / 1000000)) *
              round64 (lon - round64 (77993259 / 1000000)))) ≤ 1 / 4)) ∧
    ((-90 ≤ lat ∧ lat ≤ 90) → (-180 ≤ lon ∧ lon ≤ 180) →
      (lat - 30268804 / 1000000) ^ 2 + (lon - 77993259 / 1000000) ^ 2 ≤
        (1 / 2) ^ 2 - 1 / 10 ^ 10 →
      validateGeoFencing lat lon species = true) ∧
    ((lat - 30268804 / 1000000) ^ 2 + (lon - 77993259 / 1000000) ^ 2 ≥
        (1 / 2) ^ 2 + 1 / 10 ^ 10 →
      validateGeoFencing lat lon "Neem" = false) ∧
    validateGeoFencing 91 lon species = false ∧
    validateGeoFencing lat 181 species = false ∧
    validateGeoFencing (round64 (30268804 / 1000000) + 1 / 2)
      (round64 (77993259 / 1000000)) "Neem" = true ∧
    validateGeoFencing (round64 (30268804 / 1000000))
      (round64 (77993259 / 1000000) - 1 / 2) "Neem" = true ∧
    validateGeoFencing (round64 (30268804 / 1000000) + 1 / 2 + 1)
      (round64 (77993259 / 1000000)) "Neem" = false ∧
    validateGeoFencing (round64 (30268804 / 1000000))
      (round64 (77993259 / 1000000) - 1 / 2 - 1) "Neem" = false := by
  refine ⟨validateGeoFencing_eq_true_iff lat lon species,
    validateGeoFencing_of_inside lat lon species, validateGeoFencing_of_outside lat lon,
    ?_, ?_, ?_, ?_, ?_, ?_⟩
  · have h : ¬ validateGeoFencing 91 lon species = true := by
      rw [validateGeoFencing_eq_true_iff]
      rintro ⟨⟨_, h⟩, _⟩
      norm_num at h
    simpa using h
  · have h : ¬ validateGeoFencing lat 181 species = true := by
      rw [validateGeoFencing_eq_true_iff]
      rintro ⟨_, ⟨_, h⟩, _⟩
      norm_num at h
    simpa using h
  · rw [neemLat_eq, neemLon_eq]
    have h := neem_north_edge
    norm_num at h ⊢
    exact h
  · rw [neemLat_eq, neemLon_eq]
    have h := neem_west_edge
    norm_num at h ⊢
    exact h
  · rw [neemLat_eq, neemLon_eq]
    apply validateGeoFencing_of_outside
    norm_num
  · rw [neemLat_eq, neemLon_eq]
    apply validateGeoFencing_of_outside
    norm_num

/-! ## CreateCollectionEvent: the exit paths -/

section paths

variable {Q : Type} (json : Json) (stub : Stub) (c : Collaborators Q) (q : Q)

theorem approved_fields (event : CollectionEvent) :
    (approved event).ID = event.ID ∧ (approved event).Species = event.Species ∧
    (approved event).ZoneName = event.ZoneName ∧ (approved event).Quantity = event.Quantity ∧
    (approved event).ApprovedZone = true :=
  ⟨rfl, rfl, rfl, rfl, rfl⟩

theorem create_unmarshal_error (eventJSON err : String)
    (hjson : json.unmarshalCollectionEvent eventJSON = .error err) :
    CreateCollectionEvent json stub c q eventJSON =
      { result := .error ("failed to unmarshal event: " ++ err), quota := q, calls := [],
        event := none } := by
  simp [CreateCollectionEvent, hjson]

theorem create_season_error (eventJSON : String) (event : CollectionEvent) (err : String)
    (hjson : json.unmarshalCollectionEvent eventJSON = .ok event)
    (hseason : c.ValidateSeasonWindow event.Species event.HarvestDate event.ZoneName = .error err) :
    CreateCollectionEvent json stub c q eventJSON =
      { result := .error ("season validation error: " ++ err), quota := q,
        calls := [Call.ValidateSeasonWindow event.Species event.HarvestDate event.ZoneName],
        event := some event } := by
  simp [CreateCollectionEvent, hjson, hseason]

theorem create_season_fail (eventJSON : String) (event : CollectionEvent)
    (hjson : json.unmarshalCollectionEvent eventJSON = .ok event)
    (hseason : c.ValidateSeasonWindow event.Species event.HarvestDate event.ZoneName = .ok false) :
    CreateCollectionEvent json stub c q eventJSON =
      { result := .error ("harvest outside allowed season window for species: " ++ event.Species),
        quota := q,
        calls := [Call.ValidateSeasonWindow event.Species event.HarvestDate event.ZoneName,
          Call.CreateAlert (seasonAlert event)],
        event := some { event with ApprovedZone := false, Status := "rejected" } } := by
  simp [CreateCollectionEvent, hjson, hseason]

theorem create_geo_fail (eventJSON : String) (event : CollectionEvent)
    (hjson : json.unmarshalCollectionEvent eventJSON = .ok event)
    (hseason : c.ValidateSeasonWindow event.Species event.HarvestDate event.ZoneName = .ok true)
    (hgeo : validateGeoFencing event.Latitude event.Longitude event.Species = false) :
    CreateCollectionEvent json stub c q eventJSON =
      { result := .error ("collection location outside approved zone for species: " ++
          event.Species),
        quota := q,
        calls := [Call.ValidateSeasonWindow event.Species event.HarvestDate event.ZoneName,
          Call.validateGeoFencing event.Latitude event.Longitude event.Species,
          Call.CreateAlert (zoneAlert event)],
        event := some { event with ApprovedZone := false, Status := "rejected" } } := by
  simp [CreateCollectionEvent, hjson, hseason, hgeo]

theorem create_geo_pass (eventJSON : String) (event : CollectionEvent)
    (hjson : json.unmarshalCollectionEvent eventJSON = .ok event)
    (hseason : c.ValidateSeasonWindow event.Species event.HarvestDate event.ZoneName = .ok true)
    (hgeo : validateGeoFencing event.Latitude event.Longitude event.Species = true) :
    CreateCollectionEvent json stub c q eventJSON =
      checkAndTrackHarvest json stub c q (approved event)
        [Call.ValidateSeasonWindow event.Species event.HarvestDate event.ZoneName,
          Call.validateGeoFencing event.Latitude event.Longitude event.Species] := by
  simp [CreateCollectionEvent, hjson, hseason, hgeo]

theorem track_limit_error (event : CollectionEvent) (calls : List Call) (err : String)
    (hlimit : c.ValidateHarvestLimit q event.Species event.ZoneName c.getCurrentSeason
      event.Quantity = .error err) :
    checkAndTrackHarvest json stub c q event calls =
      { result := .error ("harvest limit validation error: " ++ err), quota := q,
        calls := calls ++ [Call.getCurrentSeason,
          Call.ValidateHarvestLimit event.Species event.ZoneName c.getCurrentSeason
            event.Quantity],
        event := some event } := by
  simp [checkAndTrackHarvest, hlimit]

theorem track_limit_fail (event : CollectionEvent) (calls : List Call)
    (hlimit : c.ValidateHarvestLimit q event.Species event.ZoneName c.getCurrentSeason
      event.Quantity = .ok false) :
    checkAndTrackHarvest json stub c q event calls =
      { result := .error ("harvest limit exceeded for species: " ++ event.Species ++
          " in zone: " ++ event.ZoneName),
        quota := q,
        calls := calls ++ [Call.getCurrentSeason,
          Call.ValidateHarvestLimit event.Species event.ZoneName c.getCurrentSeason
            event.Quantity,
          Call.CreateAlert (harvestAlert event c.getCurrentSeason)],
        event := some { event with Status := "rejected" } } := by
  simp [checkAndTrackHarvest, hlimit]

theorem track_error (event : CollectionEvent) (calls : List Call) (err : String)
    (hlimit : c.ValidateHarvestLimit q event.Species event.ZoneName c.getCurrentSeason
      event.Quantity = .ok true)
    (htrack : c.TrackHarvestQuantity q event.Species event.ZoneName c.getCurrentSeason
      event.Quantity = .error err) :
    checkAndTrackHarvest json stub c q event calls =
      { result := .error ("failed to track harvest quantity: " ++ err), quota := q,
        calls := calls ++ [Call.getCurrentSeason,
          Call.ValidateHarvestLimit event.Species event.ZoneName c.getCurrentSeason
            event.Quantity,
          Call.TrackHarvestQuantity event.Species event.ZoneName c.getCurrentSeason
            event.Quantity],
        event := some event } := by
  simp [checkAndTrackHarvest, hlimit, htrack]

theorem track_pass (event : CollectionEvent) (calls : List Call) (q' : Q)
    (hlimit : c.ValidateHarvestLimit q event.Species event.ZoneName c.getCurrentSeason
      event.Quantity = .ok true)
    (htrack : c.TrackHarvestQuantity q event.Species event.ZoneName c.getCurrentSeason
      event.Quantity = .ok q') :
    checkAndTrackHarvest json stub c q event calls =
      finishCollectionEvent json stub c q' event c.getCurrentSeason
        (calls ++ [Call.getCurrentSeason,
          Call.ValidateHarvestLimit event.Species event.ZoneName c.getCurrentSeason
            event.Quantity,
          Call.TrackHarvestQuantity event.Species event.ZoneName c.getCurrentSeason
            event.Quantity]) := by
  simp [checkAndTrackHarvest, hlimit, htrack]

theorem finish_conservation_fail (event : CollectionEvent) (season : String)
    (calls : List Call) (err : String)
    (hcons : validateConservationLimits event.Species event.Quantity = .error err) :
    finishCollectionEvent json stub c q event season calls =
      { result := .error err, quota := q,
        calls := calls ++ [Call.GetHarvestStatistics event.Species event.ZoneName season] ++
          (warningAlerts c q event season).map Call.CreateAlert ++
          [Call.validateConservationLimits event.Species event.Quantity,
           Call.CreateAlert (conservationAlert event)],
        event := some event } := by
  simp [finishCollectionEvent, hcons]

theorem finish_quota (event : CollectionEvent) (season : String) (calls : List Call) :
    (finishCollectionEvent json stub c q event season calls).quota = q := by
  unfold finishCollectionEvent
  simp only
  split
  · rfl
  · split
    · rfl
    · split <;> rfl

end paths

/-! ## Alert texts read back as JSON objects -/

theorem plainText_append (s t : String) :
    plainText (s ++ t) = (plainText s && plainText t) := by
  simp [plainText, String.data_append, List.all_append]

theorem isPlainChar_digitChar (d : ℕ) (h : d < 10) : isPlainChar (Nat.digitChar d) = true := by
  interval_cases d <;> decide

theorem toDigitsCore_plain (fuel : ℕ) : ∀ (n : ℕ) (ds : List Char),
    ds.all isPlainChar = true → (Nat.toDigitsCore 10 fuel n ds).all isPlainChar = true := by
  induction fuel with
  | zero => intro n ds h; simpa [Nat.toDigitsCore] using h
  | succ fuel ih =>
    intro n ds h
    have hd : isPlainChar (Nat.digitChar (n % 10)) = true :=
      isPlainChar_digitChar _ (Nat.mod_lt _ (by norm_num))
    rw [Nat.toDigitsCore]
    split_ifs
    · simp only [List.all_cons, hd, h, Bool.and_self]
    · apply ih
      simp only [List.all_cons, hd, h, Bool.and_self]

theorem plainText_natToString (n : ℕ) : plainText (toString n) = true :=
  toDigitsCore_plain _ _ _ rfl

theorem replicate_zero_plain (k : ℕ) : (List.replicate k '0').all isPlainChar = true := by
  induction k with
  | zero => rfl
  | succ k ih =>
    rw [List.replicate_succ, List.all_cons, ih]
    decide

theorem plainText_fixedDigits (prec scaled : ℕ) : plainText (fixedDigits prec scaled) = true := by
  unfold fixedDigits
  by_cases hp : prec = 0
  · simp only [hp, if_true]
    exact plainText_natToString _
  · simp only [if_neg hp]
    rw [plainText_append, plainText_append, plainText_append, plainText_natToString,
      plainText_natToString]
    have h1 : plainText "." = true := by decide
    have h2 : ∀ k, plainText (String.mk (List.replicate k '0')) = true := replicate_zero_plain
    rw [h1, h2]
    rfl

/-- The text of a `%.Nf` verb never holds a quote, a backslash or a control character. -/
theorem plainText_formatFloat (prec : ℕ) (x : Float64) :
    plainText (formatFloat prec x) = true := by
  cases x with
  | nan => show plainText "NaN" = true; decide
  | inf negative =>
    cases negative
    · show plainText "+Inf" = true; decide
    · show plainText "-Inf" = true; decide
  | finite negative magnitude =>
    unfold formatFloat
    rw [plainText_append, plainText_fixedDigits]
    cases negative <;> decide

theorem readStringBody_plain (s rest : List Char) (h : s.all isPlainChar = true) :
    readStringBody false (s ++ quoteChar :: rest) = some (s, rest) := by
  induction s with
  | nil => simp [readStringBody]
  | cons c s ih =>
    simp only [List.all_cons, Bool.and_eq_true] at h
    obtain ⟨hc, hs⟩ := h
    simp only [isPlainChar, Bool.and_eq_true, bne_iff_ne, ne_eq, decide_eq_true_eq] at hc
    obtain ⟨⟨h1, h2⟩, h3⟩ := hc
    rw [List.cons_append, readStringBody, if_neg h1, if_neg h2, if_neg (not_lt.mpr h3), ih hs]
    rfl

theorem readString_plain (s : String) (rest : List Char) (h : plainText s = true) :
    readString (quoteChar :: (s.data ++ quoteChar :: rest)) = some (s, rest) := by
  simp only [readString, if_true, readStringBody_plain s.data rest h, Option.map_some']

theorem memberLine_append (m : String × String) (tail : List Char) :
    memberLine m ++ tail = '\n' :: '\t' :: '\t' :: '\t' :: quoteChar ::
      (m.1.data ++ quoteChar :: ':' :: ' ' :: quoteChar :: (m.2.data ++ quoteChar :: tail)) := by
  simp [memberLine]

theorem skipSpace_memberLine (m : String × String) (tail : List Char) :
    skipSpace (memberLine m ++ tail) = quoteChar ::
      (m.1.data ++ quoteChar :: ':' :: ' ' :: quoteChar :: (m.2.data ++ quoteChar :: tail)) := by
  rw [memberLine_append]
  simp [skipSpace, isJsonSpace, quoteChar]

theorem readMembers_memberLine (fuel : ℕ) (m : String × String) (tail : List Char)
    (hk : plainText m.1 = true) (hv : plainText m.2 = true) :
    readMembers (fuel + 1) (memberLine m ++ tail) =
      match skipSpace tail with
      | ',' :: r4 =>
        match readMembers fuel r4 with
        | some members => some (m :: members)
        | none => none
      | '}' :: r4 => if skipSpace r4 = [] then some [m] else none
      | _ => none := by
  have s2 : ∀ rest, skipSpace (':' :: rest) = ':' :: rest := by
    intro rest; simp [skipSpace, isJsonSpace]
  have s3 : ∀ rest, skipSpace (' ' :: quoteChar :: rest) = quoteChar :: rest := by
    intro rest; simp [skipSpace, isJsonSpace, quoteChar]
  rw [readMembers, skipSpace_memberLine, readString_plain _ _ hk]
  simp only [s2, s3, readString_plain _ _ hv]

theorem readMembers_objectTail (rest : List (String × String)) :
    ∀ (m : String × String) (fuel : ℕ), rest.length < fuel →
    (∀ member ∈ m :: rest, plainText member.1 = true ∧ plainText member.2 = true) →
    readMembers fuel (memberLine m ++ objectTail rest) = some (m :: rest) := by
  induction rest with
  | nil =>
    intro m fuel hfuel hplain
    obtain ⟨hk, hv⟩ := hplain m (List.mem_cons_self _ _)
    obtain ⟨fuel, rfl⟩ : ∃ n, fuel = n + 1 := ⟨fuel - 1, by omega⟩
    rw [readMembers_memberLine fuel m _ hk hv]
    simp [objectTail, skipSpace, isJsonSpace]
  | cons m2 rest ih =>
    intro m fuel hfuel hplain
    obtain ⟨hk, hv⟩ := hplain m (List.mem_cons_self _ _)
    obtain ⟨fuel, rfl⟩ : ∃ n, fuel = n + 1 := ⟨fuel - 1, by omega⟩
    have ih2 := ih m2 fuel (by simp at hfuel; omega)
      (fun x hx => hplain x (List.mem_cons_of_mem _ hx))
    rw [readMembers_memberLine fuel m _ hk hv]
    have s1 : skipSpace (objectTail (m2 :: rest)) = ',' :: (memberLine m2 ++ objectTail rest) := by
      simp [objectTail, skipSpace, isJsonSpace]
    rw [s1]
    simp only [ih2]

theorem objectTail_length (members : List (String × String)) :
    members.length < (objectTail members).length := by
  induction members with
  | nil => simp [objectTail]
  | cons m rest ih =>
    simp only [objectTail, List.length_append, List.length_cons] at ih ⊢
    omega

/-- A text laid out like the alert templates, with keys and values that hold no quote,
backslash or control character, reads back as exactly its members. -/
theorem readObject_objectLines (text : String) (members : List (String × String))
    (htext : text.data = objectLines members) (hne : members ≠ [])
    (hplain : ∀ member ∈ members, plainText member.1 = true ∧ plainText member.2 = true) :
    readObject text = some members := by
  cases members with
  | nil => exact absurd rfl hne
  | cons m rest =>
    have h1 : ∀ cs, skipSpace ('{' :: cs) = '{' :: cs := by
      intro cs; simp [skipSpace, isJsonSpace]
    have hlen : rest.length < (memberLine m ++ objectTail rest).length := by
      have := objectTail_length rest
      simp only [List.length_append]
      omega
    unfold readObject
    rw [htext, objectLines, h1]
    simp only [skipSpace_memberLine]
    have hq : ∀ cs cs', quoteChar :: cs = '}' :: cs' → False := by
      intro cs cs' h
      injection h with h _
      exact absurd h (by decide)
    split
    · next h => exact absurd h (hq _ _)
    · exact readMembers_objectTail rest m _ hlen hplain

set_option maxRecDepth 100000 in
theorem seasonAlert_data (event : CollectionEvent) :
    (seasonAlert event).data = objectLines (seasonMembers event) := by
  simp [seasonAlert, seasonMembers, objectLines, objectTail, memberLine, String.data_append,
    quoteChar]

/-- Read as a JSON object, the season alert is the members of its template when the
inserted strings hold no quote, backslash or control character. -/
theorem seasonAlert_read (event : CollectionEvent)
    (hid : plainText event.ID = true) (hsp : plainText event.Species = true) (hz : plainText event.ZoneName = true) (hd : plainText event.HarvestDate = true) :
    readObject (seasonAlert event) = some (seasonMembers event) := by
  apply readObject_objectLines _ _ (seasonAlert_data event) (by simp [seasonMembers])
  intro member hm
  simp only [seasonMembers, List.mem_cons, List.mem_singleton, List.not_mem_nil, or_false] at hm
  rcases hm with rfl | rfl | rfl | rfl | rfl | rfl | rfl | rfl | rfl <;>
    simp [plainText_append, plainText_formatFloat, hid, hsp, hz, hd] <;> decide

set_option maxRecDepth 100000 in
theorem zoneAlert_data (event : CollectionEvent) :
    (zoneAlert event).data = objectLines (zoneMembers event) := by
  simp [zoneAlert, zoneMembers, objectLines, objectTail, memberLine, String.data_append,
    quoteChar]

/-- Read as a JSON object, the zone alert is the members of its template when the
inserted strings hold no quote, backslash or control character. -/
theorem zoneAlert_read (event : CollectionEvent)
    (hid : plainText event.ID = true) (hsp : plainText event.Species = true) (hz : plainText event.ZoneName = true) :
    readObject (zoneAlert event) = some (zoneMembers event) := by
  apply readObject_objectLines _ _ (zoneAlert_data event) (by simp [zoneMembers])
  intro member hm
  simp only [zoneMembers, List.mem_cons, List.mem_singleton, List.not_mem_nil, or_false] at hm
  rcases hm with rfl | rfl | rfl | rfl | rfl | rfl | rfl | rfl | rfl <;>
    simp [plainText_append, plainText_formatFloat, hid, hsp, hz] <;> decide

set_option maxRecDepth 100000 in
theorem harvestAlert_data (event : CollectionEvent) (season : String) :
    (harvestAlert event season).data = objectLines (harvestMembers event season) := by
  simp [harvestAlert, harvestMembers, objectLines, objectTail, memberLine, String.data_append,
    quoteChar]

/-- Read as a JSON object, the harvest alert is the members of its template when the
inserted strings hold no quote, backslash or control character. -/
theorem harvestAlert_read (event : CollectionEvent) (season : String)
    (hid : plainText event.ID = true) (hsp : plainText event.Species = true) (hz : plainText event.ZoneName = true) (hu : plainText event.Unit = true) (hs : plainText season = true) :
    readObject (harvestAlert event season) = some (harvestMembers event season) := by
  apply readObject_objectLines _ _ (harvestAlert_data event season) (by simp [harvestMembers])
  intro member hm
  simp only [harvestMembers, List.mem_cons, List.mem_singleton, List.not_mem_nil, or_false] at hm
  rcases hm with rfl | rfl | rfl | rfl | rfl | rfl | rfl | rfl | rfl <;>
    simp [plainText_append, plainText_formatFloat, hid, hsp, hz, hu, hs] <;> decide

set_option maxRecDepth 100000 in
theorem warningAlert_data (event : CollectionEvent) (season : String) (stats : HarvestStats) :
    (warningAlert event season stats).data = objectLines (warningMembers event season stats) := by
  simp [warningAlert, warningMembers, objectLines, objectTail, memberLine, String.data_append,
    quoteChar]

/-- Read as a JSON object, the warning alert is the members of its template when the
inserted strings hold no quote, backslash or control character. -/
theorem warningAlert_read (event : CollectionEvent) (season : String) (stats : HarvestStats)
    (hid : plainText event.ID = true) (hsp : plainText event.Species = true) (hz : plainText event.ZoneName = true) (hs : plainText season = true) (hu : plainText stats.Unit = true) :
    readObject (warningAlert event season stats) = some (warningMembers event season stats) := by
  apply readObject_objectLines _ _ (warningAlert_data event season stats) (by simp [warningMembers])
  intro member hm
  simp only [warningMembers, List.mem_cons, List.mem_singleton, List.not_mem_nil, or_false] at hm
  rcases hm with rfl | rfl | rfl | rfl | rfl | rfl | rfl | rfl | rfl <;>
    simp [plainText_append, plainText_formatFloat, hid, hsp, hz, hs, hu] <;> decide

set_option maxRecDepth 100000 in
theorem conservationAlert_data (event : CollectionEvent) :
    (conservationAlert event).data = objectLines (conservationMembers event) := by
  simp [conservationAlert, conservationMembers, objectLines, objectTail, memberLine, String.data_append,
    quoteChar]

/-- Read as a JSON object, the conservation alert is the members of its template when the
inserted strings hold no quote, backslash or control character. -/
theorem conservationAlert_read (event : CollectionEvent)
    (hid : plainText event.ID = true) (hsp : plainText event.Species = true) (hz : plainText event.ZoneName = true) :
    readObject (conservationAlert event) = some (conservationMembers event) := by
  apply readObject_objectLines _ _ (conservationAlert_data event) (by simp [conservationMembers])
  intro member hm
  simp only [conservationMembers, List.mem_cons, List.mem_singleton, List.not_mem_nil, or_false] at hm
  rcases hm with rfl | rfl | rfl | rfl | rfl | rfl | rfl | rfl | rfl <;>
    simp [plainText_append, plainText_formatFloat, hid, hsp, hz] <;> decide

set_option maxRecDepth 100000 in
theorem qualityAlert_data (test : QualityTest) :
    (qualityAlert test).data = objectLines (qualityMembers test) := by
  simp [qualityAlert, qualityMembers, objectLines, objectTail, memberLine, String.data_append,
    quoteChar]

/-- Read as a JSON object, the quality alert is the members of its template when the
inserted strings hold no quote, backslash or control character. -/
theorem qualityAlert_read (test : QualityTest)
    (hid : plainText test.ID = true) (hb : plainText test.BatchID = true) (hl : plainText test.LabName = true) :
    readObject (qualityAlert test) = some (qualityMembers test) := by
  apply readObject_objectLines _ _ (qualityAlert_data test) (by simp [qualityMembers])
  intro member hm
  simp only [qualityMembers, List.mem_cons, List.mem_singleton, List.not_mem_nil, or_false] at hm
  rcases hm with rfl | rfl | rfl | rfl | rfl | rfl | rfl <;>
    simp [plainText_append, plainText_formatFloat, hid, hb, hl] <;> decide

/-- The alert of every stage, read as a JSON object, is the members of the stage's
template, for a submission whose inserted strings are plain. -/
theorem stage_alert_read (stage : Stage) (event : CollectionEvent) (season : String)
    (hplain : PlainSubmission event season) :
    readObject (stage.alert event season) = some (stage.members event season) := by
  obtain ⟨hid, hsp, hz, hd, hu, hs⟩ := hplain
  cases stage with
  | season => exact seasonAlert_read event hid hsp hz hd
  | geoFence => exact zoneAlert_read event hid hsp hz
  | quota => exact harvestAlert_read event season hid hsp hz hu hs
  | conservation => exact conservationAlert_read event hid hsp hz

/-- The type and severity under which each stage's template is written. -/
theorem stage_members_label (stage : Stage) (event : CollectionEvent) (season : String) :
    lastMember "alertType" (stage.members event season) = some stage.label.1 ∧
    lastMember "severity" (stage.members event season) = some stage.label.2 ∧
    lastMember "entityId" (stage.members event season) = some event.ID := by
  cases stage <;> exact ⟨rfl, rfl, rfl⟩

/-- For a plain submission the alert of a stage carries the stage's type and severity
and the ID of the submission. -/
theorem stage_alert_label (stage : Stage) (event : CollectionEvent) (season : String)
    (hplain : PlainSubmission event season) :
    alertMember "alertType" (stage.alert event season) = some stage.label.1 ∧
    alertMember "severity" (stage.alert event season) = some stage.label.2 ∧
    alertMember "entityId" (stage.alert event season) = some event.ID := by
  unfold alertMember
  rw [stage_alert_read stage event season hplain]
  exact stage_members_label stage event season

/-- For plain operands the warning alert carries type over_harvest and severity medium. -/
theorem warningAlert_label (event : CollectionEvent) (season : String) (stats : HarvestStats)
    (hplain : PlainSubmission event season) (hu : plainText stats.Unit = true) :
    alertMember "alertType" (warningAlert event season stats) = some "over_harvest" ∧
    alertMember "severity" (warningAlert event season stats) = some "medium" ∧
    alertMember "entityId" (warningAlert event season stats) = some event.ID := by
  obtain ⟨hid, hsp, hz, _, _, hs⟩ := hplain
  unfold alertMember
  rw [warningAlert_read event season stats hid hsp hz hs hu]
  exact ⟨rfl, rfl, rfl⟩

/-- For a plain test the quality alert carries type quality_failure and severity high. -/
theorem qualityAlert_label (test : QualityTest) (hplain : PlainTest test) :
    alertMember "alertType" (qualityAlert test) = some "quality_failure" ∧
    alertMember "severity" (qualityAlert test) = some "high" ∧
    alertMember "entityId" (qualityAlert test) = some test.ID := by
  obtain ⟨hid, hb, hl⟩ := hplain
  unfold alertMember
  rw [qualityAlert_read test hid hb hl]
  exact ⟨rfl, rfl, rfl⟩

/-! ## Alerts and stages of a rejected submission -/

section alerts

variable {Q : Type} (json : Json) (stub : Stub) (c : Collaborators Q) (q : Q)

theorem warningAlerts_approved (event : CollectionEvent) (season : String) :
    warningAlerts c q (approved event) season = warningAlerts c q event season := rfl

theorem warningAlerts_of_warning (event : CollectionEvent) (season : String)
    (stats : HarvestStats)
    (hstats : c.GetHarvestStatistics q event.Species event.ZoneName season = .ok stats)
    (hwarn : stats.Status = "warning") :
    warningAlerts c q event season = [warningAlert event season stats] := by
  simp [warningAlerts, hstats, hwarn]

theorem warningAlerts_of_not_warning (event : CollectionEvent) (season : String)
    (stats : HarvestStats)
    (hstats : c.GetHarvestStatistics q event.Species event.ZoneName season = .ok stats)
    (hwarn : stats.Status ≠ "warning") :
    warningAlerts c q event season = [] := by
  simp [warningAlerts, hstats, hwarn]

theorem warningAlerts_of_error (event : CollectionEvent) (season : String) (err : String)
    (hstats : c.GetHarvestStatistics q event.Species event.ZoneName season = .error err) :
    warningAlerts c q event season = [] := by
  simp [warningAlerts, hstats]

theorem warningAlerts_cases (event : CollectionEvent) (season : String) :
    warningAlerts c q event season = [] ∨
    ∃ stats, c.GetHarvestStatistics q event.Species event.ZoneName season = .ok stats ∧
      stats.Status = "warning" ∧
      warningAlerts c q event season = [warningAlert event season stats] := by
  cases hstats : c.GetHarvestStatistics q event.Species event.ZoneName season with
  | error err => exact Or.inl (warningAlerts_of_error c q event season err hstats)
  | ok stats =>
    by_cases hwarn : stats.Status = "warning"
    · exact Or.inr ⟨stats, rfl, hwarn,
        warningAlerts_of_warning c q event season stats hstats hwarn⟩
    · exact Or.inl (warningAlerts_of_not_warning c q event season stats hstats hwarn)

theorem alertsOf_map_CreateAlert (alerts : List String) :
    alertsOf (alerts.map Call.CreateAlert) = alerts := by
  induction alerts with
  | nil => rfl
  | cons a rest ih =>
    simp only [alertsOf] at ih
    simp [alertsOf, ih]

theorem alertsOf_append (xs ys : List Call) :
    alertsOf (xs ++ ys) = alertsOf xs ++ alertsOf ys := by
  simp [alertsOf, List.filterMap_append]

theorem stagesConsulted_append (xs ys : List Call) :
    stagesConsulted (xs ++ ys) = stagesConsulted xs ++ stagesConsulted ys := by
  simp [stagesConsulted, List.filterMap_append]

theorem stagesConsulted_map_CreateAlert (alerts : List String) :
    stagesConsulted (alerts.map Call.CreateAlert) = [] := by
  induction alerts with
  | nil => rfl
  | cons a rest ih =>
    simp only [stagesConsulted] at ih
    simp [stagesConsulted, ih]

theorem create_conservation_fail (eventJSON : String) (event : CollectionEvent) (q' : Q)
    (err : String)
    (hjson : json.unmarshalCollectionEvent eventJSON = .ok event)
    (hseason : c.ValidateSeasonWindow event.Species event.HarvestDate event.ZoneName = .ok true)
    (hgeo : validateGeoFencing event.Latitude event.Longitude event.Species = true)
    (hlimit : c.ValidateHarvestLimit q event.Species event.ZoneName c.getCurrentSeason
      event.Quantity = .ok true)
    (htrack : c.TrackHarvestQuantity q event.Species event.ZoneName c.getCurrentSeason
      event.Quantity = .ok q')
    (hcons : validateConservationLimits event.Species event.Quantity = .error err) :
    CreateCollectionEvent json stub c q eventJSON =
      { result := .error err, quota := q',
        calls := [Call.ValidateSeasonWindow event.Species event.HarvestDate event.ZoneName,
            Call.validateGeoFencing event.Latitude event.Longitude event.Species,
            Call.getCurrentSeason,
            Call.ValidateHarvestLimit event.Species event.ZoneName c.getCurrentSeason
              event.Quantity,
            Call.TrackHarvestQuantity event.Species event.ZoneName c.getCurrentSeason
              event.Quantity,
            Call.GetHarvestStatistics event.Species event.ZoneName c.getCurrentSeason] ++
          (warningAlerts c q' event c.getCurrentSeason).map Call.CreateAlert ++
          [Call.validateConservationLimits event.Species event.Quantity,
           Call.CreateAlert (conservationAlert event)],
        event := some (approved event) } := by
  rw [create_geo_pass json stub c q eventJSON event hjson hseason hgeo,
    track_pass json stub c q (approved event) _ q' hlimit htrack,
    finish_conservation_fail json stub c q' (approved event) _ _ err hcons,
    warningAlerts_approved]
  rfl

theorem create_quota_fail (eventJSON : String) (event : CollectionEvent)
    (hjson : json.unmarshalCollectionEvent eventJSON = .ok event)
    (hseason : c.ValidateSeasonWindow event.Species event.HarvestDate event.ZoneName = .ok true)
    (hgeo : validateGeoFencing event.Latitude event.Longitude event.Species = true)
    (hlimit : c.ValidateHarvestLimit q event.Species event.ZoneName c.getCurrentSeason
      event.Quantity = .ok false) :
    CreateCollectionEvent json stub c q eventJSON =
      { result := .error ("harvest limit exceeded for species: " ++ event.Species ++
          " in zone: " ++ event.ZoneName),
        quota := q,
        calls := [Call.ValidateSeasonWindow event.Species event.HarvestDate event.ZoneName,
          Call.validateGeoFencing event.Latitude event.Longitude event.Species,
          Call.getCurrentSeason,
          Call.ValidateHarvestLimit event.Species event.ZoneName c.getCurrentSeason
            event.Quantity,
          Call.CreateAlert (harvestAlert event c.getCurrentSeason)],
        event := some { approved event with Status := "rejected" } } := by
  rw [create_geo_pass json stub c q eventJSON event hjson hseason hgeo,
    track_limit_fail json stub c q (approved event) _ hlimit]
  rfl

end alerts

/-! ## The first failing stage and its alerts -/

section stages

variable {Q : Type} (json : Json) (stub : Stub) (c : Collaborators Q) (q : Q)

theorem fixture_unmarshal_endangered :
    fixtureJson.unmarshalCollectionEvent "json:CE-E" = .ok eventEndangered := by
  simp [fixtureJson, fixtureEvents, List.lookup]

theorem fixture_endangered_geo :
    validateGeoFencing eventEndangered.Latitude eventEndangered.Longitude
      eventEndangered.Species = true :=
  validateGeoFencing_of_ne_neem _ _ _ (by norm_num [eventEndangered])
    (by norm_num [eventEndangered]) (by decide)

theorem validateConservationLimits_of_mem (species : String) (quantity : ℚ)
    (h : species ∈ ["Aconitum heterophyllum", "Nardostachys jatamansi", "Picrorhiza kurroa"]) :
    validateConservationLimits species quantity =
      .error ("species " ++ species ++ " is endangered and requires special permit") := by
  simp only [List.mem_cons, List.mem_singleton, List.not_mem_nil, or_false] at h
  rcases h with h | h | h <;> subst h <;>
    simp [validateConservationLimits, endangeredSpecies, List.lookup]

theorem validateConservationLimits_of_not_mem (species : String) (quantity : ℚ)
    (h : species ∉ ["Aconitum heterophyllum", "Nardostachys jatamansi", "Picrorhiza kurroa"]) :
    validateConservationLimits species quantity = .ok () := by
  simp only [List.mem_cons, List.mem_singleton, List.not_mem_nil, or_false, not_or] at h
  obtain ⟨h1, h2, h3⟩ := h
  have e1 : (species == "Aconitum heterophyllum") = false := by simpa using h1
  have e2 : (species == "Nardostachys jatamansi") = false := by simpa using h2
  have e3 : (species == "Picrorhiza kurroa") = false := by simpa using h3
  simp [validateConservationLimits, endangeredSpecies, List.lookup, e1, e2, e3]

theorem fixture_endangered_season :
    fixtureCollaborators.ValidateSeasonWindow eventEndangered.Species
      eventEndangered.HarvestDate eventEndangered.ZoneName = .ok true := by
  simp [fixtureCollaborators, eventEndangered]

theorem fixture_endangered_limit :
    fixtureCollaborators.ValidateHarvestLimit fixtureQuota eventEndangered.Species
      eventEndangered.ZoneName fixtureCollaborators.getCurrentSeason eventEndangered.Quantity =
      .ok true := by
  simp [fixtureCollaborators, eventEndangered, checkLimit, fixtureQuota]
  norm_num

theorem fixture_endangered_firstFailing :
    firstFailingStage fixtureCollaborators fixtureQuota eventEndangered =
      some Stage.conservation := by
  have hgeo : validateGeoFencing 31 78 "Picrorhiza kurroa" = true := fixture_endangered_geo
  have hcons : validateConservationLimits "Picrorhiza kurroa" 30 = .error _ :=
    validateConservationLimits_of_mem "Picrorhiza kurroa" 30 (by simp)
  have hle : ((30 : ℚ) ≤ 100) := by norm_num
  simp [firstFailingStage, hgeo, hcons, fixtureCollaborators, eventEndangered, checkLimit,
    fixtureQuota, hle]

theorem fixture_endangered_outcome :
    CreateCollectionEvent fixtureJson fixtureStub fixtureCollaborators fixtureQuota "json:CE-E" =
      { result := .error "species Picrorhiza kurroa is endangered and requires special permit",
        quota := increment fixtureQuota "Picrorhiza kurroa" "Zone-A" "2025-winter" 30,
        calls := [Call.ValidateSeasonWindow "Picrorhiza kurroa" "2025-01-15" "Zone-A",
          Call.validateGeoFencing 31 78 "Picrorhiza kurroa",
          Call.getCurrentSeason,
          Call.ValidateHarvestLimit "Picrorhiza kurroa" "Zone-A" "2025-winter" 30,
          Call.TrackHarvestQuantity "Picrorhiza kurroa" "Zone-A" "2025-winter" 30,
          Call.GetHarvestStatistics "Picrorhiza kurroa" "Zone-A" "2025-winter",
          Call.CreateAlert (warningAlert eventEndangered "2025-winter" statsEndangered),
          Call.validateConservationLimits "Picrorhiza kurroa" 30,
          Call.CreateAlert (conservationAlert eventEndangered)],
        event := some (approved eventEndangered) } := by
  have hcons := validateConservationLimits_of_mem eventEndangered.Species
    eventEndangered.Quantity (by simp [eventEndangered])
  have hwarn : warningAlerts fixtureCollaborators
      (increment fixtureQuota "Picrorhiza kurroa" "Zone-A" "2025-winter" 30) eventEndangered
      "2025-winter" = [warningAlert eventEndangered "2025-winter" statsEndangered] := by
    apply warningAlerts_of_warning
    · simp [fixtureCollaborators, eventEndangered, increment, fixtureQuota, statsEndangered]
      norm_num
    · rfl
  rw [create_conservation_fail fixtureJson fixtureStub fixtureCollaborators fixtureQuota
    "json:CE-E" eventEndangered _ _ fixture_unmarshal_endangered fixture_endangered_season
    fixture_endangered_geo fixture_endangered_limit rfl hcons]
  have hq : fixtureCollaborators.getCurrentSeason = "2025-winter" := rfl
  simp only [hq]
  have hs : eventEndangered.Species = "Picrorhiza kurroa" := rfl
  have hz : eventEndangered.ZoneName = "Zone-A" := rfl
  have hqty : eventEndangered.Quantity = 30 := rfl
  simp only [hs, hz, hqty] at hwarn ⊢
  rw [hwarn]
  rfl

theorem fixture_unmarshal_outOfSeason :
    fixtureJson.unmarshalCollectionEvent "json:CE-S" = .ok eventOutOfSeason := by
  simp [fixtureJson, fixtureEvents, List.lookup]

theorem fixture_outOfSeason_season :
    fixtureCollaborators.ValidateSeasonWindow eventOutOfSeason.Species
      eventOutOfSeason.HarvestDate eventOutOfSeason.ZoneName = .ok false := by
  simp [fixtureCollaborators, eventOutOfSeason]

/-- C4 (counterexample): with collaborators that never return an error, a 30 kg harvest
of an endangered species passes the season, geo-fence and quota stages, is rejected by
the conservation stage, and two alerts are emitted during the call, the over_harvest
warning of medium severity and then the compliance alert, not exactly one. -/
theorem C4_exactly_one_alert_counterexample :
    firstFailingStage fixtureCollaborators fixtureQuota eventEndangered =
      some Stage.conservation ∧
    (CreateCollectionEvent fixtureJson fixtureStub fixtureCollaborators fixtureQuota
      "json:CE-E").result =
      .error "species Picrorhiza kurroa is endangered and requires special permit" ∧
    alertsOf (CreateCollectionEvent fixtureJson fixtureStub fixtureCollaborators fixtureQuota
      "json:CE-E").calls =
      [warningAlert eventEndangered "2025-winter" statsEndangered,
        conservationAlert eventEndangered] ∧
    (alertsOf (CreateCollectionEvent fixtureJson fixtureStub fixtureCollaborators fixtureQuota
      "json:CE-E").calls).length = 2 ∧
    alertMember "severity" (warningAlert eventEndangered "2025-winter" statsEndangered) =
      some "medium" ∧
    alertMember "alertType" (conservationAlert eventEndangered) = some "compliance" := by
  rw [fixture_endangered_outcome]
  refine ⟨fixture_endangered_firstFailing, rfl, ?_, ?_, ?_, ?_⟩
  · simp [alertsOf]
  · simp [alertsOf]
  · exact (warningAlert_label eventEndangered "2025-winter" statsEndangered
      ⟨by decide, by decide, by decide, by decide, by decide, by decide⟩ (by decide)).2.1
  · exact (stage_alert_label Stage.conservation eventEndangered "2025-winter"
      ⟨by decide, by decide, by decide, by decide, by decide, by decide⟩).1

/-- C4 (amended): with collaborators that return without error, a submission whose first
failing stage in the order season, geo-fence, quota, conservation is `stage` is rejected
with an error and the stages consulted are exactly those up to `stage`. When `stage` is
season, geo-fence or quota the only alert of the call is the text built from the
template of `stage`. When it is conservation the alerts are, in order, the warning alert
exactly when GetHarvestStatistics, read after the increment, returns statistics whose
status is "warning" (none when the status is another one or the read fails), and then
the text built from the conservation template. For a submission whose inserted strings
hold no quote, backslash or control character, the text of `stage` read as a JSON object
carries the type and severity of `stage` (season_violation/high, zone_violation/high,
over_harvest/critical, compliance/high) and the submission's ID, and the warning alert
carries over_harvest/medium. -/
theorem C4_alerts_of_first_failing_stage (eventJSON : String) (event : CollectionEvent)
    (stage : Stage)
    (hjson : json.unmarshalCollectionEvent eventJSON = .ok event)
    (hseason : ∃ b, c.ValidateSeasonWindow event.Species event.HarvestDate event.ZoneName = .ok b)
    (hlimit : ∃ b, c.ValidateHarvestLimit q event.Species event.ZoneName c.getCurrentSeason
      event.Quantity = .ok b)
    (htrack : ∃ q', c.TrackHarvestQuantity q event.Species event.ZoneName c.getCurrentSeason
      event.Quantity = .ok q')
    (hfail : firstFailingStage c q event = some stage) :
    (∃ err, (CreateCollectionEvent json stub c q eventJSON).result = .error err) ∧
    stagesConsulted (CreateCollectionEvent json stub c q eventJSON).calls = stage.upTo ∧
    (stage ≠ Stage.conservation →
      alertsOf (CreateCollectionEvent json stub c q eventJSON).calls =
        [stage.alert event c.getCurrentSeason]) ∧
    (stage = Stage.conservation →
      ∃ q', c.TrackHarvestQuantity q event.Species event.ZoneName c.getCurrentSeason
          event.Quantity = .ok q' ∧
        (∀ stats, c.GetHarvestStatistics q' event.Species event.ZoneName c.getCurrentSeason =
            .ok stats → stats.Status = "warning" →
          alertsOf (CreateCollectionEvent json stub c q eventJSON).calls =
            [warningAlert event c.getCurrentSeason stats,
              conservationAlert event]) ∧
        (∀ stats, c.GetHarvestStatistics q' event.Species event.ZoneName c.getCurrentSeason =
            .ok stats → stats.Status ≠ "warning" →
          alertsOf (CreateCollectionEvent json stub c q eventJSON).calls =
            [conservationAlert event]) ∧
        (∀ err, c.GetHarvestStatistics q' event.Species event.ZoneName c.getCurrentSeason =
            .error err →
          alertsOf (CreateCollectionEvent json stub c q eventJSON).calls =
            [conservationAlert event])) ∧
    (PlainSubmission event c.getCurrentSeason →
      alertMember "alertType" (stage.alert event c.getCurrentSeason) = some stage.label.1 ∧
      alertMember "severity" (stage.alert event c.getCurrentSeason) = some stage.label.2 ∧
      alertMember "entityId" (stage.alert event c.getCurrentSeason) = some event.ID ∧
      ∀ stats : HarvestStats, plainText stats.Unit = true →
        alertMember "alertType" (warningAlert event c.getCurrentSeason stats) =
          some "over_harvest" ∧
        alertMember "severity" (warningAlert event c.getCurrentSeason stats) =
          some "medium") := by
  obtain ⟨bs, hs⟩ := hseason
  obtain ⟨bl, hl⟩ := hlimit
  obtain ⟨q', ht⟩ := htrack
  have hlabel : PlainSubmission event c.getCurrentSeason →
      alertMember "alertType" (stage.alert event c.getCurrentSeason) = some stage.label.1 ∧
      alertMember "severity" (stage.alert event c.getCurrentSeason) = some stage.label.2 ∧
      alertMember "entityId" (stage.alert event c.getCurrentSeason) = some event.ID ∧
      ∀ stats : HarvestStats, plainText stats.Unit = true →
        alertMember "alertType" (warningAlert event c.getCurrentSeason stats) =
          some "over_harvest" ∧
        alertMember "severity" (warningAlert event c.getCurrentSeason stats) =
          some "medium" := by
    intro hplain
    obtain ⟨h1, h2, h3⟩ := stage_alert_label stage event c.getCurrentSeason hplain
    refine ⟨h1, h2, h3, ?_⟩
    intro stats hu
    obtain ⟨w1, w2, _⟩ := warningAlert_label event c.getCurrentSeason stats hplain hu
    exact ⟨w1, w2⟩
  refine ⟨?_, ?_, ?_, ?_, hlabel⟩
  all_goals
    cases bs with
    | false =>
      have hst : stage = Stage.season := by
        simp [firstFailingStage, hs] at hfail
        exact hfail.symm
      subst hst
      rw [create_season_fail json stub c q eventJSON event hjson hs]
      simp [stagesConsulted, alertsOf, Stage.upTo, Stage.alert]
    | true =>
      cases hg : validateGeoFencing event.Latitude event.Longitude event.Species with
      | false =>
        have hst : stage = Stage.geoFence := by
          simp [firstFailingStage, hs, hg] at hfail
          exact hfail.symm
        subst hst
        rw [create_geo_fail json stub c q eventJSON event hjson hs hg]
        simp [stagesConsulted, alertsOf, Stage.upTo, Stage.alert]
      | true =>
        cases bl with
        | false =>
          have hst : stage = Stage.quota := by
            simp [firstFailingStage, hs, hg, hl] at hfail
            exact hfail.symm
          subst hst
          rw [create_quota_fail json stub c q eventJSON event hjson hs hg hl]
          simp [stagesConsulted, alertsOf, Stage.upTo, Stage.alert]
        | true =>
          cases hc : validateConservationLimits event.Species event.Quantity with
          | ok u =>
            simp [firstFailingStage, hs, hg, hl, hc] at hfail
          | error err =>
            have hst : stage = Stage.conservation := by
              simp [firstFailingStage, hs, hg, hl, hc] at hfail
              exact hfail.symm
            subst hst
            rw [create_conservation_fail json stub c q eventJSON event q' err hjson hs hg hl
              ht hc]
            have halerts : ∀ ws : List String,
                warningAlerts c q' event c.getCurrentSeason = ws →
                alertsOf ([Call.ValidateSeasonWindow event.Species event.HarvestDate
                      event.ZoneName,
                    Call.validateGeoFencing event.Latitude event.Longitude event.Species,
                    Call.getCurrentSeason,
                    Call.ValidateHarvestLimit event.Species event.ZoneName c.getCurrentSeason
                      event.Quantity,
                    Call.TrackHarvestQuantity event.Species event.ZoneName c.getCurrentSeason
                      event.Quantity,
                    Call.GetHarvestStatistics event.Species event.ZoneName
                      c.getCurrentSeason] ++
                  (warningAlerts c q' event c.getCurrentSeason).map Call.CreateAlert ++
                  [Call.validateConservationLimits event.Species event.Quantity,
                    Call.CreateAlert (conservationAlert event)]) =
                  ws ++ [conservationAlert event] := by
              intro ws hws
              rw [alertsOf_append, alertsOf_append, alertsOf_map_CreateAlert, hws]
              rfl
            first
              | exact ⟨err, rfl⟩
              | (show stagesConsulted (_ ++ _ ++ _) = _
                 rw [stagesConsulted_append, stagesConsulted_append,
                   stagesConsulted_map_CreateAlert]
                 rfl)
              | (intro h; exact absurd rfl h)
              | (intro _
                 refine ⟨q', ht, ?_, ?_, ?_⟩
                 · intro stats hstats hwarn
                   exact halerts _
                     (warningAlerts_of_warning c q' event _ stats hstats hwarn)
                 · intro stats hstats hwarn
                   exact halerts _
                     (warningAlerts_of_not_warning c q' event _ stats hstats hwarn)
                 · intro e hstats
                   exact halerts _ (warningAlerts_of_error c q' event _ e hstats))

theorem fixture_endangered_stats :
    fixtureCollaborators.GetHarvestStatistics
      (increment fixtureQuota "Picrorhiza kurroa" "Zone-A" "2025-winter" 30)
      eventEndangered.Species eventEndangered.ZoneName fixtureCollaborators.getCurrentSeason =
      .ok statsEndangered := by
  simp [fixtureCollaborators, eventEndangered, increment, fixtureQuota, statsEndangered]
  norm_num

/-- C4 (witness): the amended statement at the endangered-species submission, whose
statistics report "warning" after the increment (all four stages consulted, the warning
alert and then the compliance alert, read back as over_harvest/medium and
compliance/high), and at an out-of-season submission (only the season stage consulted,
one alert, read back as season_violation/high for entity CE-S). -/
theorem C4_alerts_of_first_failing_stage_witness :
    (stagesConsulted (CreateCollectionEvent fixtureJson fixtureStub fixtureCollaborators
        fixtureQuota "json:CE-E").calls =
        [Stage.season, Stage.geoFence, Stage.quota, Stage.conservation] ∧
      alertsOf (CreateCollectionEvent fixtureJson fixtureStub fixtureCollaborators
        fixtureQuota "json:CE-E").calls =
        [warningAlert eventEndangered "2025-winter" statsEndangered,
          conservationAlert eventEndangered] ∧
      alertMember "alertType" (conservationAlert eventEndangered) = some "compliance" ∧
      alertMember "severity" (conservationAlert eventEndangered) = some "high" ∧
      alertMember "alertType" (warningAlert eventEndangered "2025-winter" statsEndangered) =
        some "over_harvest" ∧
      alertMember "severity" (warningAlert eventEndangered "2025-winter" statsEndangered) =
        some "medium") ∧
    (stagesConsulted (CreateCollectionEvent fixtureJson fixtureStub fixtureCollaborators
        fixtureQuota "json:CE-S").calls = [Stage.season] ∧
      alertsOf (CreateCollectionEvent fixtureJson fixtureStub fixtureCollaborators
        fixtureQuota "json:CE-S").calls = [seasonAlert eventOutOfSeason] ∧
      alertMember "alertType" (seasonAlert eventOutOfSeason) = some "season_violation" ∧
      alertMember "severity" (seasonAlert eventOutOfSeason) = some "high" ∧
      alertMember "entityId" (seasonAlert eventOutOfSeason) = some "CE-S") :=
  have hE := C4_alerts_of_first_failing_stage fixtureJson fixtureStub fixtureCollaborators
    fixtureQuota "json:CE-E" eventEndangered Stage.conservation fixture_unmarshal_endangered
    ⟨true, fixture_endangered_season⟩ ⟨true, fixture_endangered_limit⟩ ⟨_, rfl⟩
    fixture_endangered_firstFailing
  have hS := C4_alerts_of_first_failing_stage fixtureJson fixtureStub fixtureCollaborators
    fixtureQuota "json:CE-S" eventOutOfSeason Stage.season fixture_unmarshal_outOfSeason
    ⟨false, fixture_outOfSeason_season⟩
    ⟨true, by simp [fixtureCollaborators, eventOutOfSeason, checkLimit, fixtureQuota]⟩
    ⟨_, rfl⟩ (by simp [firstFailingStage, fixture_outOfSeason_season])
  have hplainE : PlainSubmission eventEndangered fixtureCollaborators.getCurrentSeason :=
    ⟨by decide, by decide, by decide, by decide, by decide, by decide⟩
  have hplainS : PlainSubmission eventOutOfSeason fixtureCollaborators.getCurrentSeason :=
    ⟨by decide, by decide, by decide, by decide, by decide, by decide⟩
  ⟨⟨hE.2.1,
    by
      obtain ⟨q', hq', hwarn, _, _⟩ := hE.2.2.2.1 rfl
      have hq : q' = increment fixtureQuota "Picrorhiza kurroa" "Zone-A" "2025-winter" 30 := by
        have h : (Except.ok (increment fixtureQuota "Picrorhiza kurroa" "Zone-A"
            "2025-winter" 30) : Except String QuotaStore) = Except.ok q' := hq'
        injection h with h
        exact h.symm
      subst hq
      exact hwarn statsEndangered fixture_endangered_stats rfl,
    (hE.2.2.2.2 hplainE).1, (hE.2.2.2.2 hplainE).2.1,
    ((hE.2.2.2.2 hplainE).2.2.2 statsEndangered (by decide)).1,
    ((hE.2.2.2.2 hplainE).2.2.2 statsEndangered (by decide)).2⟩,
   ⟨hS.2.1, hS.2.2.1 (by decide), (hS.2.2.2.2 hplainS).1, (hS.2.2.2.2 hplainS).2.1,
    (hS.2.2.2.2 hplainS).2.2.1⟩⟩

end stages

/-! ## The quota stage -/

section quota

variable {Q : Type} (json : Json) (stub : Stub) (c : Collaborators Q) (q : Q)

theorem mem_map_CreateAlert_flags (alerts : List String) (call : Call)
    (h : call ∈ alerts.map Call.CreateAlert) :
    call.isTrack = false ∧ call.isPutState = false ∧ call.isSetEvent = false := by
  obtain ⟨a, _, rfl⟩ := List.mem_map.mp h
  exact ⟨rfl, rfl, rfl⟩

/-- The quota stage on every input: a submission that passes the season and geo-fence
stages and for which ValidateHarvestLimit answers false is rejected with the
harvest-limit error; the only alert is the text built from the over-harvest template;
TrackHarvestQuantity is never called and the quota-ledger state after the call is the
state before it. When the inserted strings hold no quote, backslash or control
character, the alert read as a JSON object has type over_harvest and severity critical. -/
theorem over_quota_outcome (eventJSON : String) (event : CollectionEvent)
    (hjson : json.unmarshalCollectionEvent eventJSON = .ok event)
    (hseason : c.ValidateSeasonWindow event.Species event.HarvestDate event.ZoneName = .ok true)
    (hgeo : validateGeoFencing event.Latitude event.Longitude event.Species = true)
    (hlimit : c.ValidateHarvestLimit q event.Species event.ZoneName c.getCurrentSeason
      event.Quantity = .ok false) :
    (CreateCollectionEvent json stub c q eventJSON).result =
      .error ("harvest limit exceeded for species: " ++ event.Species ++ " in zone: " ++
        event.ZoneName) ∧
    alertsOf (CreateCollectionEvent json stub c q eventJSON).calls =
      [harvestAlert event c.getCurrentSeason] ∧
    (∀ call ∈ (CreateCollectionEvent json stub c q eventJSON).calls, call.isTrack = false) ∧
    (CreateCollectionEvent json stub c q eventJSON).quota = q ∧
    (PlainSubmission event c.getCurrentSeason →
      alertMember "alertType" (harvestAlert event c.getCurrentSeason) = some "over_harvest" ∧
      alertMember "severity" (harvestAlert event c.getCurrentSeason) = some "critical" ∧
      alertMember "entityId" (harvestAlert event c.getCurrentSeason) = some event.ID) := by
  rw [create_quota_fail json stub c q eventJSON event hjson hseason hgeo hlimit]
  refine ⟨rfl, rfl, ?_, rfl, ?_⟩
  · intro call hcall
    simp only [List.mem_cons, List.mem_singleton, List.not_mem_nil, or_false] at hcall
    rcases hcall with h | h | h | h | h <;> subst h <;> rfl
  · intro hplain
    exact stage_alert_label Stage.quota event c.getCurrentSeason hplain

theorem fixture_unmarshal_neem70 :
    fixtureJson.unmarshalCollectionEvent "json:CE-O" = .ok eventNeem70 := by
  simp [fixtureJson, fixtureEvents, List.lookup]

theorem fixture_neem70_season :
    fixtureCollaborators.ValidateSeasonWindow eventNeem70.Species eventNeem70.HarvestDate
      eventNeem70.ZoneName = .ok true := by
  simp [fixtureCollaborators, eventNeem70]

theorem fixture_neem_geo : validateGeoFencing (121 / 4) 78 "Neem" = true :=
  validateGeoFencing_of_inside _ _ _ (by norm_num) (by norm_num) (by norm_num)

theorem fixture_neem70_geo :
    validateGeoFencing eventNeem70.Latitude eventNeem70.Longitude eventNeem70.Species = true :=
  fixture_neem_geo

theorem fixture_neem70_limit :
    fixtureCollaborators.ValidateHarvestLimit quotaAfterNeem40 eventNeem70.Species
      eventNeem70.ZoneName fixtureCollaborators.getCurrentSeason eventNeem70.Quantity =
      .ok false := by
  simp [fixtureCollaborators, eventNeem70, checkLimit, quotaAfterNeem40, increment, fixtureQuota]
  norm_num

/-- The over-quota outcome at a plain submission: after 40 kg of Neem were accepted
against a cap of 100, a further 70 kg submission in zone and in season is rejected, the
quota state stays as it was, and the alert reads as over_harvest/critical for CE-O. -/
theorem over_quota_outcome_neem70 :
    (CreateCollectionEvent fixtureJson fixtureStub fixtureCollaborators quotaAfterNeem40
      "json:CE-O").result =
      .error "harvest limit exceeded for species: Neem in zone: Zone-A" ∧
    alertsOf (CreateCollectionEvent fixtureJson fixtureStub fixtureCollaborators
      quotaAfterNeem40 "json:CE-O").calls = [harvestAlert eventNeem70 "2025-winter"] ∧
    (CreateCollectionEvent fixtureJson fixtureStub fixtureCollaborators quotaAfterNeem40
      "json:CE-O").quota = quotaAfterNeem40 ∧
    alertMember "alertType" (harvestAlert eventNeem70 "2025-winter") = some "over_harvest" ∧
    alertMember "severity" (harvestAlert eventNeem70 "2025-winter") = some "critical" ∧
    alertMember "entityId" (harvestAlert eventNeem70 "2025-winter") = some "CE-O" :=
  have h := over_quota_outcome fixtureJson fixtureStub fixtureCollaborators
    quotaAfterNeem40 "json:CE-O" eventNeem70 fixture_unmarshal_neem70 fixture_neem70_season
    fixture_neem70_geo fixture_neem70_limit
  have hp := h.2.2.2.2 ⟨by decide, by decide, by decide, by decide, by decide, by decide⟩
  ⟨h.1, h.2.1, h.2.2.2.1, hp.1, hp.2.1, hp.2.2⟩

theorem roundHalfEven_natCast (n : ℕ) : roundHalfEven (n : ℚ) = n :=
  roundHalfEven_of_close _ _ (by simp)

theorem formatFloat_seventy : formatFloat 2 (Float64.ofRat 70) = "70.00" := by
  have h : roundHalfEven ((70 : ℚ) * 10 ^ 2) = 7000 := by
    have := roundHalfEven_natCast 7000
    norm_num at this ⊢
    exact this
  have h2 : Float64.ofRat 70 = Float64.finite false 70 := by
    simp [Float64.ofRat]
  rw [h2, formatFloat, h]
  decide

theorem fixture_unmarshal_injected :
    fixtureJson.unmarshalCollectionEvent "json:CE-Q" = .ok eventInjected := by
  simp [fixtureJson, fixtureEvents, List.lookup]

set_option maxRecDepth 100000 in
theorem harvestAlert_injected :
    harvestAlert eventInjected "2025-winter" =
      "\x7b\n" ++
      "\t\t\t\"id\": \"alert_harvest_a\",\"severity\":\"low\",\n" ++
      "\t\t\t\"alertType\": \"over_harvest\",\n" ++
      "\t\t\t\"severity\": \"critical\",\n" ++
      "\t\t\t\"entityId\": \"a\",\"severity\":\"low\",\n" ++
      "\t\t\t\"entityType\": \"CollectionEvent\",\n" ++
      "\t\t\t\"species\": \"Neem\",\n" ++
      "\t\t\t\"zone\": \"Zone-A\",\n" ++
      "\t\t\t\"message\": \"Harvest limit exceeded\",\n" ++
      "\t\t\t\"details\": \"Attempting to harvest 70.00 kg of Neem in Zone-A for season " ++
        "2025-winter would exceed the limit\"\n" ++
      "\t\t\x7d" := by
  have hq : eventInjected.Quantity = 70 := rfl
  rw [harvestAlert, hq, formatFloat_seventy]
  decide

set_option maxRecDepth 100000 in
/-- C5, the failing input: a 70 kg Neem submission in zone and in season, submitted when
40 of the 100 kg cap are used, whose ID is the JSON string `"a\",\"severity\":\"low"`.
The call returns the harvest-limit error, never calls TrackHarvestQuantity and leaves the
quota state as it was, as the claim says. The one alert it emits is the over-harvest
template with the ID inserted unescaped: read as a JSON object it has three `severity`
members, a reader that keeps the last duplicate finds severity `low`, not `critical`,
and the entity it names is `a`, not the submission. -/
theorem C5_over_quota_alert_injection :
    (CreateCollectionEvent fixtureJson fixtureStub fixtureCollaborators quotaAfterNeem40
      "json:CE-Q").result =
      .error "harvest limit exceeded for species: Neem in zone: Zone-A" ∧
    (∀ call ∈ (CreateCollectionEvent fixtureJson fixtureStub fixtureCollaborators
      quotaAfterNeem40 "json:CE-Q").calls, call.isTrack = false) ∧
    (CreateCollectionEvent fixtureJson fixtureStub fixtureCollaborators quotaAfterNeem40
      "json:CE-Q").quota = quotaAfterNeem40 ∧
    alertsOf (CreateCollectionEvent fixtureJson fixtureStub fixtureCollaborators
      quotaAfterNeem40 "json:CE-Q").calls = [harvestAlert eventInjected "2025-winter"] ∧
    readObject (harvestAlert eventInjected "2025-winter") =
      some [("id", "alert_harvest_a"), ("severity", "low"), ("alertType", "over_harvest"),
        ("severity", "critical"), ("entityId", "a"), ("severity", "low"),
        ("entityType", "CollectionEvent"), ("species", "Neem"), ("zone", "Zone-A"),
        ("message", "Harvest limit exceeded"),
        ("details", "Attempting to harvest 70.00 kg of Neem in Zone-A for season " ++
          "2025-winter would exceed the limit")] ∧
    alertMember "alertType" (harvestAlert eventInjected "2025-winter") = some "over_harvest" ∧
    alertMember "severity" (harvestAlert eventInjected "2025-winter") = some "low" ∧
    alertMember "entityId" (harvestAlert eventInjected "2025-winter") = some "a" ∧
    eventInjected.ID ≠ "a" := by
  have h := over_quota_outcome fixtureJson fixtureStub fixtureCollaborators
    quotaAfterNeem40 "json:CE-Q" eventInjected fixture_unmarshal_injected
    (by simp [fixtureCollaborators, eventInjected]) fixture_neem_geo
    (by
      simp [fixtureCollaborators, eventInjected, checkLimit, quotaAfterNeem40, increment,
        fixtureQuota]
      norm_num)
  refine ⟨h.1, h.2.2.1, h.2.2.2.1, h.2.1, ?_, ?_, ?_, ?_, by decide⟩
  · rw [harvestAlert_injected]
    decide
  · rw [alertMember, harvestAlert_injected]
    decide
  · rw [alertMember, harvestAlert_injected]
    decide
  · rw [alertMember, harvestAlert_injected]
    decide

theorem create_quota_cases (eventJSON : String) :
    (CreateCollectionEvent json stub c q eventJSON).quota = q ∨
    ∃ event q', json.unmarshalCollectionEvent eventJSON = .ok event ∧
      c.ValidateSeasonWindow event.Species event.HarvestDate event.ZoneName = .ok true ∧
      validateGeoFencing event.Latitude event.Longitude event.Species = true ∧
      c.ValidateHarvestLimit q event.Species event.ZoneName c.getCurrentSeason
        event.Quantity = .ok true ∧
      c.TrackHarvestQuantity q event.Species event.ZoneName c.getCurrentSeason
        event.Quantity = .ok q' ∧
      (CreateCollectionEvent json stub c q eventJSON).quota = q' := by
  cases hjson : json.unmarshalCollectionEvent eventJSON with
  | error err => exact Or.inl (by rw [create_unmarshal_error json stub c q eventJSON err hjson])
  | ok event =>
    cases hs : c.ValidateSeasonWindow event.Species event.HarvestDate event.ZoneName with
    | error err =>
      exact Or.inl (by rw [create_season_error json stub c q eventJSON event err hjson hs])
    | ok bs =>
      cases bs with
      | false => exact Or.inl (by rw [create_season_fail json stub c q eventJSON event hjson hs])
      | true =>
        cases hg : validateGeoFencing event.Latitude event.Longitude event.Species with
        | false =>
          exact Or.inl (by rw [create_geo_fail json stub c q eventJSON event hjson hs hg])
        | true =>
          rw [create_geo_pass json stub c q eventJSON event hjson hs hg]
          cases hl : c.ValidateHarvestLimit q event.Species event.ZoneName c.getCurrentSeason
            event.Quantity with
          | error err =>
            exact Or.inl (by rw [track_limit_error json stub c q (approved event) _ err hl])
          | ok bl =>
            cases bl with
            | false =>
              exact Or.inl (by rw [track_limit_fail json stub c q (approved event) _ hl])
            | true =>
              cases ht : c.TrackHarvestQuantity q event.Species event.ZoneName
                c.getCurrentSeason event.Quantity with
              | error err =>
                exact Or.inl (by rw [track_error json stub c q (approved event) _ err hl ht])
              | ok q' =>
                refine Or.inr ⟨event, q', rfl, hs, hg, hl, ht, ?_⟩
                rw [track_pass json stub c q (approved event) _ q' hl ht, finish_quota]

end quota

/-! ## Persistence: no write unless every stage passes -/

section persistence

variable {Q : Type} (json : Json) (stub : Stub) (c : Collaborators Q) (q : Q)

theorem create_not_pass (eventJSON : String) (event : CollectionEvent)
    (hjson : json.unmarshalCollectionEvent eventJSON = .ok event)
    (h : ¬ (c.ValidateSeasonWindow event.Species event.HarvestDate event.ZoneName = .ok true ∧
      validateGeoFencing event.Latitude event.Longitude event.Species = true ∧
      c.ValidateHarvestLimit q event.Species event.ZoneName c.getCurrentSeason
        event.Quantity = .ok true ∧
      validateConservationLimits event.Species event.Quantity = .ok ())) :
    (∃ err, (CreateCollectionEvent json stub c q eventJSON).result = .error err) ∧
    ∀ call ∈ (CreateCollectionEvent json stub c q eventJSON).calls,
      call.isPutState = false ∧ call.isSetEvent = false := by
  cases hs : c.ValidateSeasonWindow event.Species event.HarvestDate event.ZoneName with
  | error err =>
    rw [create_season_error json stub c q eventJSON event err hjson hs]
    exact ⟨⟨_, rfl⟩, by simp [Call.isPutState, Call.isSetEvent]⟩
  | ok bs =>
    cases bs with
    | false =>
      rw [create_season_fail json stub c q eventJSON event hjson hs]
      exact ⟨⟨_, rfl⟩, by simp [Call.isPutState, Call.isSetEvent]⟩
    | true =>
      cases hg : validateGeoFencing event.Latitude event.Longitude event.Species with
      | false =>
        rw [create_geo_fail json stub c q eventJSON event hjson hs hg]
        exact ⟨⟨_, rfl⟩, by simp [Call.isPutState, Call.isSetEvent]⟩
      | true =>
        rw [create_geo_pass json stub c q eventJSON event hjson hs hg]
        cases hl : c.ValidateHarvestLimit q event.Species event.ZoneName c.getCurrentSeason
          event.Quantity with
        | error err =>
          rw [track_limit_error json stub c q (approved event) _ err hl]
          exact ⟨⟨_, rfl⟩, by simp [Call.isPutState, Call.isSetEvent]⟩
        | ok bl =>
          cases bl with
          | false =>
            rw [track_limit_fail json stub c q (approved event) _ hl]
            exact ⟨⟨_, rfl⟩, by simp [Call.isPutState, Call.isSetEvent]⟩
          | true =>
            cases ht : c.TrackHarvestQuantity q event.Species event.ZoneName
              c.getCurrentSeason event.Quantity with
            | error err =>
              rw [track_error json stub c q (approved event) _ err hl ht]
              exact ⟨⟨_, rfl⟩, by simp [Call.isPutState, Call.isSetEvent]⟩
            | ok q' =>
              cases hc : validateConservationLimits event.Species event.Quantity with
              | ok u => exact absurd ⟨hs, hg, hl, hc⟩ h
              | error err =>
                rw [track_pass json stub c q (approved event) _ q' hl ht,
                  finish_conservation_fail json stub c q' (approved event) _ _ err hc]
                refine ⟨⟨_, rfl⟩, ?_⟩
                intro call hcall
                simp only [List.mem_append, List.mem_cons, List.mem_singleton,
                  List.not_mem_nil, or_false] at hcall
                rcases hcall with ((((h1 | h1) | h1 | h1 | h1) | h1) | h1) | h1 | h1
                all_goals first
                  | (subst h1; exact ⟨rfl, rfl⟩)
                  | exact (mem_map_CreateAlert_flags _ call h1).2

theorem create_success (eventJSON : String) (event : CollectionEvent) (q' : Q)
    (eventBytes : String)
    (hjson : json.unmarshalCollectionEvent eventJSON = .ok event)
    (hseason : c.ValidateSeasonWindow event.Species event.HarvestDate event.ZoneName = .ok true)
    (hgeo : validateGeoFencing event.Latitude event.Longitude event.Species = true)
    (hlimit : c.ValidateHarvestLimit q event.Species event.ZoneName c.getCurrentSeason
      event.Quantity = .ok true)
    (htrack : c.TrackHarvestQuantity q event.Species event.ZoneName c.getCurrentSeason
      event.Quantity = .ok q')
    (hcons : validateConservationLimits event.Species event.Quantity = .ok ())
    (hmarshal : json.marshalCollectionEvent (approved event) = .ok eventBytes)
    (hput : stub.PutState event.ID eventBytes = .ok ()) :
    CreateCollectionEvent json stub c q eventJSON =
      { result := .ok (), quota := q',
        calls := [Call.ValidateSeasonWindow event.Species event.HarvestDate event.ZoneName,
            Call.validateGeoFencing event.Latitude event.Longitude event.Species,
            Call.getCurrentSeason,
            Call.ValidateHarvestLimit event.Species event.ZoneName c.getCurrentSeason
              event.Quantity,
            Call.TrackHarvestQuantity event.Species event.ZoneName c.getCurrentSeason
              event.Quantity,
            Call.GetHarvestStatistics event.Species event.ZoneName c.getCurrentSeason] ++
          (warningAlerts c q' event c.getCurrentSeason).map Call.CreateAlert ++
          [Call.validateConservationLimits event.Species event.Quantity,
           Call.PutState event.ID eventBytes,
           Call.SetEvent "CollectionEventCreated" (collectionEventPayload (approved event))],
        event := some (approved event) } := by
  have hcons' : validateConservationLimits (approved event).Species (approved event).Quantity =
      .ok () := hcons
  have hput' : stub.PutState (approved event).ID eventBytes = .ok () := hput
  rw [create_geo_pass json stub c q eventJSON event hjson hseason hgeo,
    track_pass json stub c q (approved event) _ q' hlimit htrack]
  simp only [finishCollectionEvent, hcons', hmarshal, hput', warningAlerts_approved]
  simp [approved]

/-- C7: a submission of an endangered species that passes the season, geo-fence and quota
stages, the increment being committed, makes exactly these calls: the three checks,
TrackHarvestQuantity with the submission's quantity, the statistics read with its
warning alerts, the conservation check and the compliance alert. The quota-ledger state
after the call is the one TrackHarvestQuantity returned, the call returns the
conservation error, and no PutState or SetEvent call is made. -/
theorem C7_endangered_rejected_after_increment (eventJSON : String) (event : CollectionEvent)
    (q' : Q)
    (hjson : json.unmarshalCollectionEvent eventJSON = .ok event)
    (hseason : c.ValidateSeasonWindow event.Species event.HarvestDate event.ZoneName = .ok true)
    (hgeo : validateGeoFencing event.Latitude event.Longitude event.Species = true)
    (hlimit : c.ValidateHarvestLimit q event.Species event.ZoneName c.getCurrentSeason
      event.Quantity = .ok true)
    (htrack : c.TrackHarvestQuantity q event.Species event.ZoneName c.getCurrentSeason
      event.Quantity = .ok q')
    (hendangered : event.Species ∈
      ["Aconitum heterophyllum", "Nardostachys jatamansi", "Picrorhiza kurroa"]) :
    (CreateCollectionEvent json stub c q eventJSON).calls =
      [Call.ValidateSeasonWindow event.Species event.HarvestDate event.ZoneName,
        Call.validateGeoFencing event.Latitude event.Longitude event.Species,
        Call.getCurrentSeason,
        Call.ValidateHarvestLimit event.Species event.ZoneName c.getCurrentSeason
          event.Quantity,
        Call.TrackHarvestQuantity event.Species event.ZoneName c.getCurrentSeason
          event.Quantity,
        Call.GetHarvestStatistics event.Species event.ZoneName c.getCurrentSeason] ++
      (warningAlerts c q' event c.getCurrentSeason).map Call.CreateAlert ++
      [Call.validateConservationLimits event.Species event.Quantity,
       Call.CreateAlert (conservationAlert event)] ∧
    (CreateCollectionEvent json stub c q eventJSON).quota = q' ∧
    (CreateCollectionEvent json stub c q eventJSON).result =
      validateConservationLimits event.Species event.Quantity ∧
    (CreateCollectionEvent json stub c q eventJSON).result =
      .error ("species " ++ event.Species ++ " is endangered and requires special permit") ∧
    (∀ call ∈ (CreateCollectionEvent json stub c q eventJSON).calls,
      call.isPutState = false ∧ call.isSetEvent = false) := by
  have hcons := validateConservationLimits_of_mem event.Species event.Quantity hendangered
  have hnot : ¬ (c.ValidateSeasonWindow event.Species event.HarvestDate event.ZoneName =
        .ok true ∧
      validateGeoFencing event.Latitude event.Longitude event.Species = true ∧
      c.ValidateHarvestLimit q event.Species event.ZoneName c.getCurrentSeason
        event.Quantity = .ok true ∧
      validateConservationLimits event.Species event.Quantity = .ok ()) := by
    rintro ⟨_, _, _, h⟩
    rw [hcons] at h
    cases h
  refine ⟨?_, ?_, ?_, ?_, (create_not_pass json stub c q eventJSON event hjson hnot).2⟩
  all_goals
    rw [create_conservation_fail json stub c q eventJSON event q' _ hjson hseason hgeo hlimit
      htrack hcons]
  exact hcons.symm

/-- C8: for a decoded submission, if any of the four validation stages fails (the season
checker answers false, the geo-fence rejects, the quota check answers false, or the
conservation check returns an error) the call returns an error and makes no PutState and
no SetEvent call; conversely a PutState or SetEvent call is made only when all four
stages pass. -/
theorem C8_written_only_if_all_stages_pass (eventJSON : String) (event : CollectionEvent)
    (hjson : json.unmarshalCollectionEvent eventJSON = .ok event) :
    ((c.ValidateSeasonWindow event.Species event.HarvestDate event.ZoneName = .ok false ∨
        validateGeoFencing event.Latitude event.Longitude event.Species = false ∨
        c.ValidateHarvestLimit q event.Species event.ZoneName c.getCurrentSeason
          event.Quantity = .ok false ∨
        (∃ err, validateConservationLimits event.Species event.Quantity = .error err)) →
      (∃ err, (CreateCollectionEvent json stub c q eventJSON).result = .error err) ∧
      ∀ call ∈ (CreateCollectionEvent json stub c q eventJSON).calls,
        call.isPutState = false ∧ call.isSetEvent = false) ∧
    ((∃ call ∈ (CreateCollectionEvent json stub c q eventJSON).calls,
        call.isPutState = true ∨ call.isSetEvent = true) →
      c.ValidateSeasonWindow event.Species event.HarvestDate event.ZoneName = .ok true ∧
      validateGeoFencing event.Latitude event.Longitude event.Species = true ∧
      c.ValidateHarvestLimit q event.Species event.ZoneName c.getCurrentSeason
        event.Quantity = .ok true ∧
      validateConservationLimits event.Species event.Quantity = .ok ()) := by
  constructor
  · intro hfail
    apply create_not_pass json stub c q eventJSON event hjson
    rintro ⟨h1, h2, h3, h4⟩
    rcases hfail with h | h | h | ⟨err, h⟩
    · rw [h1] at h; cases h
    · rw [h2] at h; cases h
    · rw [h3] at h; cases h
    · rw [h4] at h; cases h
  · rintro ⟨call, hcall, hflag⟩
    by_contra hnot
    have h := (create_not_pass json stub c q eventJSON event hjson hnot).2 call hcall
    rcases hflag with hf | hf
    · rw [h.1] at hf; cases hf
    · rw [h.2] at hf; cases hf

theorem fixture_unmarshal_neem40 :
    fixtureJson.unmarshalCollectionEvent "json:CE-1" = .ok eventNeem40 := by
  simp [fixtureJson, fixtureEvents, List.lookup]

theorem fixture_neem40_outcome :
    CreateCollectionEvent fixtureJson fixtureStub fixtureCollaborators fixtureQuota "json:CE-1" =
      { result := .ok (), quota := quotaAfterNeem40,
        calls := [Call.ValidateSeasonWindow "Neem" "2025-01-15" "Zone-A",
          Call.validateGeoFencing (121 / 4) 78 "Neem",
          Call.getCurrentSeason,
          Call.ValidateHarvestLimit "Neem" "Zone-A" "2025-winter" 40,
          Call.TrackHarvestQuantity "Neem" "Zone-A" "2025-winter" 40,
          Call.GetHarvestStatistics "Neem" "Zone-A" "2025-winter",
          Call.CreateAlert (warningAlert eventNeem40 "2025-winter" statsNeem40),
          Call.validateConservationLimits "Neem" 40,
          Call.PutState "CE-1" "json:CE-1",
          Call.SetEvent "CollectionEventCreated" (collectionEventPayload eventNeem40)],
        event := some eventNeem40 } := by
  have hseason : fixtureCollaborators.ValidateSeasonWindow eventNeem40.Species
      eventNeem40.HarvestDate eventNeem40.ZoneName = .ok true := by
    simp [fixtureCollaborators, eventNeem40]
  have hgeo : validateGeoFencing eventNeem40.Latitude eventNeem40.Longitude
      eventNeem40.Species = true := fixture_neem_geo
  have hlimit : fixtureCollaborators.ValidateHarvestLimit fixtureQuota eventNeem40.Species
      eventNeem40.ZoneName fixtureCollaborators.getCurrentSeason eventNeem40.Quantity =
      .ok true := by
    simp [fixtureCollaborators, eventNeem40, checkLimit, fixtureQuota]
    norm_num
  have hcons : validateConservationLimits eventNeem40.Species eventNeem40.Quantity = .ok () :=
    validateConservationLimits_of_not_mem _ _ (by simp [eventNeem40])
  have happ : approved eventNeem40 = eventNeem40 := by
    simp [approved, eventNeem40]
  have hwarn : warningAlerts fixtureCollaborators quotaAfterNeem40 eventNeem40
      "2025-winter" = [warningAlert eventNeem40 "2025-winter" statsNeem40] := by
    apply warningAlerts_of_warning
    · simp [fixtureCollaborators, eventNeem40, quotaAfterNeem40, increment, fixtureQuota,
        statsNeem40]
      norm_num
    · rfl
  rw [create_success fixtureJson fixtureStub fixtureCollaborators fixtureQuota "json:CE-1"
    eventNeem40 quotaAfterNeem40 "json:CE-1" fixture_unmarshal_neem40 hseason hgeo hlimit rfl
    hcons (by rw [happ]; rfl) rfl]
  have hq : fixtureCollaborators.getCurrentSeason = "2025-winter" := rfl
  rw [hq, hwarn, happ]
  rfl

/-- C7 (witness): the 30 kg endangered-species submission is rejected by the conservation
check after 30 kg were added to the quota ledger. -/
theorem C7_endangered_rejected_after_increment_witness :
    (CreateCollectionEvent fixtureJson fixtureStub fixtureCollaborators fixtureQuota
      "json:CE-E").quota =
      increment fixtureQuota "Picrorhiza kurroa" "Zone-A" "2025-winter" 30 ∧
    (CreateCollectionEvent fixtureJson fixtureStub fixtureCollaborators fixtureQuota
      "json:CE-E").result =
      .error ("species " ++ eventEndangered.Species ++
        " is endangered and requires special permit") ∧
    (∀ call ∈ (CreateCollectionEvent fixtureJson fixtureStub fixtureCollaborators fixtureQuota
      "json:CE-E").calls, call.isPutState = false ∧ call.isSetEvent = false) :=
  have h := C7_endangered_rejected_after_increment fixtureJson fixtureStub fixtureCollaborators
    fixtureQuota "json:CE-E" eventEndangered
    (increment fixtureQuota "Picrorhiza kurroa" "Zone-A" "2025-winter" 30)
    fixture_unmarshal_endangered fixture_endangered_season fixture_endangered_geo
    fixture_endangered_limit rfl (by simp [eventEndangered])
  ⟨h.2.1, h.2.2.2.1, h.2.2.2.2⟩

/-- C8 (witness): the out-of-season submission is rejected without any write, and the
accepted 40 kg Neem submission, which does write, passed all four stages. -/
theorem C8_written_only_if_all_stages_pass_witness :
    ((∃ err, (CreateCollectionEvent fixtureJson fixtureStub fixtureCollaborators fixtureQuota
        "json:CE-S").result = .error err) ∧
      ∀ call ∈ (CreateCollectionEvent fixtureJson fixtureStub fixtureCollaborators fixtureQuota
        "json:CE-S").calls, call.isPutState = false ∧ call.isSetEvent = false) ∧
    (fixtureCollaborators.ValidateSeasonWindow eventNeem40.Species eventNeem40.HarvestDate
        eventNeem40.ZoneName = .ok true ∧
      validateGeoFencing eventNeem40.Latitude eventNeem40.Longitude eventNeem40.Species = true ∧
      fixtureCollaborators.ValidateHarvestLimit fixtureQuota eventNeem40.Species
        eventNeem40.ZoneName fixtureCollaborators.getCurrentSeason eventNeem40.Quantity =
        .ok true ∧
      validateConservationLimits eventNeem40.Species eventNeem40.Quantity = .ok ()) :=
  ⟨(C8_written_only_if_all_stages_pass fixtureJson fixtureStub fixtureCollaborators
      fixtureQuota "json:CE-S" eventOutOfSeason fixture_unmarshal_outOfSeason).1
      (Or.inl fixture_outOfSeason_season),
   (C8_written_only_if_all_stages_pass fixtureJson fixtureStub fixtureCollaborators
      fixtureQuota "json:CE-1" eventNeem40 fixture_unmarshal_neem40).2
      ⟨Call.PutState "CE-1" "json:CE-1", by rw [fixture_neem40_outcome]; simp, Or.inl rfl⟩⟩

end persistence

/-! ## The quota invariant over a sequence of submissions -/

section invariant

variable (json : Json) (stub : Stub) (c : Collaborators QuotaStore)

theorem increment_withinCaps (store : QuotaStore) (species zone season : String)
    (quantity : ℚ) (hstore : WithinCaps store)
    (hlimit : checkLimit store species zone season quantity = true) :
    WithinCaps (increment store species zone season quantity) := by
  intro sp z se
  unfold increment
  by_cases hkey : sp = species ∧ z = zone ∧ se = season
  · obtain ⟨rfl, rfl, rfl⟩ := hkey
    simp only [and_self, if_true]
    simpa [checkLimit] using hlimit
  · rw [if_neg hkey]
    exact hstore sp z se

theorem create_preserves_withinCaps (hc : MeetsQuotaContract c) (store : QuotaStore)
    (hstore : WithinCaps store) (eventJSON : String) :
    WithinCaps (CreateCollectionEvent json stub c store eventJSON).quota := by
  rcases create_quota_cases json stub c store eventJSON with h | ⟨event, q', _, _, _, hl, ht, h⟩
  · rw [h]; exact hstore
  · rw [h]
    rw [hc.1] at hl
    rw [hc.2] at ht
    have hq : increment store event.Species event.ZoneName c.getCurrentSeason event.Quantity =
        q' := by
      injection ht
    have hb : checkLimit store event.Species event.ZoneName c.getCurrentSeason
        event.Quantity = true := by
      injection hl
    rw [← hq]
    exact increment_withinCaps store _ _ _ _ hstore hb

theorem runSubmissions_withinCaps (hc : MeetsQuotaContract c) (submissions : List String)
    (store : QuotaStore) (hstore : WithinCaps store) :
    WithinCaps (runSubmissions json stub c store submissions) := by
  induction submissions generalizing store with
  | nil => exact hstore
  | cons eventJSON rest ih =>
    exact ih _ (create_preserves_withinCaps json stub c hc store hstore eventJSON)

theorem create_over_cap_rejected (hc : MeetsQuotaContract c) (store : QuotaStore)
    (eventJSON : String) (event : CollectionEvent)
    (hjson : json.unmarshalCollectionEvent eventJSON = .ok event)
    (hover : (store event.Species event.ZoneName c.getCurrentSeason).current + event.Quantity >
      (store event.Species event.ZoneName c.getCurrentSeason).max) :
    (∃ err, (CreateCollectionEvent json stub c store eventJSON).result = .error err) ∧
    (CreateCollectionEvent json stub c store eventJSON).quota = store := by
  have hl : c.ValidateHarvestLimit store event.Species event.ZoneName c.getCurrentSeason
      event.Quantity = .ok false := by
    rw [hc.1]
    simp [checkLimit, hover]
  constructor
  · refine (create_not_pass json stub c store eventJSON event hjson ?_).1
    rintro ⟨_, _, h, _⟩
    rw [hl] at h
    cases h
  · rcases create_quota_cases json stub c store eventJSON with h | ⟨event', q', hj, _, _, hl', _, _⟩
    · exact h
    · rw [hjson] at hj
      injection hj with hj
      subst hj
      rw [hl] at hl'
      cases hl'

/-- C6: with a quota ledger that meets its contract (the check answers
`current + quantity <= max`, the increment adds `quantity` to `current`) and a fixed
season, starting from a state in which no key exceeds its maximum, after every call of
any finite sequence of CreateCollectionEvent calls no key exceeds its maximum; and a
submission that would push the running total of its key over the maximum is rejected
and leaves the quota state as it found it. -/
theorem C6_quota_never_exceeds_cap (hc : MeetsQuotaContract c) (store : QuotaStore)
    (hstore : WithinCaps store) (submissions : List String) :
    (∀ n, WithinCaps (runSubmissions json stub c store (submissions.take n))) ∧
    (∀ n eventJSON event,
      json.unmarshalCollectionEvent eventJSON = .ok event →
      (runSubmissions json stub c store (submissions.take n) event.Species event.ZoneName
          c.getCurrentSeason).current + event.Quantity >
        (runSubmissions json stub c store (submissions.take n) event.Species event.ZoneName
          c.getCurrentSeason).max →
      (∃ err, (CreateCollectionEvent json stub c
          (runSubmissions json stub c store (submissions.take n)) eventJSON).result =
          .error err) ∧
      (CreateCollectionEvent json stub c
          (runSubmissions json stub c store (submissions.take n)) eventJSON).quota =
        runSubmissions json stub c store (submissions.take n)) :=
  ⟨fun n => runSubmissions_withinCaps json stub c hc (submissions.take n) store hstore,
   fun _ eventJSON event hjson hover =>
     create_over_cap_rejected json stub c hc _ eventJSON event hjson hover⟩

theorem fixture_meets_contract : MeetsQuotaContract fixtureCollaborators :=
  ⟨fun _ _ _ _ _ => rfl, fun _ _ _ _ _ => rfl⟩

theorem fixture_withinCaps : WithinCaps fixtureQuota := by
  intro _ _ _
  simp [fixtureQuota]

theorem fixture_run_neem40 :
    runSubmissions fixtureJson fixtureStub fixtureCollaborators fixtureQuota
      (["json:CE-1", "json:CE-O"].take 1) = quotaAfterNeem40 := by
  rw [show (["json:CE-1", "json:CE-O"].take 1) = ["json:CE-1"] from rfl, runSubmissions,
    runSubmissions, fixture_neem40_outcome]

/-- C6 (witness): from an empty ledger with a cap of 100, a 40 kg submission followed by
a 70 kg submission for the same key keeps every key within its cap after every call, and
the 70 kg submission is rejected and leaves the stored quantity as it was. -/
theorem C6_quota_never_exceeds_cap_witness :
    MeetsQuotaContract fixtureCollaborators ∧ WithinCaps fixtureQuota ∧
    (∀ n, WithinCaps (runSubmissions fixtureJson fixtureStub fixtureCollaborators fixtureQuota
      (["json:CE-1", "json:CE-O"].take n))) ∧
    (∃ err, (CreateCollectionEvent fixtureJson fixtureStub fixtureCollaborators
      (runSubmissions fixtureJson fixtureStub fixtureCollaborators fixtureQuota
        (["json:CE-1", "json:CE-O"].take 1)) "json:CE-O").result = .error err) ∧
    (CreateCollectionEvent fixtureJson fixtureStub fixtureCollaborators
      (runSubmissions fixtureJson fixtureStub fixtureCollaborators fixtureQuota
        (["json:CE-1", "json:CE-O"].take 1)) "json:CE-O").quota =
      runSubmissions fixtureJson fixtureStub fixtureCollaborators fixtureQuota
        (["json:CE-1", "json:CE-O"].take 1) :=
  have h := C6_quota_never_exceeds_cap fixtureJson fixtureStub fixtureCollaborators
    fixture_meets_contract fixtureQuota fixture_withinCaps ["json:CE-1", "json:CE-O"]
  have hover : (runSubmissions fixtureJson fixtureStub fixtureCollaborators fixtureQuota
        (["json:CE-1", "json:CE-O"].take 1) eventNeem70.Species eventNeem70.ZoneName
        fixtureCollaborators.getCurrentSeason).current + eventNeem70.Quantity >
      (runSubmissions fixtureJson fixtureStub fixtureCollaborators fixtureQuota
        (["json:CE-1", "json:CE-O"].take 1) eventNeem70.Species eventNeem70.ZoneName
        fixtureCollaborators.getCurrentSeason).max := by
    rw [fixture_run_neem40]
    simp [quotaAfterNeem40, increment, fixtureQuota, eventNeem70, fixtureCollaborators]
    norm_num
  ⟨fixture_meets_contract, fixture_withinCaps, h.1,
    h.2 1 "json:CE-O" eventNeem70 fixture_unmarshal_neem70 hover⟩

end invariant

/-! ## Provenance assembly -/

section provenance

variable (json : Json) (stub : Stub)

theorem gather_foldl {α : Type} (fetch : String → Except String α) (ids : List String)
    (gathered : List α) :
    ids.foldl (fun gathered id =>
      match fetch id with
      | .ok record => gathered ++ [record]
      | .error _ => gathered) gathered =
    gathered ++ ids.filterMap (fun id => (fetch id).toOption) := by
  induction ids generalizing gathered with
  | nil => simp
  | cons id rest ih =>
    rw [List.foldl_cons, ih]
    cases h : fetch id with
    | error err => simp [List.filterMap_cons, h, Except.toOption]
    | ok record => simp [List.filterMap_cons, h, Except.toOption]

theorem gather_eq_filterMap {α : Type} (fetch : String → Except String α) (ids : List String) :
    gather fetch ids = ids.filterMap (fun id => (fetch id).toOption) := by
  unfold gather
  exact (gather_foldl fetch ids []).trans (List.nil_append _)

theorem GetCollectionEvent_toOption (id : String) :
    (GetCollectionEvent json stub id).toOption =
      storedRecord json.unmarshalCollectionEvent stub id := by
  unfold GetCollectionEvent storedRecord
  cases stub.GetState id with
  | error err => rfl
  | ok bytes =>
    cases bytes with
    | none => rfl
    | some b =>
      dsimp only
      cases json.unmarshalCollectionEvent b <;> rfl

theorem GetQualityTest_toOption (id : String) :
    (GetQualityTest json stub id).toOption =
      storedRecord json.unmarshalQualityTest stub id := by
  unfold GetQualityTest storedRecord
  cases stub.GetState id with
  | error err => rfl
  | ok bytes =>
    cases bytes with
    | none => rfl
    | some b =>
      dsimp only
      cases json.unmarshalQualityTest b <;> rfl

theorem GetProcessingStep_toOption (id : String) :
    (GetProcessingStep json stub id).toOption =
      storedRecord json.unmarshalProcessingStep stub id := by
  unfold GetProcessingStep storedRecord
  cases stub.GetState id with
  | error err => rfl
  | ok bytes =>
    cases bytes with
    | none => rfl
    | some b =>
      dsimp only
      cases json.unmarshalProcessingStep b <;> rfl

theorem GetProduct_eq_ok_iff (id : String) (product : Product) :
    GetProduct json stub id = .ok product ↔
      storedRecord json.unmarshalProduct stub id = some product := by
  unfold GetProduct storedRecord
  cases stub.GetState id with
  | error err => simp
  | ok bytes =>
    cases bytes with
    | none => simp
    | some b =>
      dsimp only
      cases json.unmarshalProduct b with
      | error err => simp
      | ok p =>
        constructor
        · intro h
          injection h with h
          rw [h]
        · intro h
          injection h with h
          rw [h]

theorem GenerateProvenance_of_product (productID : String) (product : Product)
    (hproduct : GetProduct json stub productID = .ok product) :
    GenerateProvenance json stub productID = .ok
      { ID := "PROV-" ++ productID, ProductID := productID, QRCode := product.QRCode,
        CollectionEvents :=
          product.CollectionEventIDs.filterMap (storedRecord json.unmarshalCollectionEvent stub),
        QualityTests :=
          product.QualityTestIDs.filterMap (storedRecord json.unmarshalQualityTest stub),
        ProcessingSteps :=
          product.ProcessingStepIDs.filterMap (storedRecord json.unmarshalProcessingStep stub),
        Product := product,
        SustainabilityScore := calculateSustainabilityScore
          { ID := "PROV-" ++ productID, ProductID := productID, QRCode := product.QRCode,
            CollectionEvents :=
              product.CollectionEventIDs.filterMap
                (storedRecord json.unmarshalCollectionEvent stub),
            QualityTests :=
              product.QualityTestIDs.filterMap (storedRecord json.unmarshalQualityTest stub),
            ProcessingSteps :=
              product.ProcessingStepIDs.filterMap
                (storedRecord json.unmarshalProcessingStep stub),
            Product := product } } := by
  have h1 : (fun id => (GetCollectionEvent json stub id).toOption) =
      storedRecord json.unmarshalCollectionEvent stub :=
    funext (GetCollectionEvent_toOption json stub)
  have h2 : (fun id => (GetQualityTest json stub id).toOption) =
      storedRecord json.unmarshalQualityTest stub :=
    funext (GetQualityTest_toOption json stub)
  have h3 : (fun id => (GetProcessingStep json stub id).toOption) =
      storedRecord json.unmarshalProcessingStep stub :=
    funext (GetProcessingStep_toOption json stub)
  simp only [GenerateProvenance, hproduct, gather_eq_filterMap, h1, h2, h3]

theorem GenerateProvenance_of_error (productID err : String)
    (hproduct : GetProduct json stub productID = .error err) :
    GenerateProvenance json stub productID = .error err := by
  simp only [GenerateProvenance, hproduct]

/-- C9: for a product present in the store, GenerateProvenance succeeds and each list of
the bundle is the product's reference list with every ID that cannot be fetched (absent
or malformed) dropped and every other ID replaced by its stored record, order and
multiplicity kept; so no list is longer than its reference list. -/
theorem C9_bundle_lists_are_filtered_references (productID : String) (product : Product)
    (hproduct : storedRecord json.unmarshalProduct stub productID = some product) :
    ∃ prov, GenerateProvenance json stub productID = .ok prov ∧
      prov.CollectionEvents =
        product.CollectionEventIDs.filterMap (storedRecord json.unmarshalCollectionEvent stub) ∧
      prov.QualityTests =
        product.QualityTestIDs.filterMap (storedRecord json.unmarshalQualityTest stub) ∧
      prov.ProcessingSteps =
        product.ProcessingStepIDs.filterMap (storedRecord json.unmarshalProcessingStep stub) ∧
      prov.CollectionEvents.length ≤ product.CollectionEventIDs.length ∧
      prov.QualityTests.length ≤ product.QualityTestIDs.length ∧
      prov.ProcessingSteps.length ≤ product.ProcessingStepIDs.length := by
  have hget := (GetProduct_eq_ok_iff json stub productID product).mpr hproduct
  exact ⟨_, GenerateProvenance_of_product json stub productID product hget, rfl, rfl, rfl,
    List.length_filterMap_le _ _, List.length_filterMap_le _ _, List.length_filterMap_le _ _⟩

theorem fixture_product_stored :
    storedRecord fixtureJson.unmarshalProduct fixtureStub "P-1" = some productNeemPowder := by
  simp [storedRecord, fixtureStub, fixtureJson, fixtureProducts, List.lookup]

theorem fixture_stored_events :
    productNeemPowder.CollectionEventIDs.filterMap
      (storedRecord fixtureJson.unmarshalCollectionEvent fixtureStub) =
      [eventNeem40, eventTulsi] := by
  simp [productNeemPowder, storedRecord, fixtureStub, fixtureJson, fixtureEvents, List.lookup]

/-- C9 (witness): product P-1 references the collection events CE-1, CE-2 and CE-3, of
which CE-2 is missing; the bundle is returned without error and holds exactly the two
stored events, in order. -/
theorem C9_bundle_lists_are_filtered_references_witness :
    productNeemPowder.CollectionEventIDs = ["CE-1", "CE-2", "CE-3"] ∧
    storedRecord fixtureJson.unmarshalCollectionEvent fixtureStub "CE-2" = none ∧
    ∃ prov, GenerateProvenance fixtureJson fixtureStub "P-1" = .ok prov ∧
      prov.CollectionEvents = [eventNeem40, eventTulsi] ∧
      prov.CollectionEvents.length = 2 :=
  have h := C9_bundle_lists_are_filtered_references fixtureJson fixtureStub "P-1"
    productNeemPowder fixture_product_stored
  ⟨rfl, by simp [storedRecord, fixtureStub],
    h.elim fun prov hp =>
      ⟨prov, hp.1, hp.2.1.trans fixture_stored_events,
        (congrArg List.length (hp.2.1.trans fixture_stored_events)).trans rfl⟩⟩

/-- C10 (counterexample): the key P-7 is present in the store but its bytes do not
decode as a product, and GenerateProvenance fails, with the decode error and not with
not-found; the read of the key P-8 fails, and GenerateProvenance fails with the read
error. So not-found is not the only failure propagated, and a present product does not
guarantee success. -/
theorem C10_present_product_fails_counterexample :
    damagedStub.GetState "P-7" = .ok (some "<html>") ∧
    GenerateProvenance fixtureJson damagedStub "P-7" =
      .error "failed to unmarshal product: invalid character" ∧
    GenerateProvenance fixtureJson damagedStub "P-7" ≠ .error "product not found: P-7" ∧
    GenerateProvenance fixtureJson damagedStub "P-8" =
      .error "failed to read product: ledger unavailable" ∧
    GenerateProvenance fixtureJson damagedStub "P-8" ≠ .error "product not found: P-8" := by
  have h7 : GenerateProvenance fixtureJson damagedStub "P-7" =
      .error "failed to unmarshal product: invalid character" := by
    apply GenerateProvenance_of_error
    simp [GetProduct, damagedStub, fixtureJson, fixtureProducts, List.lookup]
  have h8 : GenerateProvenance fixtureJson damagedStub "P-8" =
      .error "failed to read product: ledger unavailable" := by
    apply GenerateProvenance_of_error
    simp [GetProduct, damagedStub]
  refine ⟨by simp [damagedStub], h7, ?_, h8, ?_⟩
  · rw [h7]
    intro h
    injection h with h
    exact absurd h (by decide)
  · rw [h8]
    intro h
    injection h with h
    exact absurd h (by decide)

/-- C10 (amended): GenerateProvenance fails exactly when the fetch of the product itself
fails, with the error of that fetch: not-found when the product is absent from the
store, a read error when the store read fails, a decode error when the stored bytes do
not decode as a product. Whenever the product is stored and decodes, the call succeeds
and returns that product, whatever the store and the decoders answer for the referenced
collection events, quality tests and processing steps. -/
theorem C10_fails_exactly_when_product_fetch_fails (productID : String) :
    (stub.GetState productID = .ok none →
      GenerateProvenance json stub productID =
        .error ("product not found: " ++ productID)) ∧
    (∀ err, stub.GetState productID = .error err →
      GenerateProvenance json stub productID =
        .error ("failed to read product: " ++ err)) ∧
    (∀ bytes err, stub.GetState productID = .ok (some bytes) →
      json.unmarshalProduct bytes = .error err →
      GenerateProvenance json stub productID =
        .error ("failed to unmarshal product: " ++ err)) ∧
    (∀ bytes product, stub.GetState productID = .ok (some bytes) →
      json.unmarshalProduct bytes = .ok product →
      ∃ prov, GenerateProvenance json stub productID = .ok prov ∧ prov.Product = product) ∧
    (∀ err, GenerateProvenance json stub productID = .error err ↔
      GetProduct json stub productID = .error err) := by
  refine ⟨?_, ?_, ?_, ?_, ?_⟩
  · intro habsent
    apply GenerateProvenance_of_error
    simp [GetProduct, habsent]
  · intro err hread
    apply GenerateProvenance_of_error
    simp [GetProduct, hread]
  · intro bytes err hstate hdecode
    apply GenerateProvenance_of_error
    simp [GetProduct, hstate, hdecode]
  · intro bytes product hstate hdecode
    have hget : GetProduct json stub productID = .ok product := by
      simp [GetProduct, hstate, hdecode]
    exact ⟨_, GenerateProvenance_of_product json stub productID product hget, rfl⟩
  · intro err
    cases hget : GetProduct json stub productID with
    | error e =>
      rw [GenerateProvenance_of_error json stub productID e hget]
      constructor <;> intro h <;> injection h with h <;> rw [h]
    | ok product =>
      rw [GenerateProvenance_of_product json stub productID product hget]
      constructor <;> intro h <;> cases h

/-- C10 (witness): the absent product P-2 gives the not-found error, the undecodable
P-7 the decode error, the unreadable P-8 the read error, and the stored product P-1
gives a bundle although one referenced collection event, the quality test and the
processing step cannot be fetched. -/
theorem C10_fails_exactly_when_product_fetch_fails_witness :
    GenerateProvenance fixtureJson fixtureStub "P-2" = .error "product not found: P-2" ∧
    GenerateProvenance fixtureJson damagedStub "P-7" =
      .error "failed to unmarshal product: invalid character" ∧
    GenerateProvenance fixtureJson damagedStub "P-8" =
      .error "failed to read product: ledger unavailable" ∧
    (∃ prov, GenerateProvenance fixtureJson fixtureStub "P-1" = .ok prov ∧
      prov.Product = productNeemPowder) ∧
    productNeemPowder.QualityTestIDs.filterMap
      (storedRecord fixtureJson.unmarshalQualityTest fixtureStub) = [] ∧
    productNeemPowder.ProcessingStepIDs.filterMap
      (storedRecord fixtureJson.unmarshalProcessingStep fixtureStub) = [] :=
  ⟨(C10_fails_exactly_when_product_fetch_fails fixtureJson fixtureStub "P-2").1
      (by simp [fixtureStub]),
    (C10_fails_exactly_when_product_fetch_fails fixtureJson damagedStub "P-7").2.2.1
      "<html>" "invalid character" (by simp [damagedStub])
      (by simp [fixtureJson, fixtureProducts, List.lookup]),
    (C10_fails_exactly_when_product_fetch_fails fixtureJson damagedStub "P-8").2.1
      "ledger unavailable" (by simp [damagedStub]),
    (C10_fails_exactly_when_product_fetch_fails fixtureJson fixtureStub "P-1").2.2.2.1
      "json:P-1" productNeemPowder (by simp [fixtureStub])
      (by simp [fixtureJson, fixtureProducts, List.lookup]),
    by simp [productNeemPowder, storedRecord, fixtureStub, fixtureJson],
    by simp [productNeemPowder, storedRecord, fixtureStub, fixtureJson]⟩

end provenance

/-! ## Bounds of the sustainability score -/

theorem clamp_bounds (x : ℚ) : 0 ≤ clamp x 0 100 ∧ clamp x 0 100 ≤ 100 := by
  unfold clamp
  exact ⟨le_min (le_max_right x 0) (by norm_num), min_le_right _ _⟩

/-- C11: for every provenance bundle the value of calculateSustainabilityScore lies in
the closed interval [0, 100]. A bundle with no non-approved event, no failed test and
four certifications scores 100 (not 120), and the bundle with three non-approved events,
two failed tests and one certification scores 45. -/
theorem C11_score_within_0_100 (prov : Provenance) :
    (0 ≤ calculateSustainabilityScore prov ∧ calculateSustainabilityScore prov ≤ 100) ∧
    (nonApprovedCount prov = 0 → failedTestCount prov = 0 →
      prov.Product.Certifications.length = 4 → calculateSustainabilityScore prov = 100) ∧
    calculateSustainabilityScore provFourCerts = 100 ∧
    calculateSustainabilityScore provPenalised = 45 := by
  refine ⟨?_, ?_, ?_, ?_⟩
  · rw [calculateSustainabilityScore_eq]
    exact clamp_bounds _
  · intro ha hf hd
    rw [calculateSustainabilityScore_eq, scoreListedCerts, ha, hf, hd]
    simp [clamp]
  · simp [calculateSustainabilityScore, provFourCerts, deductZones, deductFailedTests]
    norm_num
  · simp [calculateSustainabilityScore, provPenalised, deductZones, deductFailedTests]
    norm_num

/-! ## Conservation check -/

/-- C15: validateConservationLimits returns an error exactly when the species is one of
"Aconitum heterophyllum", "Nardostachys jatamansi", "Picrorhiza kurroa" (exact string
match); the result is the same for every quantity, and the function reads no ledger
state (it has no such argument). -/
theorem C15_validateConservationLimits_spec (species : String) (quantity : ℚ) :
    ((∃ err, validateConservationLimits species quantity = .error err) ↔
      species ∈ ["Aconitum heterophyllum", "Nardostachys jatamansi", "Picrorhiza kurroa"]) ∧
    (validateConservationLimits species quantity = .ok () ↔
      species ∉ ["Aconitum heterophyllum", "Nardostachys jatamansi", "Picrorhiza kurroa"]) ∧
    (∀ quantity', validateConservationLimits species quantity' =
      validateConservationLimits species quantity) ∧
    (∃ err, validateConservationLimits "Picrorhiza kurroa" quantity = .error err) ∧
    validateConservationLimits "picrorhiza kurroa" quantity = .ok () ∧
    validateConservationLimits "Neem" quantity = .ok () := by
  by_cases h : species ∈
      ["Aconitum heterophyllum", "Nardostachys jatamansi", "Picrorhiza kurroa"]
  · have he := validateConservationLimits_of_mem species quantity h
    refine ⟨⟨fun _ => h, fun _ => ⟨_, he⟩⟩, ⟨fun hok => ?_, fun hn => absurd h hn⟩, ?_, ?_, ?_, ?_⟩
    · rw [he] at hok
      cases hok
    · intro quantity'
      rw [he, validateConservationLimits_of_mem species quantity' h]
    · exact ⟨_, validateConservationLimits_of_mem _ quantity (by simp)⟩
    · exact validateConservationLimits_of_not_mem _ quantity (by decide)
    · exact validateConservationLimits_of_not_mem _ quantity (by decide)
  · have hk := validateConservationLimits_of_not_mem species quantity h
    refine ⟨⟨fun ⟨err, he⟩ => ?_, fun hm => absurd hm h⟩, ⟨fun _ => h, fun _ => hk⟩, ?_, ?_, ?_, ?_⟩
    · rw [hk] at he
      cases he
    · intro quantity'
      rw [hk, validateConservationLimits_of_not_mem species quantity' h]
    · exact ⟨_, validateConservationLimits_of_mem _ quantity (by simp)⟩
    · exact validateConservationLimits_of_not_mem _ quantity (by decide)
    · exact validateConservationLimits_of_not_mem _ quantity (by decide)

/-! ## What CreateCollectionEvent writes -/

section writes

variable {Q : Type} (json : Json) (stub : Stub) (c : Collaborators Q) (q : Q)

theorem putsOf_append (xs ys : List Call) : putsOf (xs ++ ys) = putsOf xs ++ putsOf ys := by
  simp [putsOf, List.filterMap_append]

theorem putsOf_map_CreateAlert (alerts : List String) :
    putsOf (alerts.map Call.CreateAlert) = [] := by
  induction alerts with
  | nil => rfl
  | cons a rest ih =>
    simp only [putsOf] at ih
    simp [putsOf, ih]

theorem putsOf_eq_nil (calls : List Call) (h : ∀ call ∈ calls, call.isPutState = false) :
    putsOf calls = [] := by
  induction calls with
  | nil => rfl
  | cons call rest ih =>
    have hrest := ih (fun x hx => h x (List.mem_cons_of_mem _ hx))
    have hcall := h call (List.mem_cons_self _ _)
    cases call <;> first | exact hrest | cases hcall

theorem finish_marshal_error (event : CollectionEvent) (season : String) (calls : List Call)
    (err : String)
    (hcons : validateConservationLimits event.Species event.Quantity = .ok ())
    (hmarshal : json.marshalCollectionEvent event = .error err) :
    finishCollectionEvent json stub c q event season calls =
      { result := .error ("failed to marshal event: " ++ err), quota := q,
        calls := calls ++ [Call.GetHarvestStatistics event.Species event.ZoneName season] ++
          (warningAlerts c q event season).map Call.CreateAlert ++
          [Call.validateConservationLimits event.Species event.Quantity],
        event := some event } := by
  simp [finishCollectionEvent, hcons, hmarshal]

theorem finish_put_error (event : CollectionEvent) (season : String) (calls : List Call)
    (bytes err : String)
    (hcons : validateConservationLimits event.Species event.Quantity = .ok ())
    (hmarshal : json.marshalCollectionEvent event = .ok bytes)
    (hput : stub.PutState event.ID bytes = .error err) :
    finishCollectionEvent json stub c q event season calls =
      { result := .error ("failed to save collection event: " ++ err), quota := q,
        calls := calls ++ [Call.GetHarvestStatistics event.Species event.ZoneName season] ++
          (warningAlerts c q event season).map Call.CreateAlert ++
          [Call.validateConservationLimits event.Species event.Quantity,
           Call.PutState event.ID bytes],
        event := some event } := by
  simp [finishCollectionEvent, hcons, hmarshal, hput]

theorem finish_success (event : CollectionEvent) (season : String) (calls : List Call)
    (bytes : String)
    (hcons : validateConservationLimits event.Species event.Quantity = .ok ())
    (hmarshal : json.marshalCollectionEvent event = .ok bytes)
    (hput : stub.PutState event.ID bytes = .ok ()) :
    finishCollectionEvent json stub c q event season calls =
      { result := .ok (), quota := q,
        calls := calls ++ [Call.GetHarvestStatistics event.Species event.ZoneName season] ++
          (warningAlerts c q event season).map Call.CreateAlert ++
          [Call.validateConservationLimits event.Species event.Quantity,
           Call.PutState event.ID bytes,
           Call.SetEvent "CollectionEventCreated" (collectionEventPayload event)],
        event := some event } := by
  simp [finishCollectionEvent, hcons, hmarshal, hput]

theorem create_passing (eventJSON : String) (event : CollectionEvent) (q' : Q)
    (hjson : json.unmarshalCollectionEvent eventJSON = .ok event)
    (hseason : c.ValidateSeasonWindow event.Species event.HarvestDate event.ZoneName = .ok true)
    (hgeo : validateGeoFencing event.Latitude event.Longitude event.Species = true)
    (hlimit : c.ValidateHarvestLimit q event.Species event.ZoneName c.getCurrentSeason
      event.Quantity = .ok true)
    (htrack : c.TrackHarvestQuantity q event.Species event.ZoneName c.getCurrentSeason
      event.Quantity = .ok q')
    (hcons : validateConservationLimits event.Species event.Quantity = .ok ()) :
    (CreateCollectionEvent json stub c q eventJSON).event = some (approved event) ∧
    ((∃ err, json.marshalCollectionEvent (approved event) = .error err ∧
        (CreateCollectionEvent json stub c q eventJSON).result =
          .error ("failed to marshal event: " ++ err) ∧
        putsOf (CreateCollectionEvent json stub c q eventJSON).calls = []) ∨
     (∃ bytes err, json.marshalCollectionEvent (approved event) = .ok bytes ∧
        stub.PutState event.ID bytes = .error err ∧
        (CreateCollectionEvent json stub c q eventJSON).result =
          .error ("failed to save collection event: " ++ err) ∧
        putsOf (CreateCollectionEvent json stub c q eventJSON).calls = [(event.ID, bytes)]) ∨
     (∃ bytes, json.marshalCollectionEvent (approved event) = .ok bytes ∧
        stub.PutState event.ID bytes = .ok () ∧
        (CreateCollectionEvent json stub c q eventJSON).result = .ok () ∧
        putsOf (CreateCollectionEvent json stub c q eventJSON).calls = [(event.ID, bytes)])) := by
  have hcons' : validateConservationLimits (approved event).Species (approved event).Quantity =
      .ok () := hcons
  rw [create_geo_pass json stub c q eventJSON event hjson hseason hgeo,
    track_pass json stub c q (approved event) _ q' hlimit htrack]
  cases hm : json.marshalCollectionEvent (approved event) with
  | error err =>
    rw [finish_marshal_error json stub c q' (approved event) _ _ err hcons' hm]
    refine ⟨rfl, Or.inl ⟨err, rfl, rfl, ?_⟩⟩
    simp only [putsOf_append, putsOf_map_CreateAlert]
    rfl
  | ok bytes =>
    cases hp : stub.PutState event.ID bytes with
    | error err =>
      rw [finish_put_error json stub c q' (approved event) _ _ bytes err hcons' hm hp]
      refine ⟨rfl, Or.inr (Or.inl ⟨bytes, err, rfl, hp, rfl, ?_⟩)⟩
      simp only [putsOf_append, putsOf_map_CreateAlert]
      rfl
    | ok u =>
      rw [finish_success json stub c q' (approved event) _ _ bytes hcons' hm hp]
      refine ⟨rfl, Or.inr (Or.inr ⟨bytes, rfl, hp, rfl, ?_⟩)⟩
      simp only [putsOf_append, putsOf_map_CreateAlert]
      rfl

theorem create_written (eventJSON : String) (event : CollectionEvent)
    (hjson : json.unmarshalCollectionEvent eventJSON = .ok event) :
    ((∃ err, (CreateCollectionEvent json stub c q eventJSON).result = .error err) ∧
      putsOf (CreateCollectionEvent json stub c q eventJSON).calls = []) ∨
    (∃ bytes, json.marshalCollectionEvent (approved event) = .ok bytes ∧
      validateGeoFencing event.Latitude event.Longitude event.Species = true ∧
      putsOf (CreateCollectionEvent json stub c q eventJSON).calls = [(event.ID, bytes)] ∧
      (CreateCollectionEvent json stub c q eventJSON).event = some (approved event) ∧
      ((CreateCollectionEvent json stub c q eventJSON).result = .ok () ∨
        ∃ err, stub.PutState event.ID bytes = .error err ∧
          (CreateCollectionEvent json stub c q eventJSON).result =
            .error ("failed to save collection event: " ++ err))) := by
  by_cases hpass :
      c.ValidateSeasonWindow event.Species event.HarvestDate event.ZoneName = .ok true ∧
      validateGeoFencing event.Latitude event.Longitude event.Species = true ∧
      c.ValidateHarvestLimit q event.Species event.ZoneName c.getCurrentSeason
        event.Quantity = .ok true ∧
      validateConservationLimits event.Species event.Quantity = .ok ()
  · obtain ⟨hs, hg, hl, hc⟩ := hpass
    cases ht : c.TrackHarvestQuantity q event.Species event.ZoneName c.getCurrentSeason
      event.Quantity with
    | error err =>
      left
      rw [create_geo_pass json stub c q eventJSON event hjson hs hg,
        track_error json stub c q (approved event) _ err hl ht]
      exact ⟨⟨_, rfl⟩, rfl⟩
    | ok q' =>
      obtain ⟨hev, h | h | h⟩ := create_passing json stub c q eventJSON event q' hjson hs hg hl
        ht hc
      · obtain ⟨err, _, hres, hputs⟩ := h
        exact Or.inl ⟨⟨_, hres⟩, hputs⟩
      · obtain ⟨bytes, err, hm, hp, hres, hputs⟩ := h
        exact Or.inr ⟨bytes, hm, hg, hputs, hev, Or.inr ⟨err, hp, hres⟩⟩
      · obtain ⟨bytes, hm, _, hres, hputs⟩ := h
        exact Or.inr ⟨bytes, hm, hg, hputs, hev, Or.inl hres⟩
  · have h := create_not_pass json stub c q eventJSON event hjson hpass
    exact Or.inl ⟨h.1, putsOf_eq_nil _ (fun call hcall => (h.2 call hcall).1)⟩

theorem create_accepted (eventJSON : String) (event : CollectionEvent)
    (hjson : json.unmarshalCollectionEvent eventJSON = .ok event)
    (hok : (CreateCollectionEvent json stub c q eventJSON).result = .ok ()) :
    ∃ bytes, json.marshalCollectionEvent (approved event) = .ok bytes ∧
      putsOf (CreateCollectionEvent json stub c q eventJSON).calls = [(event.ID, bytes)] ∧
      (CreateCollectionEvent json stub c q eventJSON).event = some (approved event) := by
  rcases create_written json stub c q eventJSON event hjson with
    ⟨⟨err, herr⟩, _⟩ | ⟨bytes, hm, _, hputs, hev, _⟩
  · rw [hok] at herr
    cases herr
  · exact ⟨bytes, hm, hputs, hev⟩

end writes

/-! ## Status and zone flag of a persisted collection event -/

section persisted

variable {Q : Type} (json : Json) (stub : Stub) (c : Collaborators Q) (q : Q)

theorem lab_verified_outcome :
    (CreateCollectionEvent labJson fixtureStub fixtureCollaborators fixtureQuota
      "json:CE-V").result = .ok () ∧
    putsOf (CreateCollectionEvent labJson fixtureStub fixtureCollaborators fixtureQuota
      "json:CE-V").calls = [("CE-V", "json:CE-V:true:verified")] ∧
    (CreateCollectionEvent labJson fixtureStub fixtureCollaborators fixtureQuota
      "json:CE-V").event = some (approved eventVerified) := by
  have hjson : labJson.unmarshalCollectionEvent "json:CE-V" = .ok eventVerified := by
    simp [labJson]
  have hseason : fixtureCollaborators.ValidateSeasonWindow eventVerified.Species
      eventVerified.HarvestDate eventVerified.ZoneName = .ok true := by
    simp [fixtureCollaborators, eventVerified]
  have hgeo : validateGeoFencing eventVerified.Latitude eventVerified.Longitude
      eventVerified.Species = true := by
    rw [validateGeoFencing_eq_true_iff]
    simp [eventVerified]
    norm_num
  have hlimit : fixtureCollaborators.ValidateHarvestLimit fixtureQuota eventVerified.Species
      eventVerified.ZoneName fixtureCollaborators.getCurrentSeason eventVerified.Quantity =
      .ok true := by
    simp [fixtureCollaborators, eventVerified, checkLimit, fixtureQuota]
    norm_num
  have hcons : validateConservationLimits eventVerified.Species eventVerified.Quantity =
      .ok () :=
    validateConservationLimits_of_not_mem _ _ (by simp [eventVerified])
  have hmarshal : labJson.marshalCollectionEvent (approved eventVerified) =
      .ok "json:CE-V:true:verified" := by
    simp [labJson, approved, eventVerified]
    rfl
  obtain ⟨hev, h | h | h⟩ := create_passing labJson fixtureStub fixtureCollaborators
    fixtureQuota "json:CE-V" eventVerified _ hjson hseason hgeo hlimit rfl hcons
  · obtain ⟨err, hm, _⟩ := h
    rw [hmarshal] at hm
    cases hm
  · obtain ⟨bytes, err, _, hp, _⟩ := h
    cases hp
  · obtain ⟨bytes, hm, _, hres, hputs⟩ := h
    rw [hmarshal] at hm
    injection hm with hm
    subst hm
    exact ⟨hres, hputs, hev⟩

/-- C14 (counterexample): an acceptable Tulsi harvest submitted with status "verified"
is accepted, and the record written under its ID carries the status "verified", not
"pending". -/
theorem C14_status_pending_counterexample :
    (CreateCollectionEvent labJson fixtureStub fixtureCollaborators fixtureQuota
      "json:CE-V").result = .ok () ∧
    putsOf (CreateCollectionEvent labJson fixtureStub fixtureCollaborators fixtureQuota
      "json:CE-V").calls = [("CE-V", "json:CE-V:true:verified")] ∧
    ∃ record, (CreateCollectionEvent labJson fixtureStub fixtureCollaborators fixtureQuota
        "json:CE-V").event = some record ∧
      labJson.marshalCollectionEvent record = .ok "json:CE-V:true:verified" ∧
      record.Status = "verified" ∧ record.Status ≠ "pending" :=
  ⟨lab_verified_outcome.1, lab_verified_outcome.2.1, approved eventVerified,
    lab_verified_outcome.2.2, rfl, rfl, by decide⟩

/-- C14 (amended): every collection event that CreateCollectionEvent accepts is written
once, under its ID, with status "pending" when the input's status is empty and with the
status the caller supplied otherwise. -/
theorem C14_accepted_status_pending_or_supplied (eventJSON : String) (event : CollectionEvent)
    (hjson : json.unmarshalCollectionEvent eventJSON = .ok event)
    (haccepted : (CreateCollectionEvent json stub c q eventJSON).result = .ok ()) :
    ∃ record bytes,
      (CreateCollectionEvent json stub c q eventJSON).event = some record ∧
      json.marshalCollectionEvent record = .ok bytes ∧
      putsOf (CreateCollectionEvent json stub c q eventJSON).calls = [(event.ID, bytes)] ∧
      (event.Status = "" → record.Status = "pending") ∧
      (event.Status ≠ "" → record.Status = event.Status) := by
  obtain ⟨bytes, hm, hputs, hev⟩ := create_accepted json stub c q eventJSON event hjson haccepted
  refine ⟨approved event, bytes, hev, hm, hputs, ?_, ?_⟩
  · intro h
    simp [approved, h]
  · intro h
    simp [approved, h]

theorem fixture_neem70_accepted :
    (CreateCollectionEvent fixtureJson fixtureStub fixtureCollaborators fixtureQuota
      "json:CE-O").result = .ok () := by
  have hlimit : fixtureCollaborators.ValidateHarvestLimit fixtureQuota eventNeem70.Species
      eventNeem70.ZoneName fixtureCollaborators.getCurrentSeason eventNeem70.Quantity =
      .ok true := by
    simp [fixtureCollaborators, eventNeem70, checkLimit, fixtureQuota]
    norm_num
  have hcons : validateConservationLimits eventNeem70.Species eventNeem70.Quantity = .ok () :=
    validateConservationLimits_of_not_mem _ _ (by simp [eventNeem70])
  rw [create_success fixtureJson fixtureStub fixtureCollaborators fixtureQuota "json:CE-O"
    eventNeem70 _ "json:CE-O" fixture_unmarshal_neem70 fixture_neem70_season fixture_neem70_geo
    hlimit rfl hcons rfl rfl]

/-- C14 (witness): a 70 kg Neem harvest submitted with an empty status against an empty
ledger is accepted and written with status "pending". -/
theorem C14_accepted_status_pending_or_supplied_witness :
    eventNeem70.Status = "" ∧
    ∃ record bytes,
      (CreateCollectionEvent fixtureJson fixtureStub fixtureCollaborators fixtureQuota
        "json:CE-O").event = some record ∧
      fixtureJson.marshalCollectionEvent record = .ok bytes ∧
      putsOf (CreateCollectionEvent fixtureJson fixtureStub fixtureCollaborators fixtureQuota
        "json:CE-O").calls = [("CE-O", bytes)] ∧
      record.Status = "pending" :=
  ⟨rfl,
    (C14_accepted_status_pending_or_supplied fixtureJson fixtureStub fixtureCollaborators
      fixtureQuota "json:CE-O" eventNeem70 fixture_unmarshal_neem70
      fixture_neem70_accepted).elim
      fun record h => h.elim fun bytes hb =>
        ⟨record, bytes, hb.1, hb.2.1, hb.2.2.1, hb.2.2.2.1 rfl⟩⟩

/-- C17: every write CreateCollectionEvent makes for a decoded submission is under the
submission's ID and holds the event as updated by the geo-fence stage, whose
approvedZone flag is true and whose geo-fence verdict was true; a submission with a
false verdict is never written; and the written record does not depend on the
approvedZone value the caller supplied. -/
theorem C17_written_event_is_approved (eventJSON : String) (event : CollectionEvent)
    (hjson : json.unmarshalCollectionEvent eventJSON = .ok event) :
    (∀ key bytes,
      (key, bytes) ∈ putsOf (CreateCollectionEvent json stub c q eventJSON).calls →
      key = event.ID ∧
      ∃ record, (CreateCollectionEvent json stub c q eventJSON).event = some record ∧
        json.marshalCollectionEvent record = .ok bytes ∧
        record.ApprovedZone = true ∧
        record.ApprovedZone =
          validateGeoFencing event.Latitude event.Longitude event.Species ∧
        ∀ supplied, record = approved { event with ApprovedZone := supplied }) ∧
    (validateGeoFencing event.Latitude event.Longitude event.Species = false →
      putsOf (CreateCollectionEvent json stub c q eventJSON).calls = []) := by
  rcases create_written json stub c q eventJSON event hjson with
    ⟨_, hnil⟩ | ⟨bytes, hm, hg, hputs, hev, _⟩
  · refine ⟨?_, fun _ => hnil⟩
    intro key b hmem
    rw [hnil] at hmem
    cases hmem
  · refine ⟨?_, fun hfalse => ?_⟩
    · intro key b hmem
      rw [hputs] at hmem
      simp only [List.mem_singleton, Prod.mk.injEq] at hmem
      obtain ⟨rfl, rfl⟩ := hmem
      exact ⟨rfl, approved event, hev, hm, rfl, hg.symm, fun _ => rfl⟩
    · rw [hg] at hfalse
      cases hfalse

/-- C17 (witness): the Tulsi harvest submitted with approvedZone false is written with
the flag set to true. -/
theorem C17_written_event_is_approved_witness :
    eventVerified.ApprovedZone = false ∧
    ∃ record, (CreateCollectionEvent labJson fixtureStub fixtureCollaborators fixtureQuota
        "json:CE-V").event = some record ∧
      labJson.marshalCollectionEvent record = .ok "json:CE-V:true:verified" ∧
      record.ApprovedZone = true :=
  ⟨rfl,
    ((C17_written_event_is_approved labJson fixtureStub fixtureCollaborators fixtureQuota
      "json:CE-V" eventVerified (by simp [labJson])).1 "CE-V" "json:CE-V:true:verified"
      (by rw [lab_verified_outcome.2.1]; exact List.mem_singleton.mpr rfl)).2.elim
      fun record h => ⟨record, h.1, h.2.1, h.2.2.1⟩⟩

end persisted

/-! ## Effects of the batch-status block -/

theorem writesOf_append (xs ys : List Effect) :
    writesOf (xs ++ ys) = writesOf xs ++ writesOf ys := by
  simp [writesOf, List.filterMap_append]

theorem batchUpdatesOf_append (xs ys : List Effect) :
    batchUpdatesOf (xs ++ ys) = batchUpdatesOf xs ++ batchUpdatesOf ys := by
  simp [batchUpdatesOf, List.filterMap_append]

theorem effectAlerts_append (xs ys : List Effect) :
    effectAlerts (xs ++ ys) = effectAlerts xs ++ effectAlerts ys := by
  simp [effectAlerts, List.filterMap_append]

theorem eventsOf_append (xs ys : List Effect) :
    eventsOf (xs ++ ys) = eventsOf xs ++ eventsOf ys := by
  simp [eventsOf, List.filterMap_append]

theorem updateBatch_cases (u : String → String → Except String Unit) (batchID label : String) :
    (batchID = "" ∧ updateBatch u batchID label = []) ∨
    (batchID ≠ "" ∧ u batchID label = .ok () ∧
      updateBatch u batchID label = [Effect.UpdateBatchStatus batchID label]) ∨
    (batchID ≠ "" ∧ ∃ err, u batchID label = .error err ∧
      updateBatch u batchID label =
        [Effect.UpdateBatchStatus batchID label,
         Effect.log ("Warning: Failed to update batch status: " ++ err)]) := by
  unfold updateBatch
  by_cases hb : batchID = ""
  · exact Or.inl ⟨hb, by simp [hb]⟩
  · cases hu : u batchID label with
    | error err => exact Or.inr (Or.inr ⟨hb, err, rfl, by simp [hb]⟩)
    | ok v => exact Or.inr (Or.inl ⟨hb, rfl, by simp [hb]⟩)

theorem updateBatch_writes (u : String → String → Except String Unit) (batchID label : String) :
    writesOf (updateBatch u batchID label) = [] := by
  rcases updateBatch_cases u batchID label with ⟨_, h⟩ | ⟨_, _, h⟩ | ⟨_, err, _, h⟩ <;>
    rw [h] <;> rfl

theorem updateBatch_alerts (u : String → String → Except String Unit) (batchID label : String) :
    effectAlerts (updateBatch u batchID label) = [] := by
  rcases updateBatch_cases u batchID label with ⟨_, h⟩ | ⟨_, _, h⟩ | ⟨_, err, _, h⟩ <;>
    rw [h] <;> rfl

theorem updateBatch_events (u : String → String → Except String Unit) (batchID label : String) :
    eventsOf (updateBatch u batchID label) = [] := by
  rcases updateBatch_cases u batchID label with ⟨_, h⟩ | ⟨_, _, h⟩ | ⟨_, err, _, h⟩ <;>
    rw [h] <;> rfl

theorem updateBatch_updates (u : String → String → Except String Unit)
    (batchID label : String) :
    batchUpdatesOf (updateBatch u batchID label) =
      if batchID = "" then [] else [(batchID, label)] := by
  rcases updateBatch_cases u batchID label with ⟨hb, h⟩ | ⟨hb, _, h⟩ | ⟨hb, err, _, h⟩
  · rw [h, if_pos hb]; rfl
  · rw [h, if_neg hb]; rfl
  · rw [h, if_neg hb]; rfl

/-! ## CreateQualityTest: the exit paths -/

section qualityTest

variable (json : Json) (enc : JsonRecords) (stub : Stub)
  (u : String → String → Except String Unit)

theorem applyQualityGate_fail (test : QualityTest) (h : validateQualityGates test = false) :
    applyQualityGate test =
      ({ test with OverallResult := "fail", Status := "rejected" },
        [Effect.CreateAlert (qualityAlert test)]) := by
  simp [applyQualityGate, h]

theorem applyQualityGate_pass (test : QualityTest) (h : validateQualityGates test = true) :
    applyQualityGate test =
      ({ test with
          OverallResult := "pass",
          Status := if test.Status = "" then "approved" else test.Status }, []) := by
  simp [applyQualityGate, h]

theorem applyQualityGate_keeps (test : QualityTest) :
    (applyQualityGate test).1.ID = test.ID ∧ (applyQualityGate test).1.BatchID = test.BatchID := by
  cases h : validateQualityGates test
  · rw [applyQualityGate_fail test h]; exact ⟨rfl, rfl⟩
  · rw [applyQualityGate_pass test h]; exact ⟨rfl, rfl⟩

theorem applyQualityGate_effects (test : QualityTest) :
    writesOf (applyQualityGate test).2 = [] ∧ batchUpdatesOf (applyQualityGate test).2 = [] ∧
    eventsOf (applyQualityGate test).2 = [] := by
  cases h : validateQualityGates test
  · rw [applyQualityGate_fail test h]; exact ⟨rfl, rfl, rfl⟩
  · rw [applyQualityGate_pass test h]; exact ⟨rfl, rfl, rfl⟩

theorem createQualityTest_unmarshal_error (testJSON err : String)
    (hjson : json.unmarshalQualityTest testJSON = .error err) :
    CreateQualityTest json enc stub u testJSON =
      { result := .error ("failed to unmarshal test: " ++ err), effects := [],
        record := none } := by
  simp [CreateQualityTest, hjson]

theorem createQualityTest_marshal_error (testJSON : String) (test : QualityTest) (err : String)
    (hjson : json.unmarshalQualityTest testJSON = .ok test)
    (hmarshal : enc.marshalQualityTest (applyQualityGate test).1 = .error err) :
    CreateQualityTest json enc stub u testJSON =
      { result := .error ("failed to marshal test: " ++ err),
        effects := (applyQualityGate test).2, record := some (applyQualityGate test).1 } := by
  simp [CreateQualityTest, hjson, hmarshal]

theorem createQualityTest_put_error (testJSON : String) (test : QualityTest)
    (bytes err : String)
    (hjson : json.unmarshalQualityTest testJSON = .ok test)
    (hmarshal : enc.marshalQualityTest (applyQualityGate test).1 = .ok bytes)
    (hput : stub.PutState test.ID bytes = .error err) :
    CreateQualityTest json enc stub u testJSON =
      { result := .error ("failed to save quality test: " ++ err),
        effects := (applyQualityGate test).2 ++ [Effect.PutState test.ID bytes],
        record := some (applyQualityGate test).1 } := by
  simp [CreateQualityTest, hjson, hmarshal, hput, (applyQualityGate_keeps test).1]

theorem createQualityTest_saved (testJSON : String) (test : QualityTest) (bytes : String)
    (hjson : json.unmarshalQualityTest testJSON = .ok test)
    (hmarshal : enc.marshalQualityTest (applyQualityGate test).1 = .ok bytes)
    (hput : stub.PutState test.ID bytes = .ok ()) :
    CreateQualityTest json enc stub u testJSON =
      { result := .ok (),
        effects := (applyQualityGate test).2 ++ [Effect.PutState test.ID bytes] ++
          updateBatch u test.BatchID "testing" ++
          [Effect.SetEvent "QualityTestCreated"
            (qualityTestPayload (applyQualityGate test).1)],
        record := some (applyQualityGate test).1 } := by
  simp [CreateQualityTest, hjson, hmarshal, hput, (applyQualityGate_keeps test).1,
    (applyQualityGate_keeps test).2]

end qualityTest

/-! ## The batch-status update is a side channel -/

section sideChannel

variable (json : Json) (enc : JsonRecords) (stub : Stub)

theorem createQualityTest_ignores (testJSON : String) :
    IgnoresBatchStatus (fun u => CreateQualityTest json enc stub u testJSON) := by
  intro u1 u2
  cases hjson : json.unmarshalQualityTest testJSON with
  | error err =>
    simp only [createQualityTest_unmarshal_error json enc stub _ testJSON err hjson, and_self]
  | ok test =>
    cases hm : enc.marshalQualityTest (applyQualityGate test).1 with
    | error err =>
      simp only [createQualityTest_marshal_error json enc stub _ testJSON test err hjson hm,
        and_self]
    | ok bytes =>
      cases hp : stub.PutState test.ID bytes with
      | error err =>
        simp only [createQualityTest_put_error json enc stub _ testJSON test bytes err hjson
          hm hp, and_self]
      | ok v =>
        simp only [createQualityTest_saved json enc stub _ testJSON test bytes hjson hm hp,
          writesOf_append, batchUpdatesOf_append, eventsOf_append, updateBatch_writes,
          updateBatch_updates, updateBatch_events, and_self]

theorem createProcessingStep_saved (u : String → String → Except String Unit)
    (stepJSON : String) (step : ProcessingStep) (bytes : String)
    (hjson : json.unmarshalProcessingStep stepJSON = .ok step)
    (hmarshal : enc.marshalProcessingStep
      (if step.Status = "" then { step with Status := "completed" } else step) = .ok bytes)
    (hput : stub.PutState step.ID bytes = .ok ()) :
    CreateProcessingStep json enc stub u stepJSON =
      { result := .ok (),
        effects := [Effect.PutState step.ID bytes] ++
          updateBatch u step.BatchID "processing" ++
          [Effect.SetEvent "ProcessingStepCreated" (processingStepPayload
            (if step.Status = "" then { step with Status := "completed" } else step))],
        record := some (if step.Status = "" then { step with Status := "completed" }
          else step) } := by
  have hid : (if step.Status = "" then { step with Status := "completed" } else step).ID =
      step.ID := by split_ifs <;> rfl
  have hb : (if step.Status = "" then { step with Status := "completed" } else step).BatchID =
      step.BatchID := by split_ifs <;> rfl
  simp only [CreateProcessingStep, hjson, hmarshal, hid, hb, hput]

theorem createProcessingStep_ignores (stepJSON : String) :
    IgnoresBatchStatus (fun u => CreateProcessingStep json enc stub u stepJSON) := by
  intro u1 u2
  simp only [CreateProcessingStep]
  cases json.unmarshalProcessingStep stepJSON with
  | error err => exact ⟨rfl, rfl, rfl, rfl, rfl⟩
  | ok step =>
    dsimp only
    generalize (if step.Status = "" then { step with Status := "completed" } else step) = final
    cases enc.marshalProcessingStep final with
    | error err => exact ⟨rfl, rfl, rfl, rfl, rfl⟩
    | ok bytes =>
      dsimp only
      cases stub.PutState final.ID bytes with
      | error err => exact ⟨rfl, rfl, rfl, rfl, rfl⟩
      | ok v =>
        dsimp only
        simp only [writesOf_append, batchUpdatesOf_append, eventsOf_append,
          updateBatch_writes, updateBatch_updates, updateBatch_events, and_self]

theorem createProduct_saved (u : String → String → Except String Unit)
    (productJSON : String) (product : Product) (bytes : String)
    (hjson : json.unmarshalProduct productJSON = .ok product)
    (hmarshal : enc.marshalProduct
      (if product.Status = "" then { product with Status := "manufactured" } else product) =
      .ok bytes)
    (hput : stub.PutState product.ID bytes = .ok ()) :
    CreateProduct json enc stub u productJSON =
      { result := .ok (),
        effects := [Effect.PutState product.ID bytes] ++
          updateBatch u product.BatchID "manufactured" ++
          [Effect.SetEvent "ProductCreated" (productPayload
            (if product.Status = "" then { product with Status := "manufactured" }
              else product))],
        record := some (if product.Status = "" then { product with Status := "manufactured" }
          else product) } := by
  have hid : (if product.Status = "" then { product with Status := "manufactured" }
      else product).ID = product.ID := by split_ifs <;> rfl
  have hb : (if product.Status = "" then { product with Status := "manufactured" }
      else product).BatchID = product.BatchID := by split_ifs <;> rfl
  simp only [CreateProduct, hjson, hmarshal, hid, hb, hput]

theorem createProduct_ignores (productJSON : String) :
    IgnoresBatchStatus (fun u => CreateProduct json enc stub u productJSON) := by
  intro u1 u2
  simp only [CreateProduct]
  cases json.unmarshalProduct productJSON with
  | error err => exact ⟨rfl, rfl, rfl, rfl, rfl⟩
  | ok product =>
    dsimp only
    generalize (if product.Status = "" then { product with Status := "manufactured" }
      else product) = final
    cases enc.marshalProduct final with
    | error err => exact ⟨rfl, rfl, rfl, rfl, rfl⟩
    | ok bytes =>
      dsimp only
      cases stub.PutState final.ID bytes with
      | error err => exact ⟨rfl, rfl, rfl, rfl, rfl⟩
      | ok v =>
        dsimp only
        simp only [writesOf_append, batchUpdatesOf_append, eventsOf_append,
          updateBatch_writes, updateBatch_updates, updateBatch_events, and_self]

theorem parseResults_effects (resultsJSON : String) :
    writesOf (parseResults enc resultsJSON).2 = [] ∧
    batchUpdatesOf (parseResults enc resultsJSON).2 = [] ∧
    eventsOf (parseResults enc resultsJSON).2 = [] := by
  unfold parseResults
  by_cases h : resultsJSON = ""
  · simp only [h, ne_eq, not_true_eq_false, if_false]
    exact ⟨rfl, rfl, rfl⟩
  · simp only [ne_eq, h, not_false_eq_true, if_true]
    cases enc.unmarshalResults resultsJSON <;> exact ⟨rfl, rfl, rfl⟩

theorem recordQCCertificate_saved (u : String → String → Except String Unit)
    (certificateId testId batchId batchNumber speciesName testType labId labName
      overallResult issuedDate testedBy resultsJSON bytes : String)
    (hmarshal : enc.marshalQCCertificate
      { ID := certificateId, Type_ := "QCCertificate", CertificateID := certificateId,
        TestID := testId, BatchID := batchId, BatchNumber := batchNumber,
        SpeciesName := speciesName, TestType := testType, LabID := labId, LabName := labName,
        OverallResult := overallResult, IssuedDate := issuedDate, TestedBy := testedBy,
        Results := (parseResults enc resultsJSON).1, Timestamp := issuedDate } = .ok bytes)
    (hput : stub.PutState certificateId bytes = .ok ()) :
    RecordQCCertificate enc stub u certificateId testId batchId batchNumber speciesName
        testType labId labName overallResult issuedDate testedBy resultsJSON =
      { result := .ok (),
        effects := (parseResults enc resultsJSON).2 ++
          [Effect.PutState certificateId bytes] ++
          updateBatch u batchId "quality_tested" ++
          [Effect.SetEvent "QCCertificateRecorded"
            (certificatePayload certificateId testId batchId labId overallResult issuedDate),
           Effect.log ("QC Certificate recorded: " ++ certificateId ++ " for batch " ++
             batchId ++ " (result: " ++ overallResult ++ ")")],
        record := some
          { ID := certificateId, Type_ := "QCCertificate", CertificateID := certificateId,
            TestID := testId, BatchID := batchId, BatchNumber := batchNumber,
            SpeciesName := speciesName, TestType := testType, LabID := labId,
            LabName := labName, OverallResult := overallResult, IssuedDate := issuedDate,
            TestedBy := testedBy, Results := (parseResults enc resultsJSON).1,
            Timestamp := issuedDate } } := by
  simp only [RecordQCCertificate, hmarshal, hput]

theorem recordQCCertificate_ignores
    (certificateId testId batchId batchNumber speciesName testType labId labName
      overallResult issuedDate testedBy resultsJSON : String) :
    IgnoresBatchStatus (fun u => RecordQCCertificate enc stub u certificateId testId batchId
      batchNumber speciesName testType labId labName overallResult issuedDate testedBy
      resultsJSON) := by
  intro u1 u2
  simp only [RecordQCCertificate]
  generalize (parseResults enc resultsJSON).2 = parsed
  generalize (parseResults enc resultsJSON).1 = results
  cases enc.marshalQCCertificate
      { ID := certificateId, Type_ := "QCCertificate", CertificateID := certificateId,
        TestID := testId, BatchID := batchId, BatchNumber := batchNumber,
        SpeciesName := speciesName, TestType := testType, LabID := labId, LabName := labName,
        OverallResult := overallResult, IssuedDate := issuedDate, TestedBy := testedBy,
        Results := results, Timestamp := issuedDate } with
  | error err => exact ⟨rfl, rfl, rfl, rfl, rfl⟩
  | ok bytes =>
    dsimp only
    cases stub.PutState certificateId bytes with
    | error err => exact ⟨rfl, rfl, rfl, rfl, rfl⟩
    | ok v =>
      dsimp only
      simp only [writesOf_append, batchUpdatesOf_append, eventsOf_append,
        updateBatch_writes, updateBatch_updates, updateBatch_events, and_self]

end sideChannel

/-! ## What CreateQualityTest stores -/

section stored

variable (json : Json) (enc : JsonRecords) (stub : Stub)
  (u : String → String → Except String Unit)

theorem createQualityTest_summary (testJSON : String) (test : QualityTest)
    (hjson : json.unmarshalQualityTest testJSON = .ok test) :
    (CreateQualityTest json enc stub u testJSON).record = some (applyQualityGate test).1 ∧
    effectAlerts (CreateQualityTest json enc stub u testJSON).effects =
      effectAlerts (applyQualityGate test).2 ∧
    ((∃ err, enc.marshalQualityTest (applyQualityGate test).1 = .error err ∧
        (CreateQualityTest json enc stub u testJSON).result =
          .error ("failed to marshal test: " ++ err) ∧
        writesOf (CreateQualityTest json enc stub u testJSON).effects = []) ∨
     (∃ bytes err, enc.marshalQualityTest (applyQualityGate test).1 = .ok bytes ∧
        stub.PutState test.ID bytes = .error err ∧
        (CreateQualityTest json enc stub u testJSON).result =
          .error ("failed to save quality test: " ++ err) ∧
        writesOf (CreateQualityTest json enc stub u testJSON).effects = [(test.ID, bytes)]) ∨
     (∃ bytes, enc.marshalQualityTest (applyQualityGate test).1 = .ok bytes ∧
        stub.PutState test.ID bytes = .ok () ∧
        (CreateQualityTest json enc stub u testJSON).result = .ok () ∧
        writesOf (CreateQualityTest json enc stub u testJSON).effects = [(test.ID, bytes)])) := by
  have hw := (applyQualityGate_effects test).1
  cases hm : enc.marshalQualityTest (applyQualityGate test).1 with
  | error err =>
    rw [createQualityTest_marshal_error json enc stub u testJSON test err hjson hm]
    exact ⟨rfl, rfl, Or.inl ⟨err, rfl, rfl, hw⟩⟩
  | ok bytes =>
    cases hp : stub.PutState test.ID bytes with
    | error err =>
      rw [createQualityTest_put_error json enc stub u testJSON test bytes err hjson hm hp]
      refine ⟨rfl, ?_, Or.inr (Or.inl ⟨bytes, err, rfl, hp, rfl, ?_⟩)⟩
      · rw [effectAlerts_append]
        exact List.append_nil _
      · rw [writesOf_append, hw]
        rfl
    | ok v =>
      rw [createQualityTest_saved json enc stub u testJSON test bytes hjson hm hp]
      refine ⟨rfl, ?_, Or.inr (Or.inr ⟨bytes, rfl, hp, rfl, ?_⟩)⟩
      · have e1 : effectAlerts [Effect.PutState test.ID bytes] = [] := rfl
        have e2 : effectAlerts [Effect.SetEvent "QualityTestCreated"
            (qualityTestPayload (applyQualityGate test).1)] = [] := rfl
        simp only [effectAlerts_append, updateBatch_alerts, e1, e2, List.append_nil]
      · simp only [writesOf_append, updateBatch_writes, hw]
        rfl

theorem lab_unmarshal_failing :
    labJson.unmarshalQualityTest "json:QT-F" = .ok testFailing := by
  simp [labJson, labTests, List.lookup]

theorem lab_unmarshal_blank :
    labJson.unmarshalQualityTest "json:QT-P" = .ok testPassingBlank := by
  simp [labJson, labTests, List.lookup]

theorem lab_unmarshal_pending :
    labJson.unmarshalQualityTest "json:QT-Q" = .ok testPassingPending := by
  simp [labJson, labTests, List.lookup]

theorem lab_failing_gate : validateQualityGates testFailing = false := by
  simp [validateQualityGates, testFailing]
  norm_num

theorem lab_blank_gate : validateQualityGates testPassingBlank = true := by
  simp [validateQualityGates, testPassingBlank]
  norm_num

theorem lab_pending_gate : validateQualityGates testPassingPending = true := by
  simp [validateQualityGates, testPassingPending]
  norm_num

theorem lab_failing_marshal :
    labRecords.marshalQualityTest (applyQualityGate testFailing).1 =
      .ok "json:QT-F:fail:rejected" := by
  rw [applyQualityGate_fail testFailing lab_failing_gate]
  rfl

theorem lab_blank_marshal :
    labRecords.marshalQualityTest (applyQualityGate testPassingBlank).1 =
      .ok "json:QT-P:pass:approved" := by
  rw [applyQualityGate_pass testPassingBlank lab_blank_gate]
  rfl

theorem lab_pending_marshal :
    labRecords.marshalQualityTest (applyQualityGate testPassingPending).1 =
      .ok "json:QT-Q:pass:pending" := by
  rw [applyQualityGate_pass testPassingPending lab_pending_gate]
  rfl

theorem lab_saved (testJSON : String) (test : QualityTest) (bytes : String)
    (hjson : labJson.unmarshalQualityTest testJSON = .ok test)
    (hmarshal : labRecords.marshalQualityTest (applyQualityGate test).1 = .ok bytes) :
    (CreateQualityTest labJson labRecords fixtureStub u testJSON).result = .ok () ∧
    writesOf (CreateQualityTest labJson labRecords fixtureStub u testJSON).effects =
      [(test.ID, bytes)] ∧
    (CreateQualityTest labJson labRecords fixtureStub u testJSON).record =
      some (applyQualityGate test).1 := by
  obtain ⟨hrec, _, h | h | h⟩ :=
    createQualityTest_summary labJson labRecords fixtureStub u testJSON test hjson
  · obtain ⟨err, hm, _⟩ := h
    rw [hmarshal] at hm
    cases hm
  · obtain ⟨b, err, _, hp, _⟩ := h
    cases hp
  · obtain ⟨b, hm, _, hres, hw⟩ := h
    rw [hmarshal] at hm
    injection hm with hm
    subst hm
    exact ⟨hres, hw, hrec⟩

/-- C12 (counterexample): two submissions that both pass the quality gate, one with an
empty status and one with status "pending", are stored with different statuses,
"approved" and "pending". -/
theorem C12_status_not_determined_counterexample :
    validateQualityGates testPassingBlank = validateQualityGates testPassingPending ∧
    writesOf (CreateQualityTest labJson labRecords fixtureStub batchStatusOk
      "json:QT-P").effects = [("QT-P", "json:QT-P:pass:approved")] ∧
    writesOf (CreateQualityTest labJson labRecords fixtureStub batchStatusOk
      "json:QT-Q").effects = [("QT-Q", "json:QT-Q:pass:pending")] ∧
    ∃ first second,
      (CreateQualityTest labJson labRecords fixtureStub batchStatusOk "json:QT-P").record =
        some first ∧
      (CreateQualityTest labJson labRecords fixtureStub batchStatusOk "json:QT-Q").record =
        some second ∧
      first.Status = "approved" ∧ second.Status = "pending" ∧ first.Status ≠ second.Status := by
  have h1 := lab_saved batchStatusOk "json:QT-P" testPassingBlank _ lab_unmarshal_blank
    lab_blank_marshal
  have h2 := lab_saved batchStatusOk "json:QT-Q" testPassingPending _ lab_unmarshal_pending
    lab_pending_marshal
  have e1 : (applyQualityGate testPassingBlank).1.Status = "approved" := by
    rw [applyQualityGate_pass testPassingBlank lab_blank_gate]
    rfl
  have e2 : (applyQualityGate testPassingPending).1.Status = "pending" := by
    rw [applyQualityGate_pass testPassingPending lab_pending_gate]
    rfl
  refine ⟨by rw [lab_blank_gate, lab_pending_gate], h1.2.1, h2.2.1, _, _, h1.2.2, h2.2.2, e1,
    e2, ?_⟩
  rw [e1, e2]
  decide

/-- C12 (amended): the overallResult of the record CreateQualityTest stores is a
function of the quality-gate verdict alone, "pass" when the gate passes and "fail" when
it fails, whatever the caller supplied. The status is "rejected" when the gate fails;
when the gate passes it is "approved" if the caller supplied an empty status and the
status the caller supplied otherwise. -/
theorem C12_stored_result_and_status (testJSON : String) (test : QualityTest)
    (hjson : json.unmarshalQualityTest testJSON = .ok test) :
    ∃ record, (CreateQualityTest json enc stub u testJSON).record = some record ∧
      (∀ key bytes,
        (key, bytes) ∈ writesOf (CreateQualityTest json enc stub u testJSON).effects →
        key = test.ID ∧ enc.marshalQualityTest record = .ok bytes) ∧
      (validateQualityGates test = true →
        record.OverallResult = "pass" ∧
        record.Status = if test.Status = "" then "approved" else test.Status) ∧
      (validateQualityGates test = false →
        record.OverallResult = "fail" ∧ record.Status = "rejected") := by
  obtain ⟨hrec, _, h⟩ := createQualityTest_summary json enc stub u testJSON test hjson
  refine ⟨(applyQualityGate test).1, hrec, ?_, ?_, ?_⟩
  · intro key bytes hmem
    rcases h with ⟨_, _, _, hw⟩ | ⟨b, _, hm, _, _, hw⟩ | ⟨b, hm, _, _, hw⟩
    · rw [hw] at hmem
      cases hmem
    · rw [hw] at hmem
      simp only [List.mem_singleton, Prod.mk.injEq] at hmem
      obtain ⟨rfl, rfl⟩ := hmem
      exact ⟨rfl, hm⟩
    · rw [hw] at hmem
      simp only [List.mem_singleton, Prod.mk.injEq] at hmem
      obtain ⟨rfl, rfl⟩ := hmem
      exact ⟨rfl, hm⟩
  · intro hpass
    rw [applyQualityGate_pass test hpass]
    exact ⟨rfl, rfl⟩
  · intro hfail
    rw [applyQualityGate_fail test hfail]
    exact ⟨rfl, rfl⟩

/-- C12 (witness): the failing test submitted as passed and approved is stored as
failed and rejected. -/
theorem C12_stored_result_and_status_witness :
    testFailing.OverallResult = "pass" ∧ testFailing.Status = "approved" ∧
    ∃ record,
      (CreateQualityTest labJson labRecords fixtureStub batchStatusOk "json:QT-F").record =
        some record ∧
      record.OverallResult = "fail" ∧ record.Status = "rejected" :=
  ⟨rfl, rfl,
    (C12_stored_result_and_status labJson labRecords fixtureStub batchStatusOk "json:QT-F"
      testFailing lab_unmarshal_failing).elim
      fun record h => ⟨record, h.1, h.2.2.2 lab_failing_gate⟩⟩

/-- C13 (counterexample): a test with 15% moisture fails the quality gate, yet
CreateQualityTest returns no error and writes the record under its ID. -/
theorem C13_failing_test_committed_counterexample :
    validateQualityGates testFailing = false ∧
    (CreateQualityTest labJson labRecords fixtureStub batchStatusOk "json:QT-F").result =
      .ok () ∧
    writesOf (CreateQualityTest labJson labRecords fixtureStub batchStatusOk
      "json:QT-F").effects = [("QT-F", "json:QT-F:fail:rejected")] :=
  have h := lab_saved batchStatusOk "json:QT-F" testFailing _ lab_unmarshal_failing
    lab_failing_marshal
  ⟨lab_failing_gate, h.1, h.2.1⟩

/-- C13 (amended): when a submitted quality test fails the quality gate,
CreateQualityTest emits one alert, the text built from the quality-failure template, and
stores the record with overallResult "fail" and status "rejected": the record is written
under the test ID as soon as it marshals, and the call returns no error when that write
succeeds. It returns an error only when marshalling or the store write fails. When the
test ID, batch ID and lab name hold no quote, backslash or control character, the alert
read as a JSON object has type quality_failure and severity high and names the test. -/
theorem C13_failing_test_is_recorded (testJSON : String) (test : QualityTest)
    (hjson : json.unmarshalQualityTest testJSON = .ok test)
    (hgate : validateQualityGates test = false) :
    effectAlerts (CreateQualityTest json enc stub u testJSON).effects = [qualityAlert test] ∧
    (PlainTest test →
      alertMember "alertType" (qualityAlert test) = some "quality_failure" ∧
      alertMember "severity" (qualityAlert test) = some "high" ∧
      alertMember "entityId" (qualityAlert test) = some test.ID) ∧
    ∃ record, (CreateQualityTest json enc stub u testJSON).record = some record ∧
      record.OverallResult = "fail" ∧ record.Status = "rejected" ∧
      (∀ bytes, enc.marshalQualityTest record = .ok bytes →
        writesOf (CreateQualityTest json enc stub u testJSON).effects = [(test.ID, bytes)] ∧
        (stub.PutState test.ID bytes = .ok () →
          (CreateQualityTest json enc stub u testJSON).result = .ok ())) ∧
      ((∃ err, (CreateQualityTest json enc stub u testJSON).result = .error err) →
        (∃ err, enc.marshalQualityTest record = .error err) ∨
        ∃ bytes err, enc.marshalQualityTest record = .ok bytes ∧
          stub.PutState test.ID bytes = .error err) := by
  obtain ⟨hrec, halerts, h⟩ := createQualityTest_summary json enc stub u testJSON test hjson
  have hg := applyQualityGate_fail test hgate
  refine ⟨?_, qualityAlert_label test, (applyQualityGate test).1, hrec, ?_, ?_, ?_, ?_⟩
  · rw [halerts, hg]
    rfl
  · rw [hg]
  · rw [hg]
  · intro bytes hbytes
    rcases h with ⟨err, hm, _⟩ | ⟨b, err, hm, hp, _, hw⟩ | ⟨b, hm, _, hres, hw⟩
    · rw [hbytes] at hm
      cases hm
    · rw [hbytes] at hm
      injection hm with hm
      subst hm
      refine ⟨hw, fun hok => ?_⟩
      rw [hp] at hok
      cases hok
    · rw [hbytes] at hm
      injection hm with hm
      subst hm
      exact ⟨hw, fun _ => hres⟩
  · rintro ⟨e, he⟩
    rcases h with ⟨err, hm, _⟩ | ⟨b, err, hm, hp, _⟩ | ⟨b, _, _, hres, _⟩
    · exact Or.inl ⟨err, hm⟩
    · exact Or.inr ⟨b, err, hm, hp⟩
    · rw [hres] at he
      cases he

/-- C13 (witness): for the 15% moisture test the quality-failure alert is the only
alert, it reads as quality_failure/high for QT-F, the stored record is failed and
rejected, it is written under QT-F and the call returns no error. -/
theorem C13_failing_test_is_recorded_witness :
    effectAlerts (CreateQualityTest labJson labRecords fixtureStub batchStatusFails
      "json:QT-F").effects = [qualityAlert testFailing] ∧
    (alertMember "alertType" (qualityAlert testFailing) = some "quality_failure" ∧
      alertMember "severity" (qualityAlert testFailing) = some "high" ∧
      alertMember "entityId" (qualityAlert testFailing) = some "QT-F") ∧
    ∃ record,
      (CreateQualityTest labJson labRecords fixtureStub batchStatusFails "json:QT-F").record =
        some record ∧
      record.OverallResult = "fail" ∧ record.Status = "rejected" :=
  have h := C13_failing_test_is_recorded labJson labRecords fixtureStub batchStatusFails
    "json:QT-F" testFailing lab_unmarshal_failing lab_failing_gate
  ⟨h.1, h.2.1 ⟨by decide, by decide, by decide⟩,
    h.2.2.elim fun record hr => ⟨record, hr.1, hr.2.1, hr.2.2.1⟩⟩

/-- C18: a failure of the batch-status update is never propagated. For each of
CreateQualityTest, CreateProcessingStep, RecordQCCertificate and CreateProduct and for
every answer `u` of UpdateBatchStatus (success or error): when the input decodes, the
record marshals and the store write succeeds, the call returns no error, the record is
the one built from the input, the one store write is that record under its ID, and
UpdateBatchStatus is called once, with the label "testing", "processing",
"quality_tested" or "manufactured", exactly when the batch ID is non-empty. On every
input the returned value, the record, the store writes, the updates attempted and the
published events are the same for any two answers of UpdateBatchStatus. -/
theorem C18_batch_status_failure_not_propagated
    (u : String → String → Except String Unit) :
    (∀ testJSON test bytes,
      json.unmarshalQualityTest testJSON = .ok test →
      enc.marshalQualityTest (applyQualityGate test).1 = .ok bytes →
      stub.PutState test.ID bytes = .ok () →
      (CreateQualityTest json enc stub u testJSON).result = .ok () ∧
      (CreateQualityTest json enc stub u testJSON).record = some (applyQualityGate test).1 ∧
      writesOf (CreateQualityTest json enc stub u testJSON).effects = [(test.ID, bytes)] ∧
      batchUpdatesOf (CreateQualityTest json enc stub u testJSON).effects =
        if test.BatchID = "" then [] else [(test.BatchID, "testing")]) ∧
    (∀ stepJSON step bytes,
      json.unmarshalProcessingStep stepJSON = .ok step →
      enc.marshalProcessingStep
        (if step.Status = "" then { step with Status := "completed" } else step) = .ok bytes →
      stub.PutState step.ID bytes = .ok () →
      (CreateProcessingStep json enc stub u stepJSON).result = .ok () ∧
      (CreateProcessingStep json enc stub u stepJSON).record =
        some (if step.Status = "" then { step with Status := "completed" } else step) ∧
      writesOf (CreateProcessingStep json enc stub u stepJSON).effects = [(step.ID, bytes)] ∧
      batchUpdatesOf (CreateProcessingStep json enc stub u stepJSON).effects =
        if step.BatchID = "" then [] else [(step.BatchID, "processing")]) ∧
    (∀ certificateId testId batchId batchNumber speciesName testType labId labName
        overallResult issuedDate testedBy resultsJSON bytes,
      enc.marshalQCCertificate
        { ID := certificateId, Type_ := "QCCertificate", CertificateID := certificateId,
          TestID := testId, BatchID := batchId, BatchNumber := batchNumber,
          SpeciesName := speciesName, TestType := testType, LabID := labId,
          LabName := labName, OverallResult := overallResult, IssuedDate := issuedDate,
          TestedBy := testedBy, Results := (parseResults enc resultsJSON).1,
          Timestamp := issuedDate } = .ok bytes →
      stub.PutState certificateId bytes = .ok () →
      (RecordQCCertificate enc stub u certificateId testId batchId batchNumber speciesName
        testType labId labName overallResult issuedDate testedBy resultsJSON).result =
        .ok () ∧
      (RecordQCCertificate enc stub u certificateId testId batchId batchNumber speciesName
        testType labId labName overallResult issuedDate testedBy resultsJSON).record =
        some
          { ID := certificateId, Type_ := "QCCertificate", CertificateID := certificateId,
            TestID := testId, BatchID := batchId, BatchNumber := batchNumber,
            SpeciesName := speciesName, TestType := testType, LabID := labId,
            LabName := labName, OverallResult := overallResult, IssuedDate := issuedDate,
            TestedBy := testedBy, Results := (parseResults enc resultsJSON).1,
            Timestamp := issuedDate } ∧
      writesOf (RecordQCCertificate enc stub u certificateId testId batchId batchNumber
        speciesName testType labId labName overallResult issuedDate testedBy
        resultsJSON).effects = [(certificateId, bytes)] ∧
      batchUpdatesOf (RecordQCCertificate enc stub u certificateId testId batchId batchNumber
        speciesName testType labId labName overallResult issuedDate testedBy
        resultsJSON).effects =
        if batchId = "" then [] else [(batchId, "quality_tested")]) ∧
    (∀ productJSON product bytes,
      json.unmarshalProduct productJSON = .ok product →
      enc.marshalProduct
        (if product.Status = "" then { product with Status := "manufactured" } else product) =
        .ok bytes →
      stub.PutState product.ID bytes = .ok () →
      (CreateProduct json enc stub u productJSON).result = .ok () ∧
      (CreateProduct json enc stub u productJSON).record =
        some (if product.Status = "" then { product with Status := "manufactured" }
          else product) ∧
      writesOf (CreateProduct json enc stub u productJSON).effects = [(product.ID, bytes)] ∧
      batchUpdatesOf (CreateProduct json enc stub u productJSON).effects =
        if product.BatchID = "" then [] else [(product.BatchID, "manufactured")]) ∧
    (∀ testJSON, IgnoresBatchStatus (fun u => CreateQualityTest json enc stub u testJSON)) ∧
    (∀ stepJSON, IgnoresBatchStatus (fun u => CreateProcessingStep json enc stub u stepJSON)) ∧
    (∀ certificateId testId batchId batchNumber speciesName testType labId labName
        overallResult issuedDate testedBy resultsJSON,
      IgnoresBatchStatus (fun u => RecordQCCertificate enc stub u certificateId testId
        batchId batchNumber speciesName testType labId labName overallResult issuedDate
        testedBy resultsJSON)) ∧
    (∀ productJSON, IgnoresBatchStatus (fun u => CreateProduct json enc stub u productJSON)) := by
  have e1 : ∀ key bytes, batchUpdatesOf [Effect.PutState key bytes] = [] := fun _ _ => rfl
  have e2 : ∀ name payload, batchUpdatesOf [Effect.SetEvent name payload] = [] :=
    fun _ _ => rfl
  have e3 : ∀ name payload message,
      batchUpdatesOf [Effect.SetEvent name payload, Effect.log message] = [] :=
    fun _ _ _ => rfl
  have w1 : ∀ key bytes, writesOf [Effect.PutState key bytes] = [(key, bytes)] :=
    fun _ _ => rfl
  have w2 : ∀ name payload, writesOf [Effect.SetEvent name payload] = [] := fun _ _ => rfl
  have w3 : ∀ name payload message,
      writesOf [Effect.SetEvent name payload, Effect.log message] = [] := fun _ _ _ => rfl
  refine ⟨?_, ?_, ?_, ?_, createQualityTest_ignores json enc stub,
    createProcessingStep_ignores json enc stub, recordQCCertificate_ignores enc stub,
    createProduct_ignores json enc stub⟩
  · intro testJSON test bytes hjson hm hp
    rw [createQualityTest_saved json enc stub u testJSON test bytes hjson hm hp]
    refine ⟨rfl, rfl, ?_, ?_⟩
    · simp only [writesOf_append, updateBatch_writes, (applyQualityGate_effects test).1, w1,
        w2, List.nil_append, List.append_nil]
    · simp only [batchUpdatesOf_append, updateBatch_updates,
        (applyQualityGate_effects test).2.1, e1, e2, List.nil_append, List.append_nil]
  · intro stepJSON step bytes hjson hm hp
    rw [createProcessingStep_saved json enc stub u stepJSON step bytes hjson hm hp]
    refine ⟨rfl, rfl, ?_, ?_⟩
    · simp only [writesOf_append, updateBatch_writes, w1, w2, List.append_nil]
    · simp only [batchUpdatesOf_append, updateBatch_updates, e1, e2, List.nil_append,
        List.append_nil]
  · intro certificateId testId batchId batchNumber speciesName testType labId labName
      overallResult issuedDate testedBy resultsJSON bytes hm hp
    rw [recordQCCertificate_saved enc stub u certificateId testId batchId batchNumber
      speciesName testType labId labName overallResult issuedDate testedBy resultsJSON bytes
      hm hp]
    refine ⟨rfl, rfl, ?_, ?_⟩
    · simp only [writesOf_append, updateBatch_writes, (parseResults_effects enc resultsJSON).1,
        w1, w3, List.nil_append, List.append_nil]
    · simp only [batchUpdatesOf_append, updateBatch_updates,
        (parseResults_effects enc resultsJSON).2.1, e1, e3, List.nil_append, List.append_nil]
  · intro productJSON product bytes hjson hm hp
    rw [createProduct_saved json enc stub u productJSON product bytes hjson hm hp]
    refine ⟨rfl, rfl, ?_, ?_⟩
    · simp only [writesOf_append, updateBatch_writes, w1, w2, List.append_nil]
    · simp only [batchUpdatesOf_append, updateBatch_updates, e1, e2, List.nil_append,
        List.append_nil]

/-- C18 (witness): with a batch-status tracker whose every update fails, each of the
four functions saves its record of batch B-1 and returns no error, after one update
attempted under its own label; the outcome is the same with a tracker that succeeds; and
a quality test and a product without a batch ID are saved with no update attempted. -/
theorem C18_batch_status_failure_not_propagated_witness :
    batchStatusFails "B-1" "testing" = .error "batch not found: B-1" ∧
    batchStatusOk "B-1" "testing" = .ok () ∧
    ((CreateQualityTest labJson labRecords fixtureStub batchStatusFails "json:QT-F").result =
        .ok () ∧
      writesOf (CreateQualityTest labJson labRecords fixtureStub batchStatusFails
        "json:QT-F").effects = [("QT-F", "json:QT-F:fail:rejected")] ∧
      batchUpdatesOf (CreateQualityTest labJson labRecords fixtureStub batchStatusFails
        "json:QT-F").effects = [("B-1", "testing")]) ∧
    ((CreateQualityTest labJson labRecords fixtureStub batchStatusOk "json:QT-F").result =
        .ok () ∧
      writesOf (CreateQualityTest labJson labRecords fixtureStub batchStatusOk
        "json:QT-F").effects = [("QT-F", "json:QT-F:fail:rejected")] ∧
      batchUpdatesOf (CreateQualityTest labJson labRecords fixtureStub batchStatusOk
        "json:QT-F").effects = [("B-1", "testing")]) ∧
    ((CreateQualityTest labJson labRecords fixtureStub batchStatusFails "json:QT-Q").result =
        .ok () ∧
      batchUpdatesOf (CreateQualityTest labJson labRecords fixtureStub batchStatusFails
        "json:QT-Q").effects = []) ∧
    ((CreateProcessingStep labJson labRecords fixtureStub batchStatusFails
        "json:PS-1").result = .ok () ∧
      writesOf (CreateProcessingStep labJson labRecords fixtureStub batchStatusFails
        "json:PS-1").effects = [("PS-1", "json:PS-1:completed")] ∧
      batchUpdatesOf (CreateProcessingStep labJson labRecords fixtureStub batchStatusFails
        "json:PS-1").effects = [("B-1", "processing")]) ∧
    ((RecordQCCertificate labRecords fixtureStub batchStatusFails "QC-1" "QT-F" "B-1" "BN-1"
        "Tulsi" "moisture" "L-1" "Lab One" "FAIL" "2025-02-01" "Dr. A" "").result = .ok () ∧
      writesOf (RecordQCCertificate labRecords fixtureStub batchStatusFails "QC-1" "QT-F"
        "B-1" "BN-1" "Tulsi" "moisture" "L-1" "Lab One" "FAIL" "2025-02-01" "Dr. A"
        "").effects = [("QC-1", "json:QC-1:FAIL")] ∧
      batchUpdatesOf (RecordQCCertificate labRecords fixtureStub batchStatusFails "QC-1"
        "QT-F" "B-1" "BN-1" "Tulsi" "moisture" "L-1" "Lab One" "FAIL" "2025-02-01" "Dr. A"
        "").effects = [("B-1", "quality_tested")]) ∧
    ((CreateProduct labJson labRecords fixtureStub batchStatusFails "json:P-2").result =
        .ok () ∧
      writesOf (CreateProduct labJson labRecords fixtureStub batchStatusFails
        "json:P-2").effects = [("P-2", "json:P-2:manufactured")] ∧
      batchUpdatesOf (CreateProduct labJson labRecords fixtureStub batchStatusFails
        "json:P-2").effects = [("B-1", "manufactured")]) ∧
    ((CreateProduct fixtureJson labRecords fixtureStub batchStatusFails "json:P-1").result =
        .ok () ∧
      batchUpdatesOf (CreateProduct fixtureJson labRecords fixtureStub batchStatusFails
        "json:P-1").effects = []) :=
  have hF := C18_batch_status_failure_not_propagated labJson labRecords fixtureStub
    batchStatusFails
  have hO := C18_batch_status_failure_not_propagated labJson labRecords fixtureStub
    batchStatusOk
  have hP := C18_batch_status_failure_not_propagated fixtureJson labRecords fixtureStub
    batchStatusFails
  have t1 := hF.1 "json:QT-F" testFailing "json:QT-F:fail:rejected" lab_unmarshal_failing
    lab_failing_marshal rfl
  have t2 := hO.1 "json:QT-F" testFailing "json:QT-F:fail:rejected" lab_unmarshal_failing
    lab_failing_marshal rfl
  have t3 := hF.1 "json:QT-Q" testPassingPending "json:QT-Q:pass:pending"
    lab_unmarshal_pending lab_pending_marshal rfl
  have t4 := hF.2.1 "json:PS-1" stepDrying "json:PS-1:completed" rfl rfl rfl
  have t5 := hF.2.2.1 "QC-1" "QT-F" "B-1" "BN-1" "Tulsi" "moisture" "L-1" "Lab One" "FAIL"
    "2025-02-01" "Dr. A" "" "json:QC-1:FAIL" rfl rfl
  have t6 := hF.2.2.2.1 "json:P-2" productOfBatch "json:P-2:manufactured" rfl rfl rfl
  have t7 := hP.2.2.2.1 "json:P-1" productNeemPowder "json:P-1:manufactured"
    (by simp [fixtureJson, fixtureProducts, List.lookup]) rfl rfl
  ⟨rfl, rfl, ⟨t1.1, t1.2.2.1, t1.2.2.2⟩, ⟨t2.1, t2.2.2.1, t2.2.2.2⟩, ⟨t3.1, t3.2.2.2⟩,
    ⟨t4.1, t4.2.2.1, t4.2.2.2⟩, ⟨t5.1, t5.2.2.1, t5.2.2.2⟩, ⟨t6.1, t6.2.2.1, t6.2.2.2⟩,
    ⟨t7.1, t7.2.2.2⟩⟩

end stored

end HerbalTrace
